import Mathlib

/-!
# DRBD control plane (drbd_nl.c): fencing, promotion, size negotiation and
administrative requests

A shallow embedding of the parts of `drbd_nl.c` that decide how a replicated
volume is promoted, how the peer is fenced and how the device size is agreed,
and of the handlers that attach a disk, change disk and network options,
connect, delete a connection and dump the status, followed by the properties
established about them.

The state engine (`drbd_state.c`), the bitmap (`drbd_bitmap.c`) and the headers
are not part of the sources at hand.  Calls into them are taken from a
`Kernel` record, or from the record of collaborators of the handler at hand, so
that every statement holds for every behaviour of those collaborators; the few
helpers and constants that have to be concrete are marked as modelled.
-/

namespace Drbd

/-! ## Constants of the headers -/

/-- Modelled from the spec: `enum drbd_disk_state` of linux/drbd.h (absent),
in the order in which the data model lists the disk states; `D_UNKNOWN`, used
for a peer's disk only, lies between Outdated and Consistent. -/
def D_DISKLESS : Nat := 0
/-- Modelled from the spec: `enum drbd_disk_state` of linux/drbd.h (absent). -/
def D_ATTACHING : Nat := 1
/-- Modelled from the spec: `enum drbd_disk_state` of linux/drbd.h (absent). -/
def D_FAILED : Nat := 2
/-- Modelled from the spec: `enum drbd_disk_state` of linux/drbd.h (absent). -/
def D_NEGOTIATING : Nat := 3
/-- Modelled from the spec: `enum drbd_disk_state` of linux/drbd.h (absent). -/
def D_INCONSISTENT : Nat := 4
/-- Modelled from the spec: `enum drbd_disk_state` of linux/drbd.h (absent). -/
def D_OUTDATED : Nat := 5
/-- Modelled from the spec: `enum drbd_disk_state` of linux/drbd.h (absent). -/
def D_UNKNOWN : Nat := 6
/-- Modelled from the spec: `enum drbd_disk_state` of linux/drbd.h (absent). -/
def D_CONSISTENT : Nat := 7
/-- Modelled from the spec: `enum drbd_disk_state` of linux/drbd.h (absent). -/
def D_UP_TO_DATE : Nat := 8
/-- Modelled from the spec: all bits of the 4 bit disk-state field (linux/drbd.h, absent). -/
def D_MASK : Nat := 15

/-- Modelled from the spec: `enum drbd_role` of linux/drbd.h (absent). -/
def R_UNKNOWN : Nat := 0
/-- Modelled from the spec: `enum drbd_role` of linux/drbd.h (absent). -/
def R_PRIMARY : Nat := 1
/-- Modelled from the spec: `enum drbd_role` of linux/drbd.h (absent). -/
def R_SECONDARY : Nat := 2
/-- Modelled from the spec: all bits of the 2 bit role field (linux/drbd.h, absent). -/
def R_MASK : Nat := 3

/-- Modelled from the spec: `enum drbd_conns` of linux/drbd.h (absent): the
first connection state in which parameters are being exchanged. -/
def C_WF_REPORT_PARAMS : Nat := 9
/-- Modelled from the spec: `enum drbd_conns` of linux/drbd.h (absent). -/
def C_CONNECTED : Nat := 10

/-- Modelled from the spec: `enum drbd_fencing_p` of linux/drbd.h (absent):
NotAvailable below DontCare below Resource below Stonith. -/
def FP_NOT_AVAIL : Int := -1
/-- Modelled from the spec: `enum drbd_fencing_p` of linux/drbd.h (absent). -/
def FP_DONT_CARE : Int := 0
/-- Modelled from the spec: `enum drbd_fencing_p` of linux/drbd.h (absent). -/
def FP_RESOURCE : Int := 1
/-- Modelled from the spec: `enum drbd_fencing_p` of linux/drbd.h (absent). -/
def FP_STONITH : Int := 2

/-- Modelled from the spec: `enum chg_state_flags` (drbd_int.h, absent):
verbose error reporting. -/
def CS_VERBOSE : Nat := 2
/-- Modelled from the spec: `enum chg_state_flags` (drbd_int.h, absent):
wait for completion. -/
def CS_WAIT_COMPLETE : Nat := 4

/-- Modelled from the spec: `enum drbd_state_rv` of linux/drbd.h (absent):
outcomes at or above `SS_SUCCESS` are acceptances, those below are rejections. -/
def SS_NOTHING_TO_DO : Int := 2
/-- Modelled from the spec: `enum drbd_state_rv` of linux/drbd.h (absent). -/
def SS_SUCCESS : Int := 1
/-- Modelled from the spec: `enum drbd_state_rv` of linux/drbd.h (absent). -/
def SS_UNKNOWN_ERROR : Int := 0
/-- Modelled from the spec: `enum drbd_state_rv` of linux/drbd.h (absent). -/
def SS_TWO_PRIMARIES : Int := -1
/-- Modelled from the spec: `enum drbd_state_rv` of linux/drbd.h (absent). -/
def SS_NO_UP_TO_DATE_DISK : Int := -2
/-- Modelled from the spec: `enum drbd_state_rv` of linux/drbd.h (absent). -/
def SS_NO_LOCAL_DISK : Int := -4
/-- Modelled from the spec: `enum drbd_state_rv` of linux/drbd.h (absent). -/
def SS_PRIMARY_NOP : Int := -7
/-- Modelled from the spec: `enum drbd_state_rv` of linux/drbd.h (absent). -/
def SS_CW_FAILED_BY_PEER : Int := -10

/-! ## Data model -/

/-- The bit-fields of `union drbd_state`; a field of a mask is non-zero when
the dimension is constrained.  `{}` is the all-zero word (`.i = 0`). -/
structure drbd_state where
  role : Nat := 0
  peer : Nat := 0
  conn : Nat := 0
  disk : Nat := 0
  pdsk : Nat := 0
  susp : Nat := 0
  aftr_isp : Nat := 0
  peer_isp : Nat := 0
  user_isp : Nat := 0
  susp_nod : Nat := 0
  susp_fen : Nat := 0
deriving DecidableEq, Repr

/-- The on-disk meta data geometry, the last agreed size, the persisted flags
and the current generation UUID (`struct drbd_md`);
offsets are in sectors, `al_offset` and `bm_offset` relative to `md_offset`.
The field widths are declared in drbd_int.h (absent): `md_size_sect` is a
`u32`, `al_offset` and `bm_offset` are `s32`; the stores of
`drbd_md_set_sector_offsets` narrow to them by `to_u32` and `to_s32`. -/
structure drbd_md where
  md_offset : Int := 0
  la_size_sect : Nat := 0
  md_size_sect : Int := 0
  al_offset : Int := 0
  bm_offset : Int := 0
  /-- `md.flags`, the persisted `MDF_*` bits -/
  flags : Nat := 0
  /-- `md.uuid[UI_CURRENT]` -/
  uuid_current : Nat := 0
deriving DecidableEq, Repr

/-- A backing device (`struct drbd_backing_dev`): meta data, the disk
configuration fields `dc.fencing`, `dc.disk_size` and `dc.meta_dev_idx`, the
capacities `drbd_get_capacity(backing_bdev)` and `drbd_get_capacity(md_bdev)`,
and the value of `drbd_get_max_capacity` (drbd_int.h, absent). -/
structure drbd_backing_dev where
  md : drbd_md := {}
  fencing : Int := 0
  disk_size : Nat := 0
  meta_dev_idx : Int := 0
  backing_capacity : Nat := 0
  md_capacity : Nat := 0
  max_capacity : Nat := 0
deriving DecidableEq, Repr

/-- What the code at hand reads and writes of a volume (`struct drbd_conf`):
the state word, the peer's size, the capacity of the replicated device
(`drbd_get_capacity(mdev->this_bdev)`), the capacity the bitmap covers
(`drbd_bm_capacity`) and the backing device `mdev->ldev`. -/
structure drbd_conf where
  state : drbd_state := {}
  p_size : Nat := 0
  this_capacity : Nat := 0
  bm_capacity : Nat := 0
  ldev : drbd_backing_dev := {}
deriving DecidableEq, Repr

/-- The observable actions of the control plane, in program order. -/
inductive Event where
  | request_ping
  | fence_peer_helper
  | conn_request_state (mask val : drbd_state) (flags : Nat)
  | _drbd_request_state (mask val : drbd_state) (flags : Nat) (rv : Int)
  | warn_forced_split_brain
  | warn_forced_up_to_date
  | schedule_timeout
  | wait_ap_pending
  | set_disk_ro (ro : Bool)
  | uuid_clear_primary_bit
  | uuid_set_primary_bit
  | clear_want_lose
  | drbd_uuid_new_current
  | drbd_send_uuids
  | drbd_send_state
  | drbd_md_sync
  | drbd_kobject_uevent
deriving DecidableEq, Repr

/-- The collaborators of `drbd_nl.c` over an arbitrary world `σ`: what the code
reads of the connection and of the volume, and the calls it makes into the
state engine and the user-mode helper.  Each call may change the world in any
way and may answer differently each time. -/
structure Kernel (σ : Type) where
  /-- `tconn->cstate` -/
  cstate : σ → Nat
  /-- the member volumes, as `idr_for_each_entry(&tconn->volumes, ...)` visits them -/
  volumes : σ → List drbd_conf
  /-- `mdev->state` of the volume `drbd_set_role` works on -/
  mdev_state : σ → drbd_state
  /-- `get_ldev(mdev)` succeeds -/
  get_ldev : σ → Bool
  /-- `mdev->ldev->md.uuid[UI_BITMAP]` -/
  uuid_bitmap : σ → Nat
  /-- `mdev->tconn->net_conf` is set -/
  has_net_conf : σ → Bool
  /-- `call_usermodehelper(usermode_helper, argv, envp, 1)`: raw result -/
  call_usermodehelper : σ → Int × σ
  /-- `conn_request_state(tconn, mask, val, flags)`; the code drops its result -/
  conn_request_state : σ → drbd_state → drbd_state → Nat → σ
  /-- `_drbd_request_state(mdev, mask, val, flags)` -/
  _drbd_request_state : σ → drbd_state → drbd_state → Nat → Int × σ

/-- The result of a call: returned value, world afterwards, actions taken. -/
structure Outcome (σ : Type) (α : Type) where
  ret : α
  state : σ
  trace : List Event

variable {σ : Type}

/-! ## Fencing coordinator -/

/-- Modelled from the spec: `conn_highest_disk` (drbd_state.c, absent): the
highest local disk state over the member volumes, `D_DISKLESS` when there are none. -/
def conn_highest_disk (vols : List drbd_conf) : Nat :=
  vols.foldl (fun ds mdev => max ds mdev.state.disk) D_DISKLESS

/-- Modelled from the spec: `conn_highest_pdsk` (drbd_state.c, absent): the
highest peer disk state over the member volumes, `D_DISKLESS` when there are none. -/
def conn_highest_pdsk (vols : List drbd_conf) : Nat :=
  vols.foldl (fun ds mdev => max ds mdev.state.pdsk) D_DISKLESS

/-- Modelled from the spec: `get_ldev_if_state(mdev, mins)` (drbd_int.h, absent):
the local disk may be used when its state is at least `mins`. -/
def get_ldev_if_state (mdev : drbd_conf) (mins : Nat) : Bool :=
  decide (mins ≤ mdev.state.disk)

/-- `conn_khelper`: runs the helper and ignores negative (errno) results. -/
def conn_khelper (K : Kernel σ) (s : σ) : Int × σ :=
  let ret := (K.call_usermodehelper s).1
  (if ret < 0 then 0 else ret, (K.call_usermodehelper s).2)

/-- `highest_fencing_policy`: the maximum of `dc.fencing` over the volumes whose
local disk is at least Consistent, `FP_NOT_AVAIL` when there is none. -/
def highest_fencing_policy (vols : List drbd_conf) : Int :=
  vols.foldl
    (fun fp mdev => if get_ldev_if_state mdev D_CONSISTENT then max fp mdev.ldev.fencing else fp)
    FP_NOT_AVAIL

/-- The exit code `(r >> 8) & 0xff` of a helper result `r`. -/
def exit_code (r : Int) : Int := (r / 256) % 256

/-- The tail of `conn_try_outdate_peer` from the label `out`: one masked state
request, then the comparison of the highest peer disk state with Outdated. -/
def conn_try_outdate_peer_out (K : Kernel σ) (s : σ) (mask val : drbd_state)
    (tr : List Event) : Outcome σ Bool :=
  let s2 := K.conn_request_state s mask val CS_VERBOSE
  { ret := decide (conn_highest_pdsk (K.volumes s2) ≤ D_OUTDATED)
    state := s2
    trace := tr ++ [Event.conn_request_state mask val CS_VERBOSE] }

/-- `conn_try_outdate_peer`. -/
def conn_try_outdate_peer (K : Kernel σ) (s : σ) : Outcome σ Bool :=
  let mask : drbd_state := { susp_fen := 1 }
  let val : drbd_state := {}
  if C_WF_REPORT_PARAMS ≤ K.cstate s then
    { ret := false, state := s, trace := [] }
  else
    let fp := highest_fencing_policy (K.volumes s)
    if fp = FP_NOT_AVAIL then
      conn_try_outdate_peer_out K s mask val []
    else if fp = FP_DONT_CARE then
      { ret := true, state := s, trace := [] }
    else
      let r := (conn_khelper K s).1
      let s1 := (conn_khelper K s).2
      let tr := [Event.fence_peer_helper]
      if exit_code r = 3 then
        conn_try_outdate_peer_out K s1 { mask with pdsk := D_MASK }
          { val with pdsk := D_INCONSISTENT } tr
      else if exit_code r = 4 then
        conn_try_outdate_peer_out K s1 { mask with pdsk := D_MASK }
          { val with pdsk := D_OUTDATED } tr
      else if exit_code r = 5 then
        if conn_highest_disk (K.volumes s1) = D_UP_TO_DATE then
          conn_try_outdate_peer_out K s1 { mask with pdsk := D_MASK }
            { val with pdsk := D_OUTDATED } tr
        else
          conn_try_outdate_peer_out K s1 mask val tr
      else if exit_code r = 6 then
        conn_try_outdate_peer_out K s1 { mask with disk := D_MASK }
          { val with disk := D_OUTDATED } tr
      else if exit_code r = 7 then
        conn_try_outdate_peer_out K s1 { mask with pdsk := D_MASK }
          { val with pdsk := D_OUTDATED } tr
      else
        { ret := false, state := s1, trace := tr }

/-! ## Promotion -/

/-- `max_tries` of `drbd_set_role`. -/
def max_tries : Nat := 4

/-- How the retry loop of `drbd_set_role` is left: the last `rv`, whether it was
left through `goto out`, the flag `forced`, the world and the actions. -/
structure role_loop_result (σ : Type) where
  rv : Int
  goto_out : Bool
  forced : Bool
  state : σ
  trace : List Event

/-- The actions `tr` followed by those of `r`. -/
def role_loop_result.after (tr : List Event) (r : role_loop_result σ) : role_loop_result σ :=
  { r with trace := tr ++ r.trace }

/-- The retry loop `while (try++ < max_tries)` of `drbd_set_role`, entered with
the current values of `try`, `mask`, `val`, `forced` and `rv`.  The assertion
`D_ASSERT(mdev->state.pdsk == D_UNKNOWN)` only logs and is left out. -/
def set_role_loop (K : Kernel σ) (force : Bool) (try_ : Nat) (mask val : drbd_state)
    (forced : Bool) (rv : Int) (s : σ) : role_loop_result σ :=
  if try_ < max_tries then
    let try1 := try_ + 1
    let rv1 := (K._drbd_request_state s mask val CS_WAIT_COMPLETE).1
    let s1 := (K._drbd_request_state s mask val CS_WAIT_COMPLETE).2
    let ev := Event._drbd_request_state mask val CS_WAIT_COMPLETE rv1
    if rv1 = SS_CW_FAILED_BY_PEER ∧ mask.pdsk ≠ 0 then
      (set_role_loop K force try1 { mask with pdsk := 0 } { val with pdsk := 0 }
        forced rv1 s1).after [ev]
    else if rv1 = SS_NO_UP_TO_DATE_DISK ∧ force = true ∧
        ((K.mdev_state s1).disk < D_UP_TO_DATE ∧ (K.mdev_state s1).disk ≥ D_INCONSISTENT) then
      (set_role_loop K force try1 { mask with disk := D_MASK } { val with disk := D_UP_TO_DATE }
        true rv1 s1).after [ev]
    else if rv1 = SS_NO_UP_TO_DATE_DISK ∧ (K.mdev_state s1).disk = D_CONSISTENT ∧
        mask.pdsk = 0 then
      if (conn_try_outdate_peer K s1).ret = true then
        (set_role_loop K force try1 { mask with disk := D_MASK }
          { val with disk := D_UP_TO_DATE } forced rv1
          (conn_try_outdate_peer K s1).state).after (ev :: (conn_try_outdate_peer K s1).trace)
      else
        (set_role_loop K force try1 mask val forced rv1
          (conn_try_outdate_peer K s1).state).after (ev :: (conn_try_outdate_peer K s1).trace)
    else if rv1 = SS_NOTHING_TO_DO then
      { rv := rv1, goto_out := true, forced := forced, state := s1, trace := [ev] }
    else if rv1 = SS_PRIMARY_NOP ∧ mask.pdsk = 0 then
      if (conn_try_outdate_peer K s1).ret = false ∧ force = true then
        (set_role_loop K force try1 { mask with pdsk := D_MASK }
          { val with pdsk := D_OUTDATED } forced rv1
          (conn_try_outdate_peer K s1).state).after
            (ev :: (conn_try_outdate_peer K s1).trace ++ [Event.warn_forced_split_brain])
      else
        (set_role_loop K force try1 mask val forced rv1
          (conn_try_outdate_peer K s1).state).after (ev :: (conn_try_outdate_peer K s1).trace)
    else if rv1 = SS_TWO_PRIMARIES then
      let try2 := if try1 < max_tries then max_tries - 1 else try1
      (set_role_loop K force try2 mask val forced rv1 s1).after [ev, Event.schedule_timeout]
    else if rv1 < SS_SUCCESS then
      let rv2 := (K._drbd_request_state s1 mask val (CS_VERBOSE + CS_WAIT_COMPLETE)).1
      let s2 := (K._drbd_request_state s1 mask val (CS_VERBOSE + CS_WAIT_COMPLETE)).2
      let ev2 := Event._drbd_request_state mask val (CS_VERBOSE + CS_WAIT_COMPLETE) rv2
      if rv2 < SS_SUCCESS then
        { rv := rv2, goto_out := true, forced := forced, state := s2, trace := [ev, ev2] }
      else
        { rv := rv2, goto_out := false, forced := forced, state := s2, trace := [ev, ev2] }
    else
      { rv := rv1, goto_out := false, forced := forced, state := s1, trace := [ev] }
  else
    { rv := rv, goto_out := false, forced := forced, state := s, trace := [] }
termination_by max_tries - try_
decreasing_by
  all_goals simp_wf
  all_goals simp only [max_tries] at *
  all_goals first | omega | (split_ifs <;> omega)

/-- What `drbd_set_role` does after the loop once the role change was accepted. -/
def set_role_effects (K : Kernel σ) (s : σ) (new_role : Nat) (forced : Bool) : List Event :=
  (if forced = true then [Event.warn_forced_up_to_date] else []) ++
  [Event.wait_ap_pending] ++
  (if new_role = R_SECONDARY then
    [Event.set_disk_ro true] ++
    (if K.get_ldev s = true then [Event.uuid_clear_primary_bit] else [])
  else
    (if K.has_net_conf s = true then [Event.clear_want_lose] else []) ++
    [Event.set_disk_ro false] ++
    (if K.get_ldev s = true then
      (if (((K.mdev_state s).conn < C_CONNECTED ∨ (K.mdev_state s).pdsk ≤ D_FAILED) ∧
          K.uuid_bitmap s = 0) ∨ forced = true then [Event.drbd_uuid_new_current] else []) ++
      [Event.uuid_set_primary_bit]
    else [])) ++
  (if (K.mdev_state s).conn ≥ C_WF_REPORT_PARAMS then
    (if forced = true then [Event.drbd_send_uuids] else []) ++ [Event.drbd_send_state]
  else []) ++
  [Event.drbd_md_sync, Event.drbd_kobject_uevent]

/-- `drbd_set_role(mdev, new_role, force)`. -/
def drbd_set_role (K : Kernel σ) (s : σ) (new_role : Nat) (force : Bool) : Outcome σ Int :=
  let ping := if new_role = R_PRIMARY then [Event.request_ping] else []
  let mask : drbd_state := { role := R_MASK }
  let val : drbd_state := { role := new_role }
  let l := set_role_loop K force 0 mask val false SS_UNKNOWN_ERROR s
  if l.goto_out = true ∨ l.rv < SS_SUCCESS then
    { ret := l.rv, state := l.state, trace := ping ++ l.trace }
  else
    { ret := l.rv, state := l.state
      trace := ping ++ l.trace ++ set_role_effects K l.state new_role l.forced }

/-- A state request made with the wait-for-completion flag. -/
def is_wait_request : Event → Bool
  | Event._drbd_request_state _ _ flags _ => decide (flags &&& CS_WAIT_COMPLETE ≠ 0)
  | Event.conn_request_state _ _ flags => decide (flags &&& CS_WAIT_COMPLETE ≠ 0)
  | _ => false

/-- A pass of the retry loop of `drbd_set_role`: a request made with the
wait-for-completion flag alone. -/
def is_attempt : Event → Bool
  | Event._drbd_request_state _ _ flags _ => decide (flags = CS_WAIT_COMPLETE)
  | _ => false

/-- The outcomes of the `_drbd_request_state` calls of a trace, in order. -/
def request_outcomes : List Event → List Int
  | [] => []
  | Event._drbd_request_state _ _ _ rv :: rest => rv :: request_outcomes rest
  | _ :: rest => request_outcomes rest

/-- The `mask` and `val` of the `_drbd_request_state` calls of a trace, in order. -/
def requests : List Event → List (drbd_state × drbd_state)
  | [] => []
  | Event._drbd_request_state mask val _ _ :: rest => (mask, val) :: requests rest
  | _ :: rest => requests rest

/-! ## Size negotiation -/

/-- The layout constants and helpers of drbd_int.h and linux/drbd.h (absent)
that `drbd_md_set_sector_offsets` uses, taken as parameters: the reserved size
of indexed meta data, the offset and size of the activity log, the offset of
the bitmap, the bitmap extent macros, the special meta-data indices, and
`drbd_md_ss__` as a function of the index and of the backing capacity. -/
structure Layout where
  MD_RESERVED_SECT : Nat
  MD_AL_OFFSET : Nat
  MD_AL_SECTORS : Nat
  MD_BM_OFFSET : Nat
  BM_SECT_PER_EXT : Nat
  BM_SECT_TO_EXT : Nat → Nat
  DRBD_MD_INDEX_INTERNAL : Int
  DRBD_MD_INDEX_FLEX_EXT : Int
  DRBD_MD_INDEX_FLEX_INT : Int
  drbd_md_ss : Int → Nat → Int

/-- Modelled from the spec: the kernel macro `ALIGN(x, a)` (absent) on 64 bit
sector counts, for a power of two `a`: `x` rounded up to a multiple of `a`. -/
def ALIGN (x a : Nat) : Nat := (x + a - 1) % 2 ^ 64 / a * a

/-- Modelled from the spec: the store into a `u32` member of `struct drbd_md`
(drbd_int.h, absent; `md_size_sect` is one): the value is narrowed to 32 bits. -/
def to_u32 (x : Nat) : Int := ((x % 2 ^ 32 : Nat) : Int)

/-- Modelled from the spec: the store into an `s32` member of `struct drbd_md`
(drbd_int.h, absent; `al_offset` and `bm_offset` are such): the value is narrowed
to 32 bits in two's complement. -/
def to_s32 (x : Int) : Int := (x + 2 ^ 31) % 2 ^ 32 - 2 ^ 31

/-- `drbd_md_set_sector_offsets`: initialises the `md.*_offset` members.  The
local `md_size_sect` is a 64 bit `sector_t`; the members `md_size_sect`,
`al_offset` and `bm_offset` take the values narrowed to their 32 bits. -/
def drbd_md_set_sector_offsets (L : Layout) (bdev : drbd_backing_dev) : drbd_backing_dev :=
  if bdev.meta_dev_idx = L.DRBD_MD_INDEX_FLEX_EXT then
    { bdev with md := { bdev.md with
        md_size_sect := to_u32 bdev.md_capacity
        md_offset := 0
        al_offset := to_s32 L.MD_AL_OFFSET
        bm_offset := to_s32 L.MD_BM_OFFSET } }
  else if bdev.meta_dev_idx = L.DRBD_MD_INDEX_INTERNAL ∨
      bdev.meta_dev_idx = L.DRBD_MD_INDEX_FLEX_INT then
    let md_size_sect : Nat := bdev.backing_capacity
    let md_size_sect := ALIGN md_size_sect L.BM_SECT_PER_EXT
    let md_size_sect := L.BM_SECT_TO_EXT md_size_sect
    let md_size_sect := ALIGN md_size_sect 8
    let md_size_sect := (md_size_sect + L.MD_BM_OFFSET) % 2 ^ 64
    { bdev with md := { bdev.md with
        md_offset := L.drbd_md_ss bdev.meta_dev_idx bdev.backing_capacity
        al_offset := to_s32 (- (L.MD_AL_SECTORS : Int))
        md_size_sect := to_u32 md_size_sect
        bm_offset := to_s32 (- (md_size_sect : Int) + L.MD_AL_OFFSET) } }
  else
    { bdev with md := { bdev.md with
        md_size_sect := to_u32 L.MD_RESERVED_SECT
        md_offset := L.drbd_md_ss bdev.meta_dev_idx bdev.backing_capacity
        al_offset := to_s32 L.MD_AL_OFFSET
        bm_offset := to_s32 L.MD_BM_OFFSET } }

/-- Modelled from the spec: `drbd_md_first_sector` (drbd_int.h, absent): the
first sector of the meta data area, which for internal meta data is where the
bitmap starts. -/
def drbd_md_first_sector (L : Layout) (bdev : drbd_backing_dev) : Int :=
  if bdev.meta_dev_idx = L.DRBD_MD_INDEX_INTERNAL ∨
      bdev.meta_dev_idx = L.DRBD_MD_INDEX_FLEX_INT then
    bdev.md.md_offset + bdev.md.bm_offset
  else
    bdev.md.md_offset

/-- `drbd_new_dev_size`: the size to agree on, from the peer's size, the last
agreed size, the local maximum and the size requested by the user. -/
def drbd_new_dev_size (mdev : drbd_conf) (bdev : drbd_backing_dev)
    (assume_peer_has_space : Bool) : Nat :=
  let la_size := bdev.md.la_size_sect
  let u_size := bdev.disk_size
  let m_size := bdev.max_capacity
  let p_size :=
    if mdev.state.conn < C_CONNECTED ∧ assume_peer_has_space = true then m_size
    else mdev.p_size
  let size :=
    if p_size ≠ 0 ∧ m_size ≠ 0 then
      min p_size m_size
    else if la_size ≠ 0 then
      let size := la_size
      let size := if m_size ≠ 0 ∧ m_size < size then m_size else size
      if p_size ≠ 0 ∧ p_size < size then p_size else size
    else
      let size := if m_size ≠ 0 then m_size else 0
      if p_size ≠ 0 then p_size else size
  if u_size ≠ 0 then
    if u_size > size then size else u_size
  else
    size

/-- The values of `enum determine_dev_size`. -/
inductive determine_dev_size where
  | dev_size_error
  | unchanged
  | shrunk
  | grew
deriving DecidableEq, Repr

/-- Modelled from the spec: `enum dds_flags` (drbd_int.h, absent): the resize
was forced by the user. -/
def DDSF_FORCED : Nat := 1
/-- Modelled from the spec: `enum dds_flags` (drbd_int.h, absent): do not
resync the new area. -/
def DDSF_NO_RESYNC : Nat := 2

/-- What a call of `drbd_determin_dev_size` leaves: the returned value, the
volume, whether the bitmap was resized and whether the activity log was shrunk
and the whole bitmap written. -/
structure dds_result where
  rv : determine_dev_size
  mdev : drbd_conf
  bm_resized : Bool
  bitmap_written : Bool
deriving DecidableEq, Repr

/-- Modelled from the spec: a successful `drbd_bm_resize(mdev, size, _)`
(drbd_bitmap.c, absent) makes the bitmap cover `size` sectors. -/
def drbd_bm_resize (mdev : drbd_conf) (size : Nat) : drbd_conf :=
  { mdev with bm_capacity := size }

/-- The end of `drbd_determin_dev_size`: `rv` starts as `unchanged`, becomes
`grew` if the size is above the previous last agreed size and `shrunk` if it
is below. -/
def size_verdict (size la_size : Nat) : determine_dev_size :=
  let rv := determine_dev_size.unchanged
  let rv := if size > la_size then determine_dev_size.grew else rv
  if size < la_size then determine_dev_size.shrunk else rv

/-- `drbd_determin_dev_size`; `bm_resize_err` and `bitmap_io_err` say whether
`drbd_bm_resize` and `drbd_bitmap_io` fail if this call gets to them. -/
def drbd_determin_dev_size (L : Layout) (mdev : drbd_conf) (flags : Nat)
    (bm_resize_err bitmap_io_err : Bool) : dds_result :=
  let prev_first_sect := drbd_md_first_sector L mdev.ldev
  let prev_size := mdev.ldev.md.md_size_sect
  let la_size := mdev.ldev.md.la_size_sect
  let mdev := { mdev with ldev := drbd_md_set_sector_offsets L mdev.ldev }
  let size := drbd_new_dev_size mdev mdev.ldev (decide (flags &&& DDSF_FORCED ≠ 0))
  let resize : Bool := decide (mdev.this_capacity ≠ size ∨ mdev.bm_capacity ≠ size)
  let err : Bool := resize && bm_resize_err
  let mdev := if resize = true ∧ err = false then drbd_bm_resize mdev size else mdev
  let size := if err = true then mdev.bm_capacity / 2 else size
  let mdev :=
    if resize = true then
      { mdev with
        this_capacity := size
        ldev := { mdev.ldev with md := { mdev.ldev.md with la_size_sect := size } } }
    else mdev
  if err = true then
    { rv := determine_dev_size.dev_size_error, mdev := mdev,
      bm_resized := false, bitmap_written := false }
  else
    let la_size_changed : Bool := decide (la_size ≠ mdev.ldev.md.la_size_sect)
    let md_moved : Bool := decide (prev_first_sect ≠ drbd_md_first_sector L mdev.ldev ∨
      prev_size ≠ mdev.ldev.md.md_size_sect)
    if la_size_changed = true ∨ md_moved = true then
      if bitmap_io_err = true then
        { rv := determine_dev_size.dev_size_error, mdev := mdev,
          bm_resized := resize, bitmap_written := false }
      else
        { rv := size_verdict size la_size, mdev := mdev,
          bm_resized := resize, bitmap_written := true }
    else
      { rv := size_verdict size la_size, mdev := mdev,
        bm_resized := resize, bitmap_written := false }

/-- Modelled from the spec: the values of the layout constants in drbd_int.h
and linux/drbd.h (absent): 128 MiB of indexed meta data, an activity log of 64
sectors 8 sectors after the superblock, bitmap extents of 2^15 sectors, and the
superblock of internal meta data in the last 4 KiB aligned block. -/
def drbd_layout : Layout :=
  { MD_RESERVED_SECT := 262144
    MD_AL_OFFSET := 8
    MD_AL_SECTORS := 64
    MD_BM_OFFSET := 72
    BM_SECT_PER_EXT := 32768
    BM_SECT_TO_EXT := fun x => x / 32768
    DRBD_MD_INDEX_INTERNAL := -1
    DRBD_MD_INDEX_FLEX_EXT := -2
    DRBD_MD_INDEX_FLEX_INT := -3
    drbd_md_ss := fun idx capacity =>
      if idx = -2 then 0
      else if idx = -1 ∨ idx = -3 then (capacity / 8 * 8 : Nat) - 8
      else 262144 * idx }

/-! ## A concrete world for examples -/

/-- Modelled from the spec: the state engine (drbd_state.c) is absent; the
would-be new state is the current one with the masked dimensions replaced by
the target's values. -/
def apply_mask_val (os mask val : drbd_state) : drbd_state :=
  { role := if mask.role ≠ 0 then val.role else os.role
    peer := if mask.peer ≠ 0 then val.peer else os.peer
    conn := if mask.conn ≠ 0 then val.conn else os.conn
    disk := if mask.disk ≠ 0 then val.disk else os.disk
    pdsk := if mask.pdsk ≠ 0 then val.pdsk else os.pdsk
    susp := if mask.susp ≠ 0 then val.susp else os.susp
    aftr_isp := if mask.aftr_isp ≠ 0 then val.aftr_isp else os.aftr_isp
    peer_isp := if mask.peer_isp ≠ 0 then val.peer_isp else os.peer_isp
    user_isp := if mask.user_isp ≠ 0 then val.user_isp else os.user_isp
    susp_nod := if mask.susp_nod ≠ 0 then val.susp_nod else os.susp_nod
    susp_fen := if mask.susp_fen ≠ 0 then val.susp_fen else os.susp_fen }

/-- A small concrete world: one connection with its volumes, the result the
helper will give, and the outcomes the state engine will give to the requests
of `drbd_set_role`, in order (success once the script is used up). -/
structure World where
  cstate : Nat
  volumes : List drbd_conf
  helper_result : Int
  script : List Int
deriving DecidableEq, Repr

/-- The volumes after a request has been applied to the first of them. -/
def apply_first (vols : List drbd_conf) (mask val : drbd_state) : List drbd_conf :=
  match vols with
  | [] => []
  | mdev :: rest => { mdev with state := apply_mask_val mdev.state mask val } :: rest

/-- The volumes after a request has been applied to each of them. -/
def apply_all (vols : List drbd_conf) (mask val : drbd_state) : List drbd_conf :=
  vols.map (fun mdev => { mdev with state := apply_mask_val mdev.state mask val })

/-- The state of the first volume (all-zero when there is none). -/
def first_state (vols : List drbd_conf) : drbd_state :=
  match vols with
  | [] => {}
  | mdev :: _ => mdev.state

/-- Modelled from the spec: a state engine that accepts every connection-wide
request and applies it to each member volume, and that answers the requests of
`drbd_set_role` from the script, applying a request to the first volume when
the scripted outcome is an acceptance. -/
def scripted : Kernel World where
  cstate := fun w => w.cstate
  volumes := fun w => w.volumes
  mdev_state := fun w => first_state w.volumes
  get_ldev := fun w => decide (D_INCONSISTENT ≤ (first_state w.volumes).disk)
  uuid_bitmap := fun _ => 0
  has_net_conf := fun _ => false
  call_usermodehelper := fun w => (w.helper_result, w)
  conn_request_state := fun w mask val _ =>
    { w with volumes := apply_all w.volumes mask val }
  _drbd_request_state := fun w mask val _ =>
    match w.script with
    | [] => (SS_SUCCESS, { w with volumes := apply_first w.volumes mask val })
    | rv :: rest =>
      if rv < SS_SUCCESS then (rv, { w with script := rest })
      else (rv, { w with script := rest, volumes := apply_first w.volumes mask val })

/-! ## Example inputs and specification-side definitions -/

/-- World of the exit-code-5 example: one volume, Consistent, peer unknown,
I/O suspended for fencing, policy Resource; the helper will exit with code 5. -/
def w_peer_down : World :=
  { cstate := 0
    volumes := [{ state := { disk := D_CONSISTENT, pdsk := D_UNKNOWN, susp_fen := 1 },
                  ldev := { fencing := FP_RESOURCE } }]
    helper_result := 5 * 256
    script := [] }

/-- World of the not-available example: one volume whose own disk is only
Inconsistent while the peer is already known to be Outdated. -/
def w_not_avail : World :=
  { cstate := 0
    volumes := [{ state := { disk := D_INCONSISTENT, pdsk := D_OUTDATED },
                  ldev := { fencing := FP_RESOURCE } }]
    helper_result := 0
    script := [] }

/-- World of the fenced-peer example: UpToDate volume, peer unknown, I/O
suspended for fencing, policy Resource; the helper will exit with code 4. -/
def w_fenced : World :=
  { cstate := 0
    volumes := [{ state := { disk := D_UP_TO_DATE, pdsk := D_UNKNOWN, susp_fen := 1 },
                  ldev := { fencing := FP_RESOURCE } }]
    helper_result := 4 * 256
    script := [] }

/-- World of the broken-helper example: the helper exits with code 1. -/
def w_broken : World :=
  { cstate := 0
    volumes := [{ state := { disk := D_UP_TO_DATE, pdsk := D_UNKNOWN, susp_fen := 1 },
                  ldev := { fencing := FP_STONITH } }]
    helper_result := 1 * 256
    script := [] }

/-- World of the second not-available example: the volume is Inconsistent and
the peer disk is unknown. -/
def w_not_avail_unknown : World :=
  { cstate := 0
    volumes := [{ state := { disk := D_INCONSISTENT, pdsk := D_UNKNOWN },
                  ldev := { fencing := FP_RESOURCE } }]
    helper_result := 0
    script := [] }

/-- The size rule in the words of the specification, clipping: `x` reduced to
`bound` when `bound` is known (non-zero) and smaller. -/
def clip_to_known (x bound : Nat) : Nat :=
  if bound ≠ 0 ∧ bound < x then bound else x

/-- The size rule in the words of the specification, without user override:
the minimum of the peer's size and the local maximum when both are known,
otherwise the last agreed size clipped to whichever of the two is known. -/
def spec_agreed_size (p_size m_size la_size : Nat) : Nat :=
  if p_size ≠ 0 ∧ m_size ≠ 0 then min p_size m_size
  else clip_to_known (clip_to_known la_size m_size) p_size

/-- A volume whose peer and local maximum are both 100 sectors. -/
def mdev_both_known : drbd_conf :=
  { state := { conn := C_CONNECTED }, p_size := 100 }

/-- A backing device of at most 100 sectors for which the user asked for 200. -/
def bdev_user_too_big : drbd_backing_dev :=
  { max_capacity := 100, disk_size := 200 }

/-- A backing device of at most 100 sectors for which the user asked for 60. -/
def bdev_user_fits : drbd_backing_dev :=
  { max_capacity := 100, disk_size := 60 }

/-- A backing device of at most 100 sectors, last agreed size 80, no user size. -/
def bdev_plain : drbd_backing_dev :=
  { max_capacity := 100, md := { la_size_sect := 80 } }

/-- The value of `size` in `drbd_new_dev_size` before the user's size is looked at. -/
def size_before_user (p_size m_size la_size : Nat) : Nat :=
  if p_size ≠ 0 ∧ m_size ≠ 0 then
    min p_size m_size
  else if la_size ≠ 0 then
    let size := la_size
    let size := if m_size ≠ 0 ∧ m_size < size then m_size else size
    if p_size ≠ 0 ∧ p_size < size then p_size else size
  else
    let size := if m_size ≠ 0 then m_size else 0
    if p_size ≠ 0 then p_size else size

/-- A volume whose device and bitmap already have the agreed size of 100
sectors while the meta data still records 50 as last agreed size; external
meta data at index 0, the geometry already set. -/
def mdev_stale_la : drbd_conf :=
  { state := { conn := C_CONNECTED }
    p_size := 100
    this_capacity := 100
    bm_capacity := 100
    ldev := drbd_md_set_sector_offsets drbd_layout
      { max_capacity := 100, md := { la_size_sect := 50 } } }

/-- A volume without capacity yet, peer and local maximum 100 sectors. -/
def mdev_fresh : drbd_conf :=
  { state := { conn := C_CONNECTED }
    p_size := 100
    ldev := { max_capacity := 100, md := { la_size_sect := 50 } } }

/-- The first request of `drbd_set_role(mdev, R_PRIMARY, force)`: the role alone. -/
def primary_request (K : Kernel σ) (s : σ) : Int × σ :=
  K._drbd_request_state s { role := R_MASK } { role := R_PRIMARY } CS_WAIT_COMPLETE

/-- The request for role Primary together with local disk UpToDate. -/
def primary_up_to_date_request (K : Kernel σ) (s : σ) : Int × σ :=
  K._drbd_request_state s { role := R_MASK, disk := D_MASK }
    { role := R_PRIMARY, disk := D_UP_TO_DATE } CS_WAIT_COMPLETE

/-- A volume that is Consistent, not connected, with fencing policy DontCare;
the state engine refuses the first request for want of an up-to-date disk. -/
def w_consistent_dont_care : World :=
  { cstate := 0
    volumes := [{ state := { role := R_SECONDARY, disk := D_CONSISTENT, pdsk := D_UNKNOWN },
                  ldev := { fencing := FP_DONT_CARE } }]
    helper_result := 0
    script := [SS_NO_UP_TO_DATE_DISK] }

/-- A world in which three promotion attempts are answered SS_PRIMARY_NOP and
the fourth and its verbose repetition SS_NO_LOCAL_DISK. -/
def w_five_requests : World :=
  { cstate := C_CONNECTED
    volumes := [{ state := { disk := D_UP_TO_DATE, conn := C_CONNECTED } }]
    helper_result := 0
    script := [SS_PRIMARY_NOP, SS_PRIMARY_NOP, SS_PRIMARY_NOP, SS_NO_LOCAL_DISK,
      SS_NO_LOCAL_DISK] }

/-! ## Administrative requests -/

/-- Modelled from the spec: `enum drbd_ret_code` of linux/drbd.h (absent): the
result codes of administrative requests, told apart by name.  `other` carries
any value stored in a `retcode` variable that is none of the named codes: a
state engine outcome (`retcode = rv`), an errno of `drbd_adm_prepare`, or a
code of a helper that is not part of the sources. -/
inductive drbd_ret_code where
  | NO_ERROR
  | ERR_LOCAL_ADDR
  | ERR_PEER_ADDR
  | ERR_OPEN_DISK
  | ERR_OPEN_MD_DISK
  | ERR_DISK_TO_SMALL
  | ERR_MD_DISK_TO_SMALL
  | ERR_MD_IDX_INVALID
  | ERR_IO_MD_DISK
  | ERR_NOMEM
  | ERR_DISCARD
  | ERR_DISK_CONFIGURED
  | ERR_NET_CONFIGURED
  | ERR_MANDATORY_TAG
  | ERR_NO_DISK
  | ERR_NOT_PROTO_C
  | ERR_NOMEM_BITMAP
  | ERR_INTEGRITY_ALG
  | ERR_CSUMS_ALG
  | ERR_VERIFY_ALG
  | ERR_AUTH_ALG
  | ERR_CSUMS_RESYNC_RUNNING
  | ERR_VERIFY_RUNNING
  | ERR_DATA_NOT_CURRENT
  | ERR_STONITH_AND_PROT_A
  | ERR_CONG_NOT_PROTO_A
  | ERR_CONN_IN_USE
  | ERR_INVALID_REQUEST
  | ERR_NEED_APV_100
  | ERR_RESIZE_RESYNC
  | ERR_NO_PRIMARY
  | ERR_NEED_APV_93
  | ERR_MINOR_EXISTS
  | other (code : Int)
deriving DecidableEq, Repr

open drbd_ret_code

/-- What a handler gets from `drbd_adm_prepare`: whether a reply buffer was
allocated (`adm_ctx.reply_skb`) and the code it returned. -/
structure adm_prepared where
  reply_skb : Bool := true
  retcode : drbd_ret_code := NO_ERROR
deriving DecidableEq, Repr

/-- Modelled from the spec: `enum drbd_conns` of linux/drbd.h (absent). -/
def C_STANDALONE : Nat := 0
/-- Modelled from the spec: `enum drbd_conns` of linux/drbd.h (absent). -/
def C_UNCONNECTED : Nat := 2
/-- Modelled from the spec: `enum drbd_conns` of linux/drbd.h (absent). -/
def C_WF_CONNECTION : Nat := 8
/-- Modelled from the spec: `enum drbd_conns` of linux/drbd.h (absent). -/
def C_SYNC_SOURCE : Nat := 16
/-- Modelled from the spec: `enum drbd_conns` of linux/drbd.h (absent). -/
def C_SYNC_TARGET : Nat := 17
/-- Modelled from the spec: `enum drbd_conns` of linux/drbd.h (absent). -/
def C_VERIFY_S : Nat := 18
/-- Modelled from the spec: `enum drbd_conns` of linux/drbd.h (absent). -/
def C_VERIFY_T : Nat := 19
/-- Modelled from the spec: `enum drbd_conns` of linux/drbd.h (absent). -/
def C_PAUSED_SYNC_S : Nat := 20
/-- Modelled from the spec: `enum drbd_conns` of linux/drbd.h (absent). -/
def C_PAUSED_SYNC_T : Nat := 21

/-- Modelled from the spec: the wire protocols of linux/drbd.h (absent): A is
the asynchronous, non-acknowledging one, C the strict one. -/
def DRBD_PROT_A : Nat := 1
/-- Modelled from the spec: the wire protocols of linux/drbd.h (absent). -/
def DRBD_PROT_B : Nat := 2
/-- Modelled from the spec: the wire protocols of linux/drbd.h (absent). -/
def DRBD_PROT_C : Nat := 3
/-- Modelled from the spec: `enum drbd_on_congestion` of linux/drbd.h (absent):
the congestion policy "block". -/
def OC_BLOCK : Nat := 0

/-- Modelled from the spec: the meta data flag bits of drbd_int.h (absent). -/
def MDF_CONSISTENT : Nat := 1
/-- Modelled from the spec: the meta data flag bits of drbd_int.h (absent). -/
def MDF_PRIMARY_IND : Nat := 2
/-- Modelled from the spec: the meta data flag bits of drbd_int.h (absent). -/
def MDF_CONNECTED_IND : Nat := 4
/-- Modelled from the spec: the meta data flag bits of drbd_int.h (absent). -/
def MDF_FULL_SYNC : Nat := 8
/-- Modelled from the spec: the meta data flag bits of drbd_int.h (absent). -/
def MDF_WAS_UP_TO_DATE : Nat := 16
/-- Modelled from the spec: the meta data flag bits of drbd_int.h (absent). -/
def MDF_PEER_OUT_DATED : Nat := 32
/-- Modelled from the spec: the meta data flag bits of drbd_int.h (absent). -/
def MDF_CRASHED_PRIMARY : Nat := 64

/-- Modelled from the spec: `drbd_md_test_flag` (drbd_main.c, absent): the
persisted flag is set. -/
def drbd_md_test_flag (bdev : drbd_backing_dev) (flag : Nat) : Bool :=
  decide (bdev.md.flags &&& flag ≠ 0)

/-- Modelled from the spec: `get_ldev(mdev)` (drbd_int.h, absent): the local
disk may be used, its state being at least Inconsistent. -/
def get_ldev (mdev : drbd_conf) : Bool :=
  get_ldev_if_state mdev D_INCONSISTENT

/-- A network configuration (`struct net_conf`), the fields the handlers at
hand read; names and addresses are byte strings.  The defaults are those of a
zero-filled allocation. -/
structure net_conf where
  wire_protocol : Nat := 0
  two_primaries : Bool := false
  want_lose : Bool := false
  on_congestion : Nat := 0
  my_addr : List Nat := []
  my_addr_len : Nat := 0
  peer_addr : List Nat := []
  peer_addr_len : Nat := 0
  csums_alg : List Nat := []
  verify_alg : List Nat := []
  integrity_alg : List Nat := []
  cram_hmac_alg : List Nat := []
  shared_secret : List Nat := []
deriving DecidableEq, Repr

/-- A member volume as the network handlers see it: the volume, whether it has
a bitmap (`mdev->bitmap`), whether `drbd_bm_init` would fail, and its traffic
counters. -/
structure net_volume where
  mdev : drbd_conf := {}
  bitmap : Bool := true
  bm_init_err : Bool := false
  send_cnt : Nat := 0
  recv_cnt : Nat := 0
deriving DecidableEq, Repr

/-- The loop of `_check_net_options` over the member volumes: the first
rejection found, and the volumes with the bitmaps allocated on the way. -/
def check_net_volumes (new_conf : net_conf) :
    List net_volume → drbd_ret_code × List net_volume
  | [] => (NO_ERROR, [])
  | v :: rest =>
    if get_ldev v.mdev = true ∧ new_conf.wire_protocol = DRBD_PROT_A ∧
        v.mdev.ldev.fencing = FP_STONITH then
      (ERR_STONITH_AND_PROT_A, v :: rest)
    else if v.mdev.state.role = R_PRIMARY ∧ new_conf.want_lose = true then
      (ERR_DISCARD, v :: rest)
    else if v.bitmap = false ∧ v.bm_init_err = true then
      (ERR_NOMEM, v :: rest)
    else
      ((check_net_volumes new_conf rest).1,
        { v with bitmap := true } :: (check_net_volumes new_conf rest).2)

/-- `_check_net_options(tconn, old_conf, new_conf)`, with what it reads of the
connection: the agreed protocol version, the connection state and the volumes. -/
def _check_net_options (agreed_pro_version cstate : Nat) (volumes : List net_volume)
    (old_conf : Option net_conf) (new_conf : net_conf) : drbd_ret_code × List net_volume :=
  let need_apv_100 : Bool :=
    match old_conf with
    | some oc => decide (agreed_pro_version < 100 ∧ cstate = C_WF_REPORT_PARAMS ∧
        new_conf.wire_protocol ≠ oc.wire_protocol)
    | none => false
  if need_apv_100 = true then
    (ERR_NEED_APV_100, volumes)
  else if new_conf.two_primaries = true ∧ new_conf.wire_protocol ≠ DRBD_PROT_C then
    (ERR_NOT_PROTO_C, volumes)
  else if (check_net_volumes new_conf volumes).1 ≠ NO_ERROR then
    check_net_volumes new_conf volumes
  else if new_conf.on_congestion ≠ OC_BLOCK ∧ new_conf.wire_protocol ≠ DRBD_PROT_A then
    (ERR_CONG_NOT_PROTO_A, (check_net_volumes new_conf volumes).2)
  else
    (NO_ERROR, (check_net_volumes new_conf volumes).2)

/-- The initial disk state `drbd_adm_attach` derives from the persisted flags
(the assignments to `ns.disk` under the tests of MDF_CONSISTENT and
MDF_WAS_UP_TO_DATE). -/
def attach_disk_from_flags (ldev : drbd_backing_dev) : Nat :=
  if drbd_md_test_flag ldev MDF_CONSISTENT = true then
    if drbd_md_test_flag ldev MDF_WAS_UP_TO_DATE = true then D_CONSISTENT
    else D_OUTDATED
  else
    D_INCONSISTENT

/-- The target state `ns` that `drbd_adm_attach` computes from the current
state `os` and the attached backing device, before it looks at the connection
state. -/
def attach_new_state (os : drbd_state) (ldev : drbd_backing_dev) : drbd_state :=
  let ns := os
  let ns := { ns with disk := attach_disk_from_flags ldev }
  let ns := if drbd_md_test_flag ldev MDF_PEER_OUT_DATED = true then
    { ns with pdsk := D_OUTDATED } else ns
  if ns.disk = D_CONSISTENT ∧ (ns.pdsk = D_OUTDATED ∨ ldev.fencing = FP_DONT_CARE) then
    { ns with disk := D_UP_TO_DATE }
  else ns

/-- A connection of the registry as `drbd_adm_delete_connection` sees it: its
name, its connection state and the minors of its member volumes in the order
of their volume numbers. -/
structure adm_conn where
  name : Nat
  cstate : Nat := C_STANDALONE
  volumes : List Nat := []
deriving DecidableEq, Repr

/-- Modelled from the spec: `conn_lowest_minor` (drbd_main.c, absent): the
minor of the first member volume, -1 when the connection has none. -/
def conn_lowest_minor (tconn : adm_conn) : Int :=
  match tconn.volumes with
  | [] => -1
  | minor :: _ => minor

/-- What `drbd_adm_delete_connection` leaves: the code stored in the reply (none
when no reply was allocated), the registry `drbd_tconns`, and whether the
worker thread of the connection was stopped. -/
structure delete_connection_result where
  reply : Option drbd_ret_code
  registry : List adm_conn
  worker_stopped : Bool
deriving DecidableEq, Repr

/-- `drbd_adm_delete_connection` for the connection `tconn` that
`drbd_adm_prepare` resolved (`adm_ctx.tconn`); `list_del` takes it out of the
registry. -/
def drbd_adm_delete_connection (prep : adm_prepared) (registry : List adm_conn)
    (tconn : adm_conn) : delete_connection_result :=
  if prep.reply_skb = false then
    { reply := none, registry := registry, worker_stopped := false }
  else if prep.retcode ≠ NO_ERROR then
    { reply := some prep.retcode, registry := registry, worker_stopped := false }
  else if conn_lowest_minor tconn < 0 then
    { reply := some NO_ERROR, registry := registry.erase tconn, worker_stopped := true }
  else
    { reply := some ERR_CONN_IN_USE, registry := registry, worker_stopped := false }

/-! ## Network options and connect -/

/-- Modelled from the spec: the mask of the connection state in a state
request (`C_MASK` of linux/drbd.h, absent). -/
def C_MASK : Nat := 31

/-- Modelled from the spec: the default wire protocol of drbd_limits.h (absent). -/
def DRBD_PROTOCOL_DEF : Nat := DRBD_PROT_C
/-- Modelled from the spec: the default congestion policy of drbd_limits.h
(absent). -/
def DRBD_ON_CONGESTION_DEF : Nat := OC_BLOCK
/-- Modelled from the spec: the size of an algorithm name buffer of
linux/crypto.h (absent). -/
def CRYPTO_MAX_ALG_NAME : Nat := 64
/-- Modelled from the spec: the size of the shared secret buffer of
linux/drbd.h (absent). -/
def SHARED_SECRET_MAX : Nat := 64

/-- The hash transforms and digest buffers a request allocates
(`struct crypto`); a pointer is the number of the object, none is NULL. -/
structure crypto where
  verify_tfm : Option Nat := none
  csums_tfm : Option Nat := none
  cram_hmac_tfm : Option Nat := none
  integrity_tfm : Option Nat := none
  int_dig_in : Option Nat := none
  int_dig_vv : Option Nat := none
deriving DecidableEq, Repr

/-- A connection (`struct drbd_tconn`) as the network handlers see it: the
published network configuration and the installed hash transforms and digest
buffers, with the state the option checks read. -/
structure drbd_tconn where
  cstate : Nat := C_STANDALONE
  agreed_pro_version : Nat := 0
  volumes : List net_volume := []
  net_conf : Option net_conf := none
  verify_tfm : Option Nat := none
  csums_tfm : Option Nat := none
  cram_hmac_tfm : Option Nat := none
  integrity_tfm : Option Nat := none
  int_dig_in : Option Nat := none
  int_dig_vv : Option Nat := none
deriving DecidableEq, Repr

/-- What a network handler does to the objects it holds and to its peer. -/
inductive net_event where
  | crypto_free_hash (tfm : Option Nat)
  | kfree_digest (p : Option Nat)
  | kfree_net_conf (c : Option net_conf)
  | send_protocol (rv : Int)
  | send_sync_param
  | conn_flush_workqueue
  | conn_request_state (mask val : drbd_state) (flags : Nat) (rv : Int)
deriving DecidableEq, Repr

/-- The collaborators of the network handlers: the outcome of
`drbd_adm_prepare`, the allocators, the attribute parser, the sender of the
protocol packet and the state engine. -/
structure net_env where
  prep : adm_prepared := {}
  kzalloc_ok : Bool := true
  should_set_defaults : Bool := false
  /-- `net_conf_from_attrs`: its return value and the candidate it leaves -/
  net_conf_from_attrs : net_conf → Int × net_conf
  /-- `crypto_alloc_hash`: the transform for a name, none when it fails -/
  crypto_alloc_hash : List Nat → Option Nat
  /-- `kmalloc` of the first digest buffer -/
  kmalloc_dig_in : Option Nat := some 0
  /-- `kmalloc` of the second digest buffer -/
  kmalloc_dig_vv : Option Nat := some 0
  __drbd_send_protocol : drbd_tconn → Int
  conn_request_state : drbd_tconn → drbd_state → drbd_state → Nat → Int × drbd_tconn

/-- What a network handler leaves: the code stored in the reply (none when no
reply was allocated), the connection, and what was done on the way. -/
structure net_result where
  reply : Option drbd_ret_code
  tconn : drbd_tconn
  trace : List net_event
deriving DecidableEq, Repr

/-- `drbd_set_net_conf_defaults`, on the fields of the model. -/
def drbd_set_net_conf_defaults (nc : net_conf) : net_conf :=
  { nc with
    shared_secret := []
    cram_hmac_alg := []
    integrity_alg := []
    verify_alg := []
    csums_alg := []
    wire_protocol := DRBD_PROTOCOL_DEF
    on_congestion := DRBD_ON_CONGESTION_DEF
    two_primaries := false }

/-- `conn_resync_running`: some member volume is in a resync. -/
def conn_resync_running (tconn : drbd_tconn) : Bool :=
  tconn.volumes.any (fun v =>
    decide (v.mdev.state.conn = C_SYNC_SOURCE ∨ v.mdev.state.conn = C_SYNC_TARGET ∨
      v.mdev.state.conn = C_PAUSED_SYNC_S ∨ v.mdev.state.conn = C_PAUSED_SYNC_T))

/-- `conn_ov_running`: some member volume runs an online verify. -/
def conn_ov_running (tconn : drbd_tconn) : Bool :=
  tconn.volumes.any (fun v =>
    decide (v.mdev.state.conn = C_VERIFY_S ∨ v.mdev.state.conn = C_VERIFY_T))

/-- `alloc_hash`: the code and the new value of `*tfm`. -/
def alloc_hash (E : net_env) (tfm : Option Nat) (tfm_name : List Nat)
    (err_alg : drbd_ret_code) : drbd_ret_code × Option Nat :=
  if tfm_name = [] then (NO_ERROR, tfm)
  else
    match E.crypto_alloc_hash tfm_name with
    | some h => (NO_ERROR, some h)
    | none => (err_alg, none)

/-- The name `hmac(<alg>)` that `alloc_crypto` prints into its buffer. -/
def hmac_name (cram_hmac_alg : List Nat) : List Nat :=
  ([104, 109, 97, 99, 40] ++ cram_hmac_alg ++ [41]).take (CRYPTO_MAX_ALG_NAME - 1)

/-- `alloc_crypto`: the code and the handles allocated so far. -/
def alloc_crypto (E : net_env) (c : crypto) (new_conf : net_conf) : drbd_ret_code × crypto :=
  let r1 := alloc_hash E c.csums_tfm new_conf.csums_alg ERR_CSUMS_ALG
  let c := { c with csums_tfm := r1.2 }
  if r1.1 ≠ NO_ERROR then (r1.1, c)
  else
    let r2 := alloc_hash E c.verify_tfm new_conf.verify_alg ERR_VERIFY_ALG
    let c := { c with verify_tfm := r2.2 }
    if r2.1 ≠ NO_ERROR then (r2.1, c)
    else
      let r3 := alloc_hash E c.integrity_tfm new_conf.integrity_alg ERR_INTEGRITY_ALG
      let c := { c with integrity_tfm := r3.2 }
      if r3.1 ≠ NO_ERROR then (r3.1, c)
      else
        let r4 :=
          if new_conf.cram_hmac_alg ≠ [] then
            alloc_hash E c.cram_hmac_tfm (hmac_name new_conf.cram_hmac_alg) ERR_AUTH_ALG
          else (r3.1, c.cram_hmac_tfm)
        let c := { c with cram_hmac_tfm := r4.2 }
        if c.integrity_tfm.isSome = true then
          match E.kmalloc_dig_in with
          | none => (ERR_NOMEM, { c with int_dig_in := none })
          | some p =>
            match E.kmalloc_dig_vv with
            | none => (ERR_NOMEM, { c with int_dig_in := some p, int_dig_vv := none })
            | some q => (r4.1, { c with int_dig_in := some p, int_dig_vv := some q })
        else (r4.1, c)

/-- `free_crypto`: what it releases, in its order. -/
def free_crypto (c : crypto) : List net_event :=
  [net_event.kfree_digest c.int_dig_in, net_event.kfree_digest c.int_dig_vv,
   net_event.crypto_free_hash c.cram_hmac_tfm, net_event.crypto_free_hash c.integrity_tfm,
   net_event.crypto_free_hash c.csums_tfm, net_event.crypto_free_hash c.verify_tfm]

/-- The exit `fail` of `drbd_adm_net_opts`: the allocated handles and the
candidate are released and the reply gets `retcode`. -/
def net_opts_fail (retcode : drbd_ret_code) (tconn : drbd_tconn) (c : crypto)
    (new_conf : net_conf) (tr : List net_event) : net_result :=
  { reply := some retcode
    tconn := tconn
    trace := tr ++ free_crypto c ++ [net_event.kfree_net_conf (some new_conf)] }

/-- The second half of `drbd_adm_net_opts`, from `rcu_assign_pointer` on: the
candidate is published and the handles are installed. -/
def net_opts_install (E : net_env) (retcode : drbd_ret_code) (tconn : drbd_tconn)
    (old_conf new_conf : net_conf) (c : crypto) (rsr ovr change_integrity_alg : Bool) :
    net_result :=
  let tconn := { tconn with net_conf := some new_conf }
  let tr : List net_event := []
  let tr := if rsr = false then tr ++ [net_event.crypto_free_hash tconn.csums_tfm] else tr
  let tconn1 := if rsr = false then { tconn with csums_tfm := c.csums_tfm } else tconn
  let c1 := if rsr = false then { c with csums_tfm := none } else c
  let tr := if ovr = false then tr ++ [net_event.crypto_free_hash tconn1.verify_tfm] else tr
  let tconn2 := if ovr = false then { tconn1 with verify_tfm := c1.verify_tfm } else tconn1
  let c2 := if ovr = false then { c1 with verify_tfm := none } else c1
  let tr := tr ++ [net_event.kfree_digest tconn2.int_dig_in,
    net_event.kfree_digest tconn2.int_dig_vv,
    net_event.crypto_free_hash tconn2.integrity_tfm]
  let tconn3 := { tconn2 with
    int_dig_in := c2.int_dig_in
    int_dig_vv := c2.int_dig_vv
    integrity_tfm := c2.integrity_tfm }
  if change_integrity_alg = true ∧ E.__drbd_send_protocol tconn3 ≠ 0 then
    net_opts_fail retcode tconn3 c2 new_conf
      (tr ++ [net_event.send_protocol (E.__drbd_send_protocol tconn3)])
  else
    let tr := if change_integrity_alg = true then
      tr ++ [net_event.send_protocol (E.__drbd_send_protocol tconn3)] else tr
    let tr := tr ++ [net_event.crypto_free_hash tconn3.cram_hmac_tfm]
    let tconn4 := { tconn3 with cram_hmac_tfm := c2.cram_hmac_tfm }
    let tr := tr ++ [net_event.kfree_net_conf (some old_conf)]
    let tr := if C_WF_REPORT_PARAMS ≤ tconn4.cstate then tr ++ [net_event.send_sync_param]
      else tr
    { reply := some retcode, tconn := tconn4, trace := tr }

/-- The part of `drbd_adm_net_opts` that follows the test for a missing
configuration: `old_conf` is the published configuration. -/
def net_opts_change (E : net_env) (tconn : drbd_tconn) (old_conf : net_conf) : net_result :=
  let new_conf := old_conf
  let new_conf :=
    if E.should_set_defaults = true then drbd_set_net_conf_defaults new_conf else new_conf
  let err := (E.net_conf_from_attrs new_conf).1
  let new_conf := (E.net_conf_from_attrs new_conf).2
  if err ≠ 0 then
    net_opts_fail ERR_MANDATORY_TAG tconn {} new_conf []
  else
    let chk := _check_net_options tconn.agreed_pro_version tconn.cstate tconn.volumes
      tconn.net_conf new_conf
    let tconn := { tconn with volumes := chk.2 }
    if chk.1 ≠ NO_ERROR then
      net_opts_fail chk.1 tconn {} new_conf []
    else
      let rsr := conn_resync_running tconn
      if rsr = true ∧ new_conf.csums_alg ≠ old_conf.csums_alg then
        net_opts_fail ERR_CSUMS_RESYNC_RUNNING tconn {} new_conf []
      else
        let ovr := conn_ov_running tconn
        if ovr = true ∧ new_conf.verify_alg ≠ old_conf.verify_alg then
          net_opts_fail ERR_VERIFY_RUNNING tconn {} new_conf []
        else
          let change_integrity_alg : Bool :=
            decide (old_conf.integrity_alg ≠ new_conf.integrity_alg)
          let ac := alloc_crypto E {} new_conf
          if ac.1 ≠ NO_ERROR then
            net_opts_fail ac.1 tconn ac.2 new_conf []
          else
            net_opts_install E ac.1 tconn old_conf new_conf ac.2 rsr ovr
              change_integrity_alg

/-- `drbd_adm_net_opts` for the connection that `drbd_adm_prepare` resolved. -/
def drbd_adm_net_opts (E : net_env) (tconn : drbd_tconn) : net_result :=
  if E.prep.reply_skb = false then
    { reply := none, tconn := tconn, trace := [] }
  else if E.prep.retcode ≠ NO_ERROR then
    { reply := some E.prep.retcode, tconn := tconn, trace := [] }
  else if E.kzalloc_ok = false then
    { reply := some ERR_NOMEM, tconn := tconn, trace := [] }
  else
    match tconn.net_conf with
    | none => net_opts_fail ERR_INVALID_REQUEST tconn {} {} []
    | some old_conf => net_opts_change E tconn old_conf

/-- The address comparison of `drbd_adm_connect`: the lengths agree and so do
the first `new_len` bytes of the two buffers. -/
def addr_taken (new_len : Nat) (new_addr : List Nat) (len : Nat) (addr : List Nat) : Bool :=
  decide (new_len = len ∧ new_addr.take new_len = addr.take new_len)

/-- The body of the address loop of `drbd_adm_connect` for one other
connection: the code it leaves in `retcode`. -/
def connect_addr_code (new_conf : net_conf) (oconn : drbd_tconn) : drbd_ret_code :=
  match oconn.net_conf with
  | some nc =>
    let retcode :=
      if addr_taken new_conf.my_addr_len new_conf.my_addr nc.my_addr_len nc.my_addr = true
      then ERR_LOCAL_ADDR else NO_ERROR
    if addr_taken new_conf.peer_addr_len new_conf.peer_addr nc.peer_addr_len nc.peer_addr
        = true
    then ERR_PEER_ADDR else retcode
  | none => NO_ERROR

/-- The address loop of `drbd_adm_connect` over the other connections of the
registry. -/
def connect_addr_check (new_conf : net_conf) : List drbd_tconn → drbd_ret_code
  | [] => NO_ERROR
  | oconn :: rest =>
    if connect_addr_code new_conf oconn ≠ NO_ERROR then connect_addr_code new_conf oconn
    else connect_addr_check new_conf rest

/-- The exit `fail` of `drbd_adm_connect`. -/
def connect_fail (retcode : drbd_ret_code) (tconn : drbd_tconn) (c : crypto)
    (new_conf : Option net_conf) (tr : List net_event) : net_result :=
  { reply := some retcode
    tconn := tconn
    trace := tr ++ free_crypto c ++ [net_event.kfree_net_conf new_conf] }

/-- Modelled from the spec: `conn_free_crypto` (drbd_main.c, absent): releases
the handles of the connection and clears them. -/
def conn_free_crypto (tconn : drbd_tconn) : List net_event × drbd_tconn :=
  ([net_event.crypto_free_hash tconn.csums_tfm, net_event.crypto_free_hash tconn.verify_tfm,
    net_event.crypto_free_hash tconn.cram_hmac_tfm,
    net_event.crypto_free_hash tconn.integrity_tfm,
    net_event.kfree_digest tconn.int_dig_in, net_event.kfree_digest tconn.int_dig_vv],
   { tconn with csums_tfm := none, verify_tfm := none, cram_hmac_tfm := none,
                integrity_tfm := none, int_dig_in := none, int_dig_vv := none })

/-- `drbd_adm_connect` for the connection `tconn` that `drbd_adm_prepare`
resolved; `others` are the other connections of the registry in its order. -/
def drbd_adm_connect (E : net_env) (tconn : drbd_tconn) (others : List drbd_tconn) :
    net_result :=
  if E.prep.reply_skb = false then
    { reply := none, tconn := tconn, trace := [] }
  else if E.prep.retcode ≠ NO_ERROR then
    { reply := some E.prep.retcode, tconn := tconn, trace := [] }
  else if tconn.cstate > C_STANDALONE then
    connect_fail ERR_NET_CONFIGURED tconn {} none []
  else if E.kzalloc_ok = false then
    connect_fail ERR_NOMEM tconn {} none []
  else
    let new_conf := drbd_set_net_conf_defaults {}
    let err := (E.net_conf_from_attrs new_conf).1
    let new_conf := (E.net_conf_from_attrs new_conf).2
    if err ≠ 0 then
      connect_fail ERR_MANDATORY_TAG tconn {} (some new_conf) []
    else
      let chk := _check_net_options tconn.agreed_pro_version tconn.cstate tconn.volumes
        tconn.net_conf new_conf
      let tconn := { tconn with volumes := chk.2 }
      if chk.1 ≠ NO_ERROR then
        connect_fail chk.1 tconn {} (some new_conf) []
      else if connect_addr_check new_conf others ≠ NO_ERROR then
        connect_fail (connect_addr_check new_conf others) tconn {} (some new_conf) []
      else
        let ac := alloc_crypto E {} new_conf
        if ac.1 ≠ NO_ERROR then
          connect_fail ac.1 tconn ac.2 (some new_conf) []
        else
          let new_conf := { new_conf with
            shared_secret := new_conf.shared_secret.take (SHARED_SECRET_MAX - 1) }
          let tr := [net_event.conn_flush_workqueue]
          if tconn.net_conf.isSome = true then
            connect_fail ERR_NET_CONFIGURED tconn ac.2 (some new_conf) tr
          else
            let tconn := { tconn with net_conf := some new_conf }
            let tr := tr ++ (conn_free_crypto tconn).1
            let tconn := (conn_free_crypto tconn).2
            let tconn := { tconn with
              int_dig_in := ac.2.int_dig_in
              int_dig_vv := ac.2.int_dig_vv
              cram_hmac_tfm := ac.2.cram_hmac_tfm
              integrity_tfm := ac.2.integrity_tfm
              csums_tfm := ac.2.csums_tfm
              verify_tfm := ac.2.verify_tfm }
            let tconn := { tconn with
              volumes := tconn.volumes.map (fun v => { v with send_cnt := 0, recv_cnt := 0 }) }
            let rq := E.conn_request_state tconn { conn := C_MASK } { conn := C_UNCONNECTED }
              CS_VERBOSE
            { reply := some (other rq.1)
              tconn := rq.2
              trace := tr ++ [net_event.conn_request_state { conn := C_MASK }
                { conn := C_UNCONNECTED } CS_VERBOSE rq.1] }

/-! ## Disk options -/

/-- Modelled from the spec: the errno values of the kernel headers (absent). -/
def ENOMEM : Int := 12
/-- Modelled from the spec: the errno values of the kernel headers (absent). -/
def EBUSY : Int := 16

/-- The disk configuration (`struct disk_conf`), the fields the handler for
disk options reads or writes. -/
structure disk_conf where
  fencing : Int := 0
  resync_rate : Nat := 0
  resync_after : Int := 0
  al_extents : Nat := 0
  c_plan_ahead : Nat := 0
deriving DecidableEq, Repr

/-- The constants of the headers that the disk option code reads (drbd_limits.h
and the kernel configuration, absent): the default configuration
(`DRBD_*_DEF`), the bounds of the activity log size and the timer frequency. -/
structure disk_limits where
  defaults : disk_conf
  DRBD_AL_EXTENTS_MIN : Nat
  DRBD_AL_EXTENTS_MAX : Nat
  HZ : Nat

/-- An LRU cache (`struct lru_cache`): its number of elements and the sum of
the reference counts of its elements. -/
structure lru_cache where
  nr_elements : Nat
  in_use : Nat := 0
deriving DecidableEq, Repr

/-- A volume as the handler for disk options sees it: its state, the active
disk configuration `mdev->ldev->dc`, the resync plan buffer `mdev->rs_plan_s`
with `mdev->rs_planed`, and the activity log. -/
structure disk_opts_volume where
  state : drbd_state := {}
  dc : disk_conf := {}
  rs_plan_s_size : Int := 0
  rs_plan_s_values : Option Nat := none
  rs_planed : Int := 0
  act_log : Option lru_cache := none
deriving DecidableEq, Repr

/-- What the handler for disk options does besides changing the volume. -/
inductive disk_event where
  | drbd_msg_put_info
  | drbd_alter_sa (resync_after : Int) (rv : drbd_ret_code)
  | kfree_plan (p : Option Nat)
  | lc_destroy (lc : lru_cache)
  | drbd_md_mark_dirty
  | drbd_md_sync
  | drbd_send_sync_param
  | put_ldev
  | kfree_disk_conf
deriving DecidableEq, Repr

/-- The collaborators of `drbd_adm_disk_opts`. -/
structure disk_opts_env where
  prep : adm_prepared := {}
  limits : disk_limits
  kmalloc_ok : Bool := true
  should_set_defaults : Bool := false
  /-- `disk_conf_from_attrs`: its return value and the candidate it leaves -/
  disk_conf_from_attrs : disk_conf → Int × disk_conf
  /-- `drbd_alter_sa` (drbd_worker.c) for a resync-after dependency -/
  drbd_alter_sa : Int → drbd_ret_code
  /-- `kzalloc` of a plan buffer of the given number of entries -/
  kzalloc_plan : Int → Option Nat
  lc_create_ok : Bool := true

/-- What `drbd_adm_disk_opts` leaves. -/
structure disk_opts_result where
  reply : Option drbd_ret_code
  mdev : disk_opts_volume
  trace : List disk_event
deriving DecidableEq, Repr

/-- `drbd_set_disk_conf_defaults`, on the fields of the model. -/
def drbd_set_disk_conf_defaults (D : disk_limits) (dc : disk_conf) : disk_conf :=
  { dc with
    fencing := D.defaults.fencing
    resync_rate := D.defaults.resync_rate
    resync_after := D.defaults.resync_after
    al_extents := D.defaults.al_extents
    c_plan_ahead := D.defaults.c_plan_ahead }

/-- `drbd_check_al_size(mdev, dc)`: its return value, the activity log of the
volume, the `al_extents` it leaves in `dc`, and what it released. -/
def drbd_check_al_size (D : disk_limits) (lc_create_ok : Bool) (act_log : Option lru_cache)
    (al_extents : Nat) : Int × Option lru_cache × Nat × List disk_event :=
  let al_extents := if ¬ (al_extents ≥ D.DRBD_AL_EXTENTS_MIN) then D.DRBD_AL_EXTENTS_MIN
    else al_extents
  if (match act_log with
      | some t => decide (t.nr_elements = al_extents)
      | none => false) = true then
    (0, act_log, al_extents, [])
  else if lc_create_ok = false then
    (-ENOMEM, act_log, al_extents, [])
  else
    let n : lru_cache := { nr_elements := al_extents, in_use := 0 }
    let in_use := match act_log with
      | some t => t.in_use
      | none => 0
    if in_use ≠ 0 then
      (-EBUSY, act_log, al_extents, [disk_event.lc_destroy n])
    else
      (0, some n, al_extents,
        (match act_log with
         | some t => [disk_event.lc_destroy t]
         | none => []) ++ [disk_event.drbd_md_mark_dirty])

/-- Modelled from the spec: `SLEEP_TIME`, a tenth of a second in timer ticks
(drbd_int.h, absent). -/
def SLEEP_TIME (D : disk_limits) : Nat := D.HZ / 10

/-- The number of entries of the resync plan for a candidate:
`(c_plan_ahead * 10 * SLEEP_TIME) / HZ`, computed in 32 bit unsigned
arithmetic and stored in an `int`. -/
def fifo_size (D : disk_limits) (dc : disk_conf) : Int :=
  let u : Nat := (dc.c_plan_ahead * 10 * SLEEP_TIME D) % 2 ^ 32 / D.HZ
  if u < 2 ^ 31 then (u : Int) else (u : Int) - 2 ^ 32

/-- The exit `fail` of `drbd_adm_disk_opts`. -/
def disk_opts_fail (retcode : drbd_ret_code) (mdev : disk_opts_volume)
    (rs_plan_s : Option Nat) (tr : List disk_event) : disk_opts_result :=
  { reply := some retcode
    mdev := mdev
    trace := tr ++ [disk_event.put_ldev, disk_event.kfree_disk_conf,
      disk_event.kfree_plan rs_plan_s] }

/-- The clipping of the candidate in `drbd_adm_disk_opts`: a resync rate of at
least 1 and an activity log size within its bounds. -/
def disk_opts_clip (D : disk_limits) (new_disk_conf : disk_conf) : disk_conf :=
  let new_disk_conf :=
    if ¬ (new_disk_conf.resync_rate ≥ 1) then { new_disk_conf with resync_rate := 1 }
    else new_disk_conf
  let new_disk_conf :=
    if ¬ (new_disk_conf.al_extents ≥ D.DRBD_AL_EXTENTS_MIN) then
      { new_disk_conf with al_extents := D.DRBD_AL_EXTENTS_MIN }
    else new_disk_conf
  if ¬ (new_disk_conf.al_extents ≤ D.DRBD_AL_EXTENTS_MAX) then
    { new_disk_conf with al_extents := D.DRBD_AL_EXTENTS_MAX }
  else new_disk_conf

/-- The part of `drbd_adm_disk_opts` that follows the clipping of the
candidate, from the call of `drbd_alter_sa` on. -/
def disk_opts_apply (E : disk_opts_env) (mdev : disk_opts_volume) (new_disk_conf : disk_conf)
    (tr : List disk_event) : disk_opts_result :=
  let retcode := E.drbd_alter_sa new_disk_conf.resync_after
  let tr := tr ++ [disk_event.drbd_alter_sa new_disk_conf.resync_after retcode]
  if retcode ≠ NO_ERROR then
    disk_opts_fail retcode mdev none tr
  else
    let fifo := fifo_size E.limits new_disk_conf
    if fifo ≠ mdev.rs_plan_s_size ∧ fifo > 0 ∧ E.kzalloc_plan fifo = none then
      disk_opts_fail ERR_NOMEM mdev none tr
    else
      let rs_plan_s :=
        if fifo ≠ mdev.rs_plan_s_size ∧ fifo > 0 then E.kzalloc_plan fifo else none
      let tr := if fifo ≠ mdev.rs_plan_s_size then
        tr ++ [disk_event.kfree_plan mdev.rs_plan_s_values] else tr
      let mdev1 := if fifo ≠ mdev.rs_plan_s_size then
        { mdev with rs_plan_s_values := rs_plan_s, rs_plan_s_size := fifo, rs_planed := 0 }
        else mdev
      let rs_plan_s := if fifo ≠ mdev.rs_plan_s_size then none else rs_plan_s
      let al := drbd_check_al_size E.limits E.lc_create_ok mdev1.act_log
        new_disk_conf.al_extents
      let new_disk_conf := { new_disk_conf with al_extents := al.2.2.1 }
      let mdev2 := { mdev1 with act_log := al.2.1 }
      let tr := tr ++ al.2.2.2
      if al.1 ≠ 0 then
        disk_opts_fail ERR_NOMEM mdev2 rs_plan_s tr
      else
        let mdev3 := { mdev2 with dc := new_disk_conf }
        let tr := tr ++ [disk_event.drbd_md_sync]
        let tr := if mdev3.state.conn ≥ C_CONNECTED then
          tr ++ [disk_event.drbd_send_sync_param] else tr
        disk_opts_fail retcode mdev3 rs_plan_s tr

/-- `drbd_adm_disk_opts` for the volume that `drbd_adm_prepare` resolved. -/
def drbd_adm_disk_opts (E : disk_opts_env) (mdev : disk_opts_volume) : disk_opts_result :=
  if E.prep.reply_skb = false then
    { reply := none, mdev := mdev, trace := [] }
  else if E.prep.retcode ≠ NO_ERROR then
    { reply := some E.prep.retcode, mdev := mdev, trace := [] }
  else if get_ldev { state := mdev.state } = false then
    { reply := some ERR_NO_DISK, mdev := mdev, trace := [] }
  else if E.kmalloc_ok = false then
    disk_opts_fail ERR_NOMEM mdev none []
  else
    let new_disk_conf := mdev.dc
    let new_disk_conf :=
      if E.should_set_defaults = true then drbd_set_disk_conf_defaults E.limits new_disk_conf
      else new_disk_conf
    let err := (E.disk_conf_from_attrs new_disk_conf).1
    let new_disk_conf := (E.disk_conf_from_attrs new_disk_conf).2
    -- `if (err) { retcode = ERR_MANDATORY_TAG; drbd_msg_put_info(...); }`: no jump
    -- follows, and the code is replaced by the result of `drbd_alter_sa`
    let tr := if err ≠ 0 then [disk_event.drbd_msg_put_info] else []
    disk_opts_apply E mdev (disk_opts_clip E.limits new_disk_conf) tr

/-! ## Attach -/

/-- A volume as `drbd_adm_attach` sees it: the volume of the size negotiation
(its `ldev` is the installed backing device when `has_ldev` is set, which stands
for `mdev->ldev != NULL`), whether `mdev->resync` and `mdev->bitmap` exist, the
activity log, the exposed data UUID, `mdev->tconn->susp_nod`, the published
network configuration of its connection, `mdev->new_state_tmp`, whether peer
UUIDs are cached, and the flag bits the handler sets. -/
structure attach_volume where
  mdev : drbd_conf := {}
  has_ldev : Bool := false
  resync : Bool := false
  bitmap : Bool := false
  act_log : Option lru_cache := none
  ed_uuid : Nat := 0
  susp_nod : Bool := false
  net_conf : Option net_conf := none
  new_state_tmp : drbd_state := {}
  p_uuid : Bool := false
  MD_NO_BARRIER : Bool := false
  CRASHED_PRIMARY : Bool := false
  USE_DEGR_WFC_T : Bool := false
  RESYNC_AFTER_NEG : Bool := false
deriving DecidableEq, Repr

/-- What `drbd_adm_attach` does besides changing the volume, in program order. -/
inductive attach_event where
  | conn_reconfig_start
  | conn_reconfig_done
  | drbd_suspend_io
  | drbd_flush_workqueue
  | drbd_resume_io
  | _drbd_request_state (mask val : drbd_state) (flags : Nat) (rv : Int)
  | _drbd_set_state (ns : drbd_state) (flags : Nat) (rv : Int)
  | drbd_force_state (mask val : drbd_state)
  | al (e : disk_event)
  | drbd_bitmap_io_set_n_write
  | drbd_bitmap_io_read
  | drbd_bitmap_io_write
  | drbd_suspend_al
  | drbd_md_mark_dirty
  | drbd_md_sync
  | drbd_kobject_uevent
  | put_ldev
  | blkdev_put_backing
  | blkdev_put_md
  | kfree_nbc
  | lc_destroy_resync
deriving DecidableEq, Repr

/-- The request and the collaborators of `drbd_adm_attach`.  `nbc` is the new
backing configuration as `disk_conf_from_attrs` leaves it, with the capacities
of the devices its paths name; `al_extents` and `no_md_flush` are the further
fields of `nbc->dc` that the handler reads. -/
structure attach_env where
  prep : adm_prepared := {}
  L : Layout
  limits : disk_limits
  kzalloc_ok : Bool := true
  /-- the return value of `disk_conf_from_attrs` -/
  attrs_err : Int := 0
  nbc : drbd_backing_dev
  al_extents : Nat := 0
  no_md_flush : Bool := false
  /-- `blkdev_get_by_path` of the backing device succeeds -/
  backing_open_ok : Bool := true
  /-- `blkdev_get_by_path` of the meta data device succeeds -/
  md_open_ok : Bool := true
  /-- `nbc->backing_bdev == nbc->md_bdev` -/
  same_bdev : Bool := true
  /-- `lc_create` of the resync LRU succeeds -/
  lc_create_resync_ok : Bool := true
  /-- `lc_create` of the activity log succeeds -/
  lc_create_al_ok : Bool := true
  _drbd_request_state : attach_volume → drbd_state → drbd_state → Nat → Int × drbd_state
  _drbd_set_state : attach_volume → drbd_state → Nat → Int × drbd_state
  drbd_force_state : attach_volume → drbd_state → drbd_state → drbd_state
  /-- `drbd_bm_init` fails -/
  bm_init_err : Bool := false
  /-- `drbd_md_read`: its code and the backing configuration with the meta data read -/
  drbd_md_read : drbd_backing_dev → drbd_ret_code × drbd_backing_dev
  /-- `drbd_al_read_log` succeeds -/
  drbd_al_read_log_ok : Bool := true
  /-- `drbd_bm_resize` fails, if `drbd_determin_dev_size` gets to it -/
  bm_resize_err : Bool := false
  /-- `drbd_bitmap_io` fails, if `drbd_determin_dev_size` gets to it -/
  size_bitmap_io_err : Bool := false
  /-- `drbd_bitmap_io` with `drbd_bmio_set_n_write` or `drbd_bm_read` fails -/
  bitmap_io_err : Bool := false
  /-- `drbd_bitmap_io` with `drbd_bm_write` fails -/
  al_bitmap_io_err : Bool := false
  /-- `_drbd_bm_total_weight(mdev) == drbd_bm_bits(mdev)` -/
  bm_all_set : Bool := false

/-- The labels at which a run of `drbd_adm_attach` leaves the straight path:
no reply at all, `finish`, `fail`, `force_diskless`, `force_diskless_dec`, or
none of them (`done`, the volume is attached). -/
inductive attach_exit where
  | no_reply
  | finish
  | fail
  | force_diskless
  | force_diskless_dec
  | done
deriving DecidableEq, Repr

/-- What `drbd_adm_attach` leaves: the code stored in the reply (none when no
reply was allocated), the label it left through, the volume, and what it did. -/
structure attach_result where
  reply : Option drbd_ret_code
  exit : attach_exit
  mdev : attach_volume
  trace : List attach_event
deriving DecidableEq, Repr

/-- The code from the label `fail` on: `owned` says whether the handler still
owns the new backing configuration (`nbc != NULL`), `backing` and `md` whether
its devices are open, `lru` whether it still owns the resync LRU. -/
def attach_fail (retcode : drbd_ret_code) (ex : attach_exit) (v : attach_volume)
    (tr : List attach_event) (owned backing md lru : Bool) : attach_result :=
  { reply := some retcode
    exit := ex
    mdev := v
    trace := tr ++ [attach_event.conn_reconfig_done] ++
      (if owned = true then
        (if backing = true then [attach_event.blkdev_put_backing] else []) ++
        (if md = true then [attach_event.blkdev_put_md] else []) ++
        [attach_event.kfree_nbc]
       else []) ++
      (if lru = true then [attach_event.lc_destroy_resync] else []) }

/-- The volume with the state word that the state engine left. -/
def volume_with_state (v : attach_volume) (st : drbd_state) : attach_volume :=
  { v with mdev := { v.mdev with state := st } }

/-- The code from the labels `force_diskless_dec` (`dec` set) and
`force_diskless` on. -/
def attach_force_diskless (E : attach_env) (retcode : drbd_ret_code) (v : attach_volume)
    (tr : List attach_event) (dec owned : Bool) : attach_result :=
  let tr := if dec = true then tr ++ [attach_event.put_ldev] else tr
  let st := E.drbd_force_state v { disk := D_MASK } { disk := D_FAILED }
  let tr := tr ++ [attach_event.drbd_force_state { disk := D_MASK } { disk := D_FAILED },
    attach_event.drbd_md_sync]
  attach_fail retcode
    (if dec = true then attach_exit.force_diskless_dec else attach_exit.force_diskless)
    (volume_with_state v st) tr owned true true owned

/-- The validations of `drbd_adm_attach` up to the creation of the resync LRU:
the code of the first one that fails with what was allocated and opened until
then (`nbc`, the backing device, the meta data device), none if all pass. -/
def attach_open (E : attach_env) (v : attach_volume) :
    Option (drbd_ret_code × Bool × Bool × Bool) :=
  if v.mdev.state.disk > D_DISKLESS then
    some (ERR_DISK_CONFIGURED, false, false, false)
  else if E.kzalloc_ok = false then
    some (ERR_NOMEM, false, false, false)
  else if E.attrs_err ≠ 0 then
    some (ERR_MANDATORY_TAG, true, false, false)
  else if E.nbc.meta_dev_idx < E.L.DRBD_MD_INDEX_FLEX_INT then
    some (ERR_MD_IDX_INVALID, true, false, false)
  else if (match v.net_conf with
      | some nc => decide (E.nbc.fencing = FP_STONITH ∧ nc.wire_protocol = DRBD_PROT_A)
      | none => false) = true then
    some (ERR_STONITH_AND_PROT_A, true, false, false)
  else if E.backing_open_ok = false then
    some (ERR_OPEN_DISK, true, false, false)
  else if E.md_open_ok = false then
    some (ERR_OPEN_MD_DISK, true, true, false)
  else if E.same_bdev ≠ decide (E.nbc.meta_dev_idx = E.L.DRBD_MD_INDEX_INTERNAL ∨
      E.nbc.meta_dev_idx = E.L.DRBD_MD_INDEX_FLEX_INT) then
    some (ERR_MD_IDX_INVALID, true, true, true)
  else if E.lc_create_resync_ok = false then
    some (ERR_NOMEM, true, true, true)
  else
    none

/-- The least size of a meta data device for a meta data index
(`min_md_device_sectors`). -/
def min_md_device_sectors (L : Layout) (meta_dev_idx : Int) : Int :=
  if meta_dev_idx < 0 then 2 * 2 ^ 10
  else L.MD_RESERVED_SECT * (meta_dev_idx + 1)

/-- The size validations of `drbd_adm_attach`, after
`drbd_md_set_sector_offsets`: the code of the first one that fails. -/
def attach_sizes (E : attach_env) (v : attach_volume) (nbc : drbd_backing_dev) :
    Option drbd_ret_code :=
  if nbc.max_capacity < nbc.disk_size then
    some ERR_DISK_TO_SMALL
  else if (nbc.md_capacity : Int) < min_md_device_sectors E.L nbc.meta_dev_idx then
    some ERR_MD_DISK_TO_SMALL
  else if nbc.max_capacity < v.mdev.this_capacity then
    some ERR_DISK_TO_SMALL
  else
    none

/-- The target state of `drbd_adm_attach` with the volume as the code leaves it
before the state change: when the volume is Connected the computed state is
kept in `new_state_tmp`, the cached peer UUIDs are dropped and the target is
the current state with the disk Negotiating. -/
def attach_target (v : attach_volume) : attach_volume × drbd_state :=
  let os := v.mdev.state
  let ns := attach_new_state os v.mdev.ldev
  if v.mdev.state.conn = C_CONNECTED then
    ({ v with new_state_tmp := ns, p_uuid := false }, { os with disk := D_NEGOTIATING })
  else
    (v, ns)

/-- The straight end of `drbd_adm_attach` after the accepted state change: the
lowest bit of the current UUID follows the role and the meta data is written. -/
def attach_commit (retcode : drbd_ret_code) (v : attach_volume) (tr : List attach_event) :
    attach_result :=
  let uuid := v.mdev.ldev.md.uuid_current
  let uuid := if v.mdev.state.role = R_PRIMARY then uuid ||| 1 else uuid / 2 * 2
  { reply := some retcode
    exit := attach_exit.done
    mdev := { v with mdev := { v.mdev with
      ldev := { v.mdev.ldev with md := { v.mdev.ldev.md with uuid_current := uuid } } } }
    trace := tr ++ [attach_event.drbd_md_mark_dirty, attach_event.drbd_md_sync,
      attach_event.drbd_kobject_uevent, attach_event.put_ldev,
      attach_event.conn_reconfig_done] }

/-- The end of `drbd_adm_attach`, from the reading of the state under the
request lock on: the target state is computed and set. -/
def attach_set_state (E : attach_env) (retcode : drbd_ret_code) (v : attach_volume)
    (tr : List attach_event) : attach_result :=
  let t := attach_target v
  let st := E._drbd_set_state t.1 t.2 CS_VERBOSE
  let tr := tr ++ [attach_event._drbd_set_state t.2 CS_VERBOSE st.1]
  if st.1 < SS_SUCCESS then
    attach_force_diskless E retcode (volume_with_state t.1 st.2) tr true false
  else
    attach_commit retcode (volume_with_state t.1 st.2) tr

/-- The crashed-primary discovery of `drbd_adm_attach` (`cp_discovered`): the
meta data says Primary, and the volume is not a Primary that is suspended for
lack of data. -/
def cp_discovered (v : attach_volume) : Bool :=
  drbd_md_test_flag v.mdev.ldev MDF_PRIMARY_IND &&
    !(decide (v.mdev.state.role = R_PRIMARY) && v.susp_nod)

/-- The point of no return of `drbd_adm_attach`: the volume takes over the
backing configuration `nbc` and the resync LRU, and the flag bits are set from
the meta data.  The write ordering, the traffic counters and the queue
parameters that the code sets here are not part of the volume of the model. -/
def attach_take_over (E : attach_env) (v : attach_volume) (nbc : drbd_backing_dev) :
    attach_volume :=
  let v := { v with MD_NO_BARRIER := E.no_md_flush }
  let v := { v with mdev := { v.mdev with ldev := nbc }, has_ldev := true, resync := true }
  let v := { v with CRASHED_PRIMARY := drbd_md_test_flag v.mdev.ldev MDF_CRASHED_PRIMARY }
  let v := if cp_discovered v = true then { v with CRASHED_PRIMARY := true } else v
  let use_degr_wfc_t : Bool :=
    decide (v.mdev.state.role ≠ R_PRIMARY) &&
      drbd_md_test_flag v.mdev.ldev MDF_PRIMARY_IND &&
      !drbd_md_test_flag v.mdev.ldev MDF_CONNECTED_IND
  { v with USE_DEGR_WFC_T := use_degr_wfc_t }

/-- The volume after `drbd_determin_dev_size` returned `dd`: the sizes it left,
and RESYNC_AFTER_NEG when the device grew. -/
def attach_sized (v : attach_volume) (dd : dds_result) : attach_volume :=
  let v := { v with mdev := dd.mdev }
  if dd.rv = determine_dev_size.grew then { v with RESYNC_AFTER_NEG := true } else v

/-- The part of `drbd_adm_attach` from the point of no return to the bitmap
I/O: the size is determined and the bitmap is read or set. -/
def attach_install (E : attach_env) (retcode : drbd_ret_code) (v : attach_volume)
    (nbc : drbd_backing_dev) (tr : List attach_event) : attach_result :=
  let v := attach_take_over E v nbc
  let dd := drbd_determin_dev_size E.L v.mdev 0 E.bm_resize_err E.size_bitmap_io_err
  if dd.rv = determine_dev_size.dev_size_error then
    attach_force_diskless E ERR_NOMEM_BITMAP (attach_sized v dd) tr true false
  else
    let tr := tr ++ [if drbd_md_test_flag dd.mdev.ldev MDF_FULL_SYNC = true then
      attach_event.drbd_bitmap_io_set_n_write else attach_event.drbd_bitmap_io_read]
    if E.bitmap_io_err = true then
      attach_force_diskless E ERR_IO_MD_DISK (attach_sized v dd) tr true false
    else
      let tr := if cp_discovered v = true then tr ++ [attach_event.drbd_bitmap_io_write]
        else tr
      if cp_discovered v = true ∧ E.al_bitmap_io_err = true then
        attach_force_diskless E ERR_IO_MD_DISK (attach_sized v dd) tr true false
      else
        let tr := if E.bm_all_set = true then tr ++ [attach_event.drbd_suspend_al] else tr
        attach_set_state E retcode (attach_sized v dd) tr

/-- The volume after the activity log was sized for the new backing
configuration. -/
def volume_with_act_log (v : attach_volume) (act_log : Option lru_cache) : attach_volume :=
  { v with bitmap := true, act_log := act_log }

/-- The part of `drbd_adm_attach` between the request for the disk state
Attaching and the point of no return; `nbc` is the new backing configuration
with its sector offsets set. -/
def attach_request (E : attach_env) (v : attach_volume) (nbc : drbd_backing_dev)
    (tr : List attach_event) : attach_result :=
  let tr := tr ++ [attach_event.drbd_suspend_io, attach_event.drbd_flush_workqueue]
  let rq := E._drbd_request_state v { disk := D_MASK } { disk := D_ATTACHING } CS_VERBOSE
  let v := volume_with_state v rq.2
  let tr := tr ++ [attach_event._drbd_request_state { disk := D_MASK } { disk := D_ATTACHING }
    CS_VERBOSE rq.1, attach_event.drbd_resume_io]
  if rq.1 < SS_SUCCESS then
    attach_fail (other rq.1) attach_exit.fail v tr true true true true
  else if get_ldev_if_state v.mdev D_ATTACHING = false then
    attach_force_diskless E (other rq.1) v tr false true
  else
    let nbc := drbd_md_set_sector_offsets E.L nbc
    if v.bitmap = false ∧ E.bm_init_err = true then
      attach_force_diskless E ERR_NOMEM v tr true true
    else
      let rd := E.drbd_md_read nbc
      if rd.1 ≠ NO_ERROR then
        attach_force_diskless E rd.1 (volume_with_act_log v v.act_log) tr true true
      else if v.mdev.state.conn < C_CONNECTED ∧ v.mdev.state.role = R_PRIMARY ∧
          v.ed_uuid / 2 * 2 ≠ rd.2.md.uuid_current / 2 * 2 then
        attach_force_diskless E ERR_DATA_NOT_CURRENT (volume_with_act_log v v.act_log) tr
          true true
      else
        let al := drbd_check_al_size E.limits E.lc_create_al_ok v.act_log E.al_extents
        let tr := tr ++ al.2.2.2.map attach_event.al
        if al.1 ≠ 0 then
          attach_force_diskless E ERR_NOMEM (volume_with_act_log v al.2.1) tr true true
        else if drbd_md_test_flag rd.2 MDF_CONSISTENT = true ∧
            drbd_new_dev_size v.mdev rd.2 false < rd.2.md.la_size_sect then
          attach_force_diskless E ERR_DISK_TO_SMALL (volume_with_act_log v al.2.1) tr
            true true
        else if E.drbd_al_read_log_ok = false then
          attach_force_diskless E ERR_IO_MD_DISK (volume_with_act_log v al.2.1) tr true true
        else
          attach_install E rd.1 (volume_with_act_log v al.2.1) rd.2 tr

/-- `drbd_adm_attach` for the volume that `drbd_adm_prepare` resolved. -/
def drbd_adm_attach (E : attach_env) (v : attach_volume) : attach_result :=
  if E.prep.reply_skb = false then
    { reply := none, exit := attach_exit.no_reply, mdev := v, trace := [] }
  else if E.prep.retcode ≠ NO_ERROR then
    { reply := some E.prep.retcode, exit := attach_exit.finish, mdev := v, trace := [] }
  else
    match attach_open E v with
    | some (retcode, owned, backing, md) =>
      attach_fail retcode attach_exit.fail v [attach_event.conn_reconfig_start]
        owned backing md false
    | none =>
      match attach_sizes E v (drbd_md_set_sector_offsets E.L E.nbc) with
      | some retcode =>
        attach_fail retcode attach_exit.fail v [attach_event.conn_reconfig_start]
          true true true true
      | none =>
        attach_request E v (drbd_md_set_sector_offsets E.L E.nbc)
          [attach_event.conn_reconfig_start]

/-! ## Status dump -/

/-- A connection of the registry as the status dump sees it: its name and its
member volumes as pairs of volume number and minor, by ascending volume number
(the order of the `idr`). -/
structure dump_conn where
  name : Nat
  volumes : List (Nat × Nat) := []
deriving DecidableEq, Repr

/-- A position in the registry `drbd_tconns` as kept in `cb->args[0]`: NULL, a
connection (by its place in the registry), or the entry that the list head
stands for (`&pos->all_tconn == &drbd_tconns`). -/
inductive dump_pos where
  | null
  | entry (i : Nat)
  | head
deriving DecidableEq, Repr

/-- The cursor of a dump, `cb->args[0..2]`: position, next volume number, and
the connection a single-resource dump is restricted to. -/
structure netlink_callback where
  pos : dump_pos := dump_pos.null
  volume : Nat := 0
  filter : dump_pos := dump_pos.null
deriving DecidableEq, Repr

/-- A record of the dump: the minor of the header and the connection name and
volume number of the context. -/
structure dump_record where
  minor : Nat
  conn_name : Nat
  volume : Nat
deriving DecidableEq, Repr

/-- Whether the parts of a record fit into the reply buffer: `genlmsg_put`,
`nla_put_drbd_cfg_context` and `nla_put_status_info` succeed. -/
structure reply_room where
  header : Bool := true
  context : Bool := true
  status : Bool := true
deriving DecidableEq, Repr

/-- Modelled from the spec: `VOLUME_UNSPECIFIED`, that is `-1U` (drbd_int.h,
absent). -/
def VOLUME_UNSPECIFIED : Nat := 2 ^ 32 - 1

/-- Modelled from the spec: `idr_get_next` (kernel, absent): the entry with the
least id that is not below `volume`, on a list in ascending order of ids. -/
def idr_get_next (volumes : List (Nat × Nat)) (volume : Nat) : Option (Nat × Nat) :=
  volumes.find? (fun m => decide (volume ≤ m.1))

/-- The entry after the connection at place `i` (`tconn->all_tconn.next`). -/
def list_next (registry : List dump_conn) (i : Nat) : dump_pos :=
  if i + 1 < registry.length then dump_pos.entry (i + 1) else dump_pos.head

/-- The revalidation loop of `get_one_status`: the position and the connection
to work on (`pos` and `tconn`). -/
def revalidate (registry : List dump_conn) (pos : dump_pos) : dump_pos × dump_pos :=
  match registry with
  | [] => (pos, dump_pos.null)
  | _ :: _ =>
    match pos with
    | dump_pos.null => (dump_pos.entry 0, dump_pos.entry 0)
    | dump_pos.entry i =>
      if i < registry.length then (pos, pos) else (pos, dump_pos.null)
    | dump_pos.head => (pos, dump_pos.null)

/-- The code of `get_one_status` from the label `out` on: the cursor for the
next call, with the record that the call emitted. -/
def status_out (cb : netlink_callback) (pos tconn : dump_pos) (volume : Nat)
    (record : Option dump_record) : netlink_callback × Option dump_record :=
  ({ cb with pos := pos, volume := if pos = tconn then (volume + 1) % 2 ^ 32 else 0 }, record)

/-- The code of `get_one_status` from the label `next_tconn` on, for the
connection at place `i`; `passes` bounds the number of times the label is
reached, and the result is none when the bound is used up or the place is not
in the registry. -/
def next_tconn (registry : List dump_conn) (room : reply_room) (cb : netlink_callback) :
    Nat → Nat → Nat → Option (netlink_callback × Option dump_record)
  | 0, _, _ => none
  | passes + 1, i, volume =>
    match registry[i]? with
    | none => none
    | some tconn =>
      match idr_get_next tconn.volumes volume with
      | none =>
        let pos := list_next registry i
        if volume ≠ 0 then
          if pos = dump_pos.head ∨ cb.filter ≠ dump_pos.null then
            some (status_out cb pos (dump_pos.entry i) volume none)
          else
            match pos with
            | dump_pos.entry j => next_tconn registry room cb passes j 0
            | _ => none
        else if room.header = false then
          some (status_out cb pos (dump_pos.entry i) volume none)
        else
          some (status_out cb pos (dump_pos.entry i) volume
            (if room.context = true then
              some { minor := 2 ^ 32 - 1, conn_name := tconn.name,
                     volume := VOLUME_UNSPECIFIED }
             else none))
      | some mdev =>
        if room.header = false then
          some (status_out cb (dump_pos.entry i) (dump_pos.entry i) mdev.1 none)
        else
          some (status_out cb (dump_pos.entry i) (dump_pos.entry i) mdev.1
            (if room.status = true then
              some { minor := mdev.2, conn_name := tconn.name, volume := mdev.1 }
             else none))

/-- `get_one_status`: the cursor it leaves in `cb->args` and the record it
emitted, if any.  The label `next_tconn` is reached at most twice. -/
def get_one_status (registry : List dump_conn) (room : reply_room) (cb : netlink_callback) :
    Option (netlink_callback × Option dump_record) :=
  match (revalidate registry cb.pos).2 with
  | dump_pos.entry i => next_tconn registry room cb 2 i (cb.volume % 2 ^ 32)
  | tconn => some (status_out cb (revalidate registry cb.pos).1 tconn (cb.volume % 2 ^ 32) none)

/-- Modelled from the spec: the dump loop of netlink (kernel, absent): the
callback is called again, each time with a fresh reply buffer, until a call
emits nothing; `calls` bounds the number of calls, and the result is none when
the bound is used up. -/
def netlink_dump (registry : List dump_conn) (room : reply_room) :
    Nat → netlink_callback → Option (List dump_record)
  | 0, _ => none
  | calls + 1, cb =>
    match get_one_status registry room cb with
    | none => none
    | some (_, none) => some []
    | some (cb2, some record) => (netlink_dump registry room calls cb2).map (fun l => record :: l)

/-! ## Examples and specification-side definitions for the administrative requests -/

/-- An example: persisted flags with MDF_CONSISTENT and MDF_WAS_UP_TO_DATE set. -/
def bdev_flags_consistent : drbd_backing_dev :=
  { md := { flags := 17 } }

/-- An example: no persisted flag set, fencing policy DontCare. -/
def bdev_flags_none_dont_care : drbd_backing_dev :=
  { md := { flags := 0 }, fencing := FP_DONT_CARE }

/-- An example: a connection without volumes that is waiting for its peer. -/
def conn_waiting_empty : adm_conn :=
  { name := 1, cstate := C_WF_CONNECTION, volumes := [] }

/-- An example: a stand-alone connection with one volume. -/
def conn_standalone_one_volume : adm_conn :=
  { name := 2, cstate := C_STANDALONE, volumes := [0] }

/-- The published network configuration and the installed handles of a
connection. -/
def net_snapshot (t : drbd_tconn) :
    Option net_conf × Option Nat × Option Nat × Option Nat × Option Nat × Option Nat ×
      Option Nat :=
  (t.net_conf, t.verify_tfm, t.csums_tfm, t.cram_hmac_tfm, t.integrity_tfm, t.int_dig_in,
    t.int_dig_vv)

/-- An example: a connected connection running protocol C without an
integrity algorithm. -/
def tconn_plain : drbd_tconn :=
  { cstate := C_CONNECTED, agreed_pro_version := 100,
    net_conf := some { wire_protocol := DRBD_PROT_C } }

/-- An example: the configuration of `tconn_plain` with the integrity
algorithm "md5". -/
def conf_md5 : net_conf :=
  { wire_protocol := DRBD_PROT_C, integrity_alg := [109, 100, 53] }

/-- An example: a request that sets the integrity algorithm "md5", in a world
where every allocation succeeds and sending the protocol packet fails. -/
def env_send_fails : net_env :=
  { net_conf_from_attrs := fun nc => (0, { nc with integrity_alg := [109, 100, 53] })
    crypto_alloc_hash := fun _ => some 7
    kmalloc_dig_in := some 8
    kmalloc_dig_vv := some 9
    __drbd_send_protocol := fun _ => -5
    conn_request_state := fun t _ _ _ => (1, t) }

/-- An example: the configuration a connect request asks for. -/
def conf_requested : net_conf :=
  { wire_protocol := DRBD_PROT_C, my_addr := [1], my_addr_len := 1,
    peer_addr := [2], peer_addr_len := 1 }

/-- An example: a connect request for `conf_requested` in a world where all
collaborators succeed. -/
def env_connect : net_env :=
  { net_conf_from_attrs := fun _ => (0, conf_requested)
    crypto_alloc_hash := fun _ => some 7
    __drbd_send_protocol := fun _ => 0
    conn_request_state := fun t _ _ _ => (1, t) }

/-- An example: another connection with the requested local address and a
different peer. -/
def oconn_same_local : drbd_tconn :=
  { net_conf := some { wire_protocol := DRBD_PROT_C, my_addr := [1], my_addr_len := 1,
                       peer_addr := [3], peer_addr_len := 1 } }

/-- An example: a configuration with the requested peer address and a
different local address. -/
def conf_same_peer : net_conf :=
  { wire_protocol := DRBD_PROT_C, my_addr := [4], my_addr_len := 1,
    peer_addr := [2], peer_addr_len := 1 }

/-- An example: another connection with the requested peer address and a
different local address. -/
def oconn_same_peer : drbd_tconn :=
  { net_conf := some conf_same_peer }

/-- The candidate of a connect request: the defaults overlaid with the
attributes of the request. -/
def connect_candidate (E : net_env) : net_conf :=
  (E.net_conf_from_attrs (drbd_set_net_conf_defaults {})).2

/-- The local address of the candidate is the local address of `nc`. -/
def local_addr_taken (new_conf nc : net_conf) : Bool :=
  addr_taken new_conf.my_addr_len new_conf.my_addr nc.my_addr_len nc.my_addr

/-- The peer address of the candidate is the peer address of `nc`. -/
def peer_addr_taken (new_conf nc : net_conf) : Bool :=
  addr_taken new_conf.peer_addr_len new_conf.peer_addr nc.peer_addr_len nc.peer_addr

/-- A network event is a state request. -/
def is_conn_request : net_event → Bool
  | net_event.conn_request_state _ _ _ _ => true
  | _ => false

/-- An example: the limits of a kernel with 250 timer ticks per second. -/
def limits_250 : disk_limits :=
  { defaults := { fencing := FP_DONT_CARE, resync_rate := 250, resync_after := -1,
                  al_extents := 127, c_plan_ahead := 0 }
    DRBD_AL_EXTENTS_MIN := 7
    DRBD_AL_EXTENTS_MAX := 3843
    HZ := 250 }

/-- An example: a volume with an attached disk, an activity log of 127 extents
and no resync plan. -/
def mdev_attached : disk_opts_volume :=
  { state := { disk := D_UP_TO_DATE }
    dc := { resync_rate := 250, resync_after := -1, al_extents := 127, c_plan_ahead := 0 }
    act_log := some { nr_elements := 127 } }

/-- An example: a request whose attributes are malformed after the parser
stored an activity log size of 257 and a plan-ahead of 20; every other
collaborator succeeds. -/
def env_malformed_attrs : disk_opts_env :=
  { limits := limits_250
    disk_conf_from_attrs := fun dc => (-22, { dc with al_extents := 257, c_plan_ahead := 20 })
    drbd_alter_sa := fun _ => NO_ERROR
    kzalloc_plan := fun _ => some 5 }

/-- An attach event is a request to the state engine. -/
def is_state_change : attach_event → Bool
  | attach_event._drbd_request_state _ _ _ _ => true
  | attach_event._drbd_set_state _ _ _ => true
  | attach_event.drbd_force_state _ _ => true
  | _ => false

/-- An attach event is a forced state change. -/
def is_forced : attach_event → Bool
  | attach_event.drbd_force_state _ _ => true
  | _ => false

/-- The last request to the state engine in a trace. -/
def last_state_change (tr : List attach_event) : Option attach_event :=
  (tr.filter is_state_change).getLast?

/-- An example: a backing device of 1 GiB with internal meta data. -/
def nbc_internal : drbd_backing_dev :=
  { meta_dev_idx := -1, backing_capacity := 2097152, md_capacity := 2097152,
    max_capacity := 2097000 }

/-- An example: an attach request for `nbc_internal` in a world where every
collaborator succeeds and the state engine grants what is asked. -/
def env_attach : attach_env :=
  { L := drbd_layout
    limits := limits_250
    nbc := nbc_internal
    al_extents := 127
    _drbd_request_state := fun v mask val _ => (SS_SUCCESS, apply_mask_val v.mdev.state mask val)
    _drbd_set_state := fun _ ns _ => (SS_SUCCESS, ns)
    drbd_force_state := fun v mask val => apply_mask_val v.mdev.state mask val
    drbd_md_read := fun b => (NO_ERROR, b) }

/-- An example: the world of `env_attach` with a state engine that rejects the
request for the disk state Attaching. -/
def env_attach_rejected : attach_env :=
  { env_attach with
    _drbd_request_state := fun v _ _ _ => (SS_CW_FAILED_BY_PEER, v.mdev.state) }

/-- An example: the world of `env_attach` where the activity log cannot be
read. -/
def env_attach_al_unreadable : attach_env :=
  { env_attach with drbd_al_read_log_ok := false }

/-- An example: a diskless Primary whose replicated device has 2 GiB. -/
def vol_diskless_primary : attach_volume :=
  { mdev := { state := { role := R_PRIMARY }, this_capacity := 4194304 } }

/-- An example: a diskless Secondary that was never sized. -/
def vol_diskless_secondary : attach_volume :=
  { mdev := { state := { role := R_SECONDARY } } }

/-- The run left through `force_diskless` or `force_diskless_dec` and its last
request to the state engine is the forced transition to Failed. -/
def forced_failed (r : attach_result) : Prop :=
  (r.exit = attach_exit.force_diskless ∨ r.exit = attach_exit.force_diskless_dec) ∧
  last_state_change r.trace
    = some (attach_event.drbd_force_state { disk := D_MASK } { disk := D_FAILED })

/-- The run attached the volume: it left through no failure label, answers
NO_ERROR, the backing device is installed and its last request to the state
engine is a state change that the engine accepted. -/
def attached (r : attach_result) : Prop :=
  r.exit = attach_exit.done ∧ r.reply = some NO_ERROR ∧ r.mdev.has_ldev = true ∧
  ∃ ns rv, last_state_change r.trace = some (attach_event._drbd_set_state ns CS_VERBOSE rv) ∧
    SS_SUCCESS ≤ rv

/-- The status record of a member volume. -/
def volume_record (c : dump_conn) (m : Nat × Nat) : dump_record :=
  { minor := m.2, conn_name := c.name, volume := m.1 }

/-- The context-only record of a connection: minor `-1U`, no volume. -/
def context_record (c : dump_conn) : dump_record :=
  { minor := 2 ^ 32 - 1, conn_name := c.name, volume := VOLUME_UNSPECIFIED }

/-- The records a complete dump owes for one connection: one per volume in
ascending volume number, or the context-only record when it has no volume. -/
def conn_records (c : dump_conn) : List dump_record :=
  if c.volumes = [] then [context_record c] else c.volumes.map (volume_record c)

/-- The records a complete dump owes for a registry, in registry order. -/
def expected_records (registry : List dump_conn) : List dump_record :=
  (registry.map conn_records).flatten

/-- The registry is well formed: in every connection the volume numbers
ascend strictly and are below `2 ^ 32 - 1`. -/
def registry_ok (registry : List dump_conn) : Prop :=
  ∀ c ∈ registry, c.volumes.Pairwise (fun a b => a.1 < b.1) ∧
    ∀ m ∈ c.volumes, m.1 + 1 < 2 ^ 32

/-- The records still owed for a connection when the cursor stands at the
volume number `w` of it. -/
def conn_remaining (c : dump_conn) (w : Nat) : List dump_record :=
  if w = 0 ∧ c.volumes = [] then [context_record c]
  else (c.volumes.filter (fun m => decide (w ≤ m.1))).map (volume_record c)

/-- The records still owed when the dump stands at a cursor. -/
def remaining (registry : List dump_conn) (cb : netlink_callback) : List dump_record :=
  match cb.pos with
  | dump_pos.head => []
  | dump_pos.null =>
    match registry with
    | [] => []
    | c :: rest => conn_remaining c cb.volume ++ expected_records rest
  | dump_pos.entry i =>
    match registry[i]? with
    | none => []
    | some c => conn_remaining c cb.volume ++ expected_records (registry.drop (i + 1))

/-- The cursor is one that a dump from the zero cursor can reach. -/
def cursor_ok (registry : List dump_conn) (cb : netlink_callback) : Prop :=
  cb.filter = dump_pos.null ∧ cb.volume < 2 ^ 32 ∧
  (match cb.pos with
   | dump_pos.head => True
   | dump_pos.null => True
   | dump_pos.entry i => i < registry.length)

/-- An example: a registry of three connections, the second without volumes. -/
def registry_three : List dump_conn :=
  [{ name := 1, volumes := [(0, 10), (1, 11)] }, { name := 2 }, { name := 3, volumes := [(5, 12)] }]

/-! ## Pretty printing of sizes -/

/-- The unit letters of `ppsize`. -/
def units : List Char := ['K', 'M', 'G', 'T', 'P', 'E']

/-- A scaling step of `ppsize`: `(size >> 10) + !!(size & (1<<9))`. -/
def ppsize_step (size : Nat) : Nat :=
  size / 2 ^ 10 + (if size &&& 2 ^ 9 ≠ 0 then 1 else 0)

/-- The loop `while (size >= 10000 && base < sizeof(units)-1)` of `ppsize`,
entered with `size` and `base`: the values it leaves.  The first argument
bounds the number of passes. -/
def ppsize_scale : Nat → Nat → Nat → Nat × Nat
  | 0, size, base => (size, base)
  | passes + 1, size, base =>
    if size ≥ 10000 ∧ base < units.length - 1 then
      ppsize_scale passes (ppsize_step size) (base + 1)
    else (size, base)

/-- Modelled from the spec: the conversion `%u` of `sprintf` (kernel, absent):
the decimal digits of `n`, most significant first, for a number of at most as
many digits as the first argument says. -/
def decimal_digits : Nat → Nat → List Char
  | 0, _ => []
  | width + 1, n =>
    if n < 10 then [Nat.digitChar n]
    else decimal_digits width (n / 10) ++ [Nat.digitChar (n % 10)]

/-- `ppsize(buf, size)`: the characters written to `buf` before the trailing
NUL, `"%u %cB"` of `(unsigned)size` and `units[base]`. -/
def ppsize (size : Nat) : List Char :=
  let r := ppsize_scale (units.length - 1) (size % 2 ^ 64) 0
  decimal_digits 10 (r.1 % 2 ^ 32) ++ [' ', units.getD r.2 ' ', 'B']

/-! ## Online verify -/

/-- The request and the collaborators of `drbd_adm_start_ov`: whether the
request carries start parameters, what `start_ov_parms_from_attrs` returns and
leaves in `parms.ov_start_sector`, the outcome of the state request, and
`BM_SECT_PER_BIT` (drbd_int.h, absent), the number of sectors per bitmap bit. -/
structure start_ov_env where
  prep : adm_prepared := {}
  has_parms : Bool := true
  start_ov_parms_from_attrs : Nat → Int × Nat
  drbd_request_state : drbd_state → drbd_state → Int
  BM_SECT_PER_BIT : Nat

/-- What `drbd_adm_start_ov` leaves: the code of the reply (none when no reply
was allocated), `mdev->ov_start_sector`, and whether the state request for the
verify was made. -/
structure start_ov_result where
  reply : Option drbd_ret_code
  ov_start_sector : Nat
  requested : Bool
deriving DecidableEq, Repr

/-- `drbd_adm_start_ov` for a volume whose verify start position is
`ov_start_sector`; the complement `~BM_SECT_PER_BIT` is taken in 64 bits. -/
def drbd_adm_start_ov (E : start_ov_env) (ov_start_sector : Nat) : start_ov_result :=
  if E.prep.reply_skb = false then
    { reply := none, ov_start_sector := ov_start_sector, requested := false }
  else if E.prep.retcode ≠ NO_ERROR then
    { reply := some E.prep.retcode, ov_start_sector := ov_start_sector, requested := false }
  else if E.has_parms = true ∧ (E.start_ov_parms_from_attrs ov_start_sector).1 ≠ 0 then
    { reply := some ERR_MANDATORY_TAG, ov_start_sector := ov_start_sector, requested := false }
  else
    let ov_start_sector :=
      if E.has_parms = true then
        ((E.start_ov_parms_from_attrs ov_start_sector).2 % 2 ^ 64) &&&
          (2 ^ 64 - 1 - E.BM_SECT_PER_BIT % 2 ^ 64)
      else ov_start_sector
    { reply := some (other (E.drbd_request_state { conn := C_MASK } { conn := C_VERIFY_S }))
      ov_start_sector := ov_start_sector
      requested := true }

/-! ## Resize -/

/-- The parameters of a resize request (`struct resize_parms`). -/
structure resize_parms where
  resize_size : Nat := 0
  resize_force : Bool := false
  no_resync : Bool := false
deriving DecidableEq, Repr

/-- A volume as `drbd_adm_resize` sees it: the volume of the size negotiation,
the count of references to its local disk (`mdev->local_cnt`), the agreed
protocol version of its connection and the flag RESIZE_PENDING. -/
structure resize_volume where
  mdev : drbd_conf := {}
  local_cnt : Nat := 0
  agreed_pro_version : Nat := 0
  RESIZE_PENDING : Bool := false
deriving DecidableEq, Repr

/-- What `drbd_adm_resize` does besides changing the volume. -/
inductive resize_event where
  | drbd_msg_put_info
  | drbd_md_sync
  | drbd_send_uuids
  | drbd_send_sizes (flags : Nat)
deriving DecidableEq, Repr

/-- The request and the collaborators of `drbd_adm_resize`. -/
structure resize_env where
  prep : adm_prepared := {}
  L : Layout
  /-- `info->attrs[DRBD_NLA_RESIZE_PARMS]` is present -/
  has_parms : Bool := true
  /-- `resize_parms_from_attrs`: its return value and the parameters it leaves -/
  resize_parms_from_attrs : Int × resize_parms
  /-- `drbd_bm_resize` fails, if `drbd_determin_dev_size` gets to it -/
  bm_resize_err : Bool := false
  /-- `drbd_bitmap_io` fails, if `drbd_determin_dev_size` gets to it -/
  bitmap_io_err : Bool := false

/-- What `drbd_adm_resize` leaves. -/
structure resize_result where
  reply : Option drbd_ret_code
  mdev : resize_volume
  trace : List resize_event
deriving DecidableEq, Repr

/-- Modelled from the spec: `get_ldev(mdev)` with its reference count
(drbd_int.h, absent): the count is raised, and lowered again at once when the
disk state is below Inconsistent. -/
def get_ldev_ref (v : resize_volume) : Bool × resize_volume :=
  if get_ldev v.mdev = true then (true, { v with local_cnt := v.local_cnt + 1 })
  else (false, v)

/-- Modelled from the spec: `put_ldev(mdev)` (drbd_int.h, absent): the count of
references is lowered by one. -/
def put_ldev (v : resize_volume) : resize_volume :=
  { v with local_cnt := v.local_cnt - 1 }

/-- The flags that `drbd_adm_resize` passes to the size negotiation. -/
def resize_dds_flags (rs : resize_parms) : Nat :=
  (if rs.resize_force = true then DDSF_FORCED else 0) |||
    (if rs.no_resync = true then DDSF_NO_RESYNC else 0)

/-- The part of `drbd_adm_resize` that follows the successful `get_ldev`; the
update of `known_size` is not part of the volume of the model. -/
def resize_with_ldev (E : resize_env) (rs : resize_parms) (v : resize_volume) :
    resize_result :=
  if rs.no_resync = true ∧ v.agreed_pro_version < 93 then
    { reply := some ERR_NEED_APV_93, mdev := v, trace := [] }
  else
    let mdev := { v.mdev with ldev := { v.mdev.ldev with disk_size := rs.resize_size } }
    let ddsf := resize_dds_flags rs
    let dd := drbd_determin_dev_size E.L mdev ddsf E.bm_resize_err E.bitmap_io_err
    let v := put_ldev { v with mdev := dd.mdev }
    if dd.rv = determine_dev_size.dev_size_error then
      { reply := some ERR_NOMEM_BITMAP, mdev := v, trace := [resize_event.drbd_md_sync] }
    else if v.mdev.state.conn = C_CONNECTED then
      { reply := some NO_ERROR
        mdev := if dd.rv = determine_dev_size.grew then { v with RESIZE_PENDING := true } else v
        trace := [resize_event.drbd_md_sync, resize_event.drbd_send_uuids,
          resize_event.drbd_send_sizes ddsf] }
    else
      { reply := some NO_ERROR, mdev := v, trace := [resize_event.drbd_md_sync] }

/-- `drbd_adm_resize` for the volume that `drbd_adm_prepare` resolved. -/
def drbd_adm_resize (E : resize_env) (v : resize_volume) : resize_result :=
  if E.prep.reply_skb = false then
    { reply := none, mdev := v, trace := [] }
  else if E.prep.retcode ≠ NO_ERROR then
    { reply := some E.prep.retcode, mdev := v, trace := [] }
  else if E.has_parms = true ∧ E.resize_parms_from_attrs.1 ≠ 0 then
    { reply := some ERR_MANDATORY_TAG, mdev := v, trace := [resize_event.drbd_msg_put_info] }
  else
    let rs : resize_parms := if E.has_parms = true then E.resize_parms_from_attrs.2 else {}
    if v.mdev.state.conn > C_CONNECTED then
      { reply := some ERR_RESIZE_RESYNC, mdev := v, trace := [] }
    else if v.mdev.state.role = R_SECONDARY ∧ v.mdev.state.peer = R_SECONDARY then
      { reply := some ERR_NO_PRIMARY, mdev := v, trace := [] }
    else if (get_ldev_ref v).1 = false then
      { reply := some ERR_NO_DISK, mdev := (get_ldev_ref v).2, trace := [] }
    else
      resize_with_ldev E rs (get_ldev_ref v).2

/-! ## Adding a minor -/

/-- The request context `adm_ctx` as `drbd_adm_prepare` leaves it: the minor of
the request header, the volume number of the request, and whether a volume
(`adm_ctx.mdev`) and a connection (`adm_ctx.tconn`, with a reference taken by
`conn_get_by_name`) were resolved. -/
structure drbd_config_context where
  minor : Nat := 0
  volume : Nat := 0
  mdev : Bool := false
  tconn : Bool := false
deriving DecidableEq, Repr

/-- What an administrative handler does with the reply and the registry. -/
inductive adm_event where
  | drbd_msg_put_info
  | kref_put_tconn
  | store_ret_code (retcode : drbd_ret_code)
  | drbd_adm_send_reply
  | conn_new_minor (minor volume : Nat)
deriving DecidableEq, Repr

/-- `drbd_adm_finish(info, retcode)`: the reference on the connection is
released, the code is stored in the reply and the reply is sent. -/
def drbd_adm_finish (prep : adm_prepared) (ctx : drbd_config_context)
    (retcode : drbd_ret_code) : List adm_event :=
  (if ctx.tconn = true then [adm_event.kref_put_tconn] else []) ++
  (if prep.reply_skb = true then
    [adm_event.store_ret_code retcode, adm_event.drbd_adm_send_reply] else [])

/-- What a handler leaves: the value it returns to the netlink layer when that
is not 0, and what it did. -/
structure adm_result where
  returned : Option drbd_ret_code
  trace : List adm_event
deriving DecidableEq, Repr

/-- `drbd_adm_add_minor`; `minor_count` is the module parameter, `excl` the
flag NLM_F_EXCL of the request, `conn_new_minor` the collaborator of
drbd_main.c. -/
def drbd_adm_add_minor (prep : adm_prepared) (ctx : drbd_config_context) (minor_count : Nat)
    (excl : Bool) (conn_new_minor : Nat → Nat → drbd_ret_code) : adm_result :=
  if prep.reply_skb = false then
    { returned := some prep.retcode, trace := [] }
  else if prep.retcode ≠ NO_ERROR then
    { returned := none, trace := drbd_adm_finish prep ctx prep.retcode }
  else if ctx.minor ≥ minor_count then
    { returned := some ERR_INVALID_REQUEST, trace := [adm_event.drbd_msg_put_info] }
  else if ctx.volume ≥ 256 then
    { returned := some ERR_INVALID_REQUEST, trace := [adm_event.drbd_msg_put_info] }
  else if ctx.mdev = true then
    { returned := none
      trace := drbd_adm_finish prep ctx (if excl = true then ERR_MINOR_EXISTS else NO_ERROR) }
  else
    { returned := none
      trace := adm_event.conn_new_minor ctx.minor ctx.volume ::
        drbd_adm_finish prep ctx (conn_new_minor ctx.minor ctx.volume) }

/-! ## Promotion with the outcomes of the fencing calls -/

/-- A step of the retry loop of `drbd_set_role`: an action of the trace, or the
value that a call of `conn_try_outdate_peer` returned. -/
inductive role_step where
  | event (e : Event)
  | fenced (ok : Bool)
deriving DecidableEq, Repr

/-- The retry loop of `drbd_set_role` once more, as `set_role_loop`, giving
instead of the result the actions in order with, after the actions of every
call of `conn_try_outdate_peer`, the value the call returned. -/
def set_role_steps (K : Kernel σ) (force : Bool) (try_ : Nat) (mask val : drbd_state)
    (s : σ) : List role_step :=
  if try_ < max_tries then
    let try1 := try_ + 1
    let rv1 := (K._drbd_request_state s mask val CS_WAIT_COMPLETE).1
    let s1 := (K._drbd_request_state s mask val CS_WAIT_COMPLETE).2
    let ev := role_step.event (Event._drbd_request_state mask val CS_WAIT_COMPLETE rv1)
    let fence := (conn_try_outdate_peer K s1).trace.map role_step.event ++
      [role_step.fenced (conn_try_outdate_peer K s1).ret]
    if rv1 = SS_CW_FAILED_BY_PEER ∧ mask.pdsk ≠ 0 then
      ev :: set_role_steps K force try1 { mask with pdsk := 0 } { val with pdsk := 0 } s1
    else if rv1 = SS_NO_UP_TO_DATE_DISK ∧ force = true ∧
        ((K.mdev_state s1).disk < D_UP_TO_DATE ∧ (K.mdev_state s1).disk ≥ D_INCONSISTENT) then
      ev :: set_role_steps K force try1 { mask with disk := D_MASK }
        { val with disk := D_UP_TO_DATE } s1
    else if rv1 = SS_NO_UP_TO_DATE_DISK ∧ (K.mdev_state s1).disk = D_CONSISTENT ∧
        mask.pdsk = 0 then
      if (conn_try_outdate_peer K s1).ret = true then
        ev :: fence ++ set_role_steps K force try1 { mask with disk := D_MASK }
          { val with disk := D_UP_TO_DATE } (conn_try_outdate_peer K s1).state
      else
        ev :: fence ++ set_role_steps K force try1 mask val (conn_try_outdate_peer K s1).state
    else if rv1 = SS_NOTHING_TO_DO then
      [ev]
    else if rv1 = SS_PRIMARY_NOP ∧ mask.pdsk = 0 then
      if (conn_try_outdate_peer K s1).ret = false ∧ force = true then
        ev :: fence ++ role_step.event Event.warn_forced_split_brain ::
          set_role_steps K force try1 { mask with pdsk := D_MASK }
            { val with pdsk := D_OUTDATED } (conn_try_outdate_peer K s1).state
      else
        ev :: fence ++ set_role_steps K force try1 mask val (conn_try_outdate_peer K s1).state
    else if rv1 = SS_TWO_PRIMARIES then
      let try2 := if try1 < max_tries then max_tries - 1 else try1
      ev :: role_step.event Event.schedule_timeout :: set_role_steps K force try2 mask val s1
    else if rv1 < SS_SUCCESS then
      [ev, role_step.event (Event._drbd_request_state mask val (CS_VERBOSE + CS_WAIT_COMPLETE)
        (K._drbd_request_state s1 mask val (CS_VERBOSE + CS_WAIT_COMPLETE)).1)]
    else
      [ev]
  else
    []
termination_by max_tries - try_
decreasing_by
  all_goals simp_wf
  all_goals simp only [max_tries] at *
  all_goals first | omega | (split_ifs <;> omega)

/-- The actions among the steps. -/
def step_events : List role_step → List Event
  | [] => []
  | role_step.event e :: rest => e :: step_events rest
  | role_step.fenced _ :: rest => step_events rest

/-! ## Further examples and specification-side definitions -/

/-- An example: a volume of 1000 sectors with a bitmap for 1000 sectors whose
backing device offers 4000 sectors; nothing was agreed before. -/
def mdev_to_grow : drbd_conf :=
  { this_capacity := 1000, bm_capacity := 1000, ldev := { max_capacity := 4000 } }

/-- The peer size that `drbd_new_dev_size` works with: the local maximum when
the resize is forced while not connected, the reported peer size otherwise. -/
def effective_peer_size (mdev : drbd_conf) (bdev : drbd_backing_dev) (f : Bool) : Nat :=
  if mdev.state.conn < C_CONNECTED ∧ f = true then bdev.max_capacity else mdev.p_size

/-- Modelled from the spec: `BM_SECT_PER_BIT` of drbd_int.h (absent): a bitmap
bit stands for 4 KiB, that is 8 sectors. -/
def BM_SECT_PER_BIT : Nat := 8

/-- An example: a verify request with start sector 1 that the state engine
accepts. -/
def env_start_ov : start_ov_env :=
  { start_ov_parms_from_attrs := fun _ => (0, 1)
    drbd_request_state := fun _ _ => SS_SUCCESS
    BM_SECT_PER_BIT := BM_SECT_PER_BIT }

/-- An example: a Primary with an attached disk, connected with protocol
version 92, holding no reference to its local disk. -/
def vol_apv_92 : resize_volume :=
  { mdev := { state := { role := R_PRIMARY, conn := C_CONNECTED, disk := D_UP_TO_DATE }
              ldev := { max_capacity := 4000 } }
    local_cnt := 0
    agreed_pro_version := 92 }

/-- An example: a resize request that asks to skip the resync. -/
def env_resize_no_resync : resize_env :=
  { L := drbd_layout
    resize_parms_from_attrs := (0, { resize_size := 0, no_resync := true }) }

/-- An example: the context of a request for minor 40 as volume 0 of a known
connection. -/
def ctx_minor_40 : drbd_config_context :=
  { minor := 40, volume := 0, tconn := true }

/-- An example: the context of a request for minor 3 as volume 256 of a known
connection. -/
def ctx_volume_256 : drbd_config_context :=
  { minor := 3, volume := 256, tconn := true }

/-- A request or a state change of an attach trace that asks for the disk state
UpToDate. -/
def asks_up_to_date : attach_event → Bool
  | attach_event._drbd_request_state _ val _ _ => decide (val.disk = D_UP_TO_DATE)
  | attach_event._drbd_set_state ns _ _ => decide (ns.disk = D_UP_TO_DATE)
  | attach_event.drbd_force_state _ val => decide (val.disk = D_UP_TO_DATE)
  | _ => false

/-- An example: the world of `env_attach` where the meta data read says
Consistent but not WasUpToDate, with the peer marked Outdated. -/
def env_attach_md_outdated : attach_env :=
  { env_attach with
    drbd_md_read := fun b =>
      (NO_ERROR, { b with md := { b.md with flags := MDF_CONSISTENT + MDF_PEER_OUT_DATED } }) }

/-- An example: the world of `env_attach` where the meta data read carries the
current UUID 8. -/
def env_attach_uuid_8 : attach_env :=
  { env_attach with
    drbd_md_read := fun b => (NO_ERROR, { b with md := { b.md with uuid_current := 8 } }) }

/-- An example: a diskless Primary without connection that exposes the data
generation 12. -/
def vol_primary_exposing_12 : attach_volume :=
  { mdev := { state := { role := R_PRIMARY } }, ed_uuid := 12 }

/-- An example: a diskless Primary without connection that exposes the data
generation 9, which is the generation 8 with the lowest bit set. -/
def vol_primary_exposing_9 : attach_volume :=
  { mdev := { state := { role := R_PRIMARY } }, ed_uuid := 9 }

/-- The steps obey the rule of an unforced promotion: every request of
`drbd_set_role` leaves the peer disk unconstrained, and constrains the local
disk, if at all, to UpToDate with an earlier call of `conn_try_outdate_peer`
among the steps (or before them when `ok` is set) that returned true. -/
def steps_guarded : Bool → List role_step → Bool
  | _, [] => true
  | ok, role_step.fenced b :: rest => steps_guarded (ok || b) rest
  | ok, role_step.event (Event._drbd_request_state mask val _ _) :: rest =>
    decide (mask.pdsk = 0 ∧ val.pdsk = 0 ∧
      ((mask.disk = 0 ∧ val.disk = 0) ∨
        (mask.disk = D_MASK ∧ val.disk = D_UP_TO_DATE ∧ ok = true))) &&
      steps_guarded ok rest
  | ok, role_step.event _ :: rest => steps_guarded ok rest

/-- A volume that is Consistent, not connected, with fencing policy DontCare;
the state engine refuses the first request because of two primaries and the
second for want of an up-to-date disk. -/
def w_two_primaries_then_no_disk : World :=
  { cstate := 0
    volumes := [{ state := { role := R_SECONDARY, disk := D_CONSISTENT, pdsk := D_UNKNOWN },
                  ldev := { fencing := FP_DONT_CARE } }]
    helper_result := 0
    script := [SS_TWO_PRIMARIES, SS_NO_UP_TO_DATE_DISK] }

theorem conn_try_outdate_peer_helper_run (K : Kernel σ) (s : σ)
    (hc : K.cstate s < C_WF_REPORT_PARAMS)
    (hna : highest_fencing_policy (K.volumes s) ≠ FP_NOT_AVAIL)
    (hdc : highest_fencing_policy (K.volumes s) ≠ FP_DONT_CARE) :
    conn_try_outdate_peer K s =
      if exit_code (conn_khelper K s).1 = 3 then
        conn_try_outdate_peer_out K (conn_khelper K s).2 { susp_fen := 1, pdsk := D_MASK }
          { pdsk := D_INCONSISTENT } [Event.fence_peer_helper]
      else if exit_code (conn_khelper K s).1 = 4 then
        conn_try_outdate_peer_out K (conn_khelper K s).2 { susp_fen := 1, pdsk := D_MASK }
          { pdsk := D_OUTDATED } [Event.fence_peer_helper]
      else if exit_code (conn_khelper K s).1 = 5 then
        if conn_highest_disk (K.volumes (conn_khelper K s).2) = D_UP_TO_DATE then
          conn_try_outdate_peer_out K (conn_khelper K s).2 { susp_fen := 1, pdsk := D_MASK }
            { pdsk := D_OUTDATED } [Event.fence_peer_helper]
        else
          conn_try_outdate_peer_out K (conn_khelper K s).2 { susp_fen := 1 } {}
            [Event.fence_peer_helper]
      else if exit_code (conn_khelper K s).1 = 6 then
        conn_try_outdate_peer_out K (conn_khelper K s).2 { susp_fen := 1, disk := D_MASK }
          { disk := D_OUTDATED } [Event.fence_peer_helper]
      else if exit_code (conn_khelper K s).1 = 7 then
        conn_try_outdate_peer_out K (conn_khelper K s).2 { susp_fen := 1, pdsk := D_MASK }
          { pdsk := D_OUTDATED } [Event.fence_peer_helper]
      else
        { ret := false, state := (conn_khelper K s).2, trace := [Event.fence_peer_helper] } := by
  have h1 : ¬ C_WF_REPORT_PARAMS ≤ K.cstate s := by omega
  simp only [conn_try_outdate_peer, h1, hna, hdc, if_false]

theorem fencing_policy_ne_of_resource_or_stonith {fp : Int}
    (h : fp = FP_RESOURCE ∨ fp = FP_STONITH) : fp ≠ FP_NOT_AVAIL ∧ fp ≠ FP_DONT_CARE := by
  rcases h with h | h <;> subst h <;> simp [FP_RESOURCE, FP_STONITH, FP_NOT_AVAIL, FP_DONT_CARE]

/-- C1: when the fence-peer helper exits with a code outside 3..7 (connection
state below C_WF_REPORT_PARAMS, fencing policy Resource or Stonith),
`conn_try_outdate_peer` returns false and issues no state request: the only
action is the helper run, and the world it leaves, so the connection state and
every member volume, is the one the helper returned to. -/
theorem C1_broken_helper_changes_nothing (K : Kernel σ) (s : σ)
    (hc : K.cstate s < C_WF_REPORT_PARAMS)
    (hfp : highest_fencing_policy (K.volumes s) = FP_RESOURCE ∨
           highest_fencing_policy (K.volumes s) = FP_STONITH)
    (he : exit_code (conn_khelper K s).1 ∉ ({3, 4, 5, 6, 7} : Set Int)) :
    (conn_try_outdate_peer K s).ret = false ∧
    (conn_try_outdate_peer K s).trace = [Event.fence_peer_helper] ∧
    (∀ mask val flags,
      Event.conn_request_state mask val flags ∉ (conn_try_outdate_peer K s).trace) ∧
    (conn_try_outdate_peer K s).state = (K.call_usermodehelper s).2 ∧
    K.cstate (conn_try_outdate_peer K s).state = K.cstate (K.call_usermodehelper s).2 ∧
    K.volumes (conn_try_outdate_peer K s).state = K.volumes (K.call_usermodehelper s).2 := by
  obtain ⟨hna, hdc⟩ := fencing_policy_ne_of_resource_or_stonith hfp
  simp only [Set.mem_insert_iff, Set.mem_singleton_iff, not_or] at he
  obtain ⟨e3, e4, e5, e6, e7⟩ := he
  rw [conn_try_outdate_peer_helper_run K s hc hna hdc]
  simp only [e3, e4, e5, e6, e7, if_false]
  simp [conn_khelper]

/-- Witness of C1 in the world `w_broken` (helper exit code 1, policy Stonith). -/
theorem C1_broken_helper_changes_nothing_witness :
    (conn_try_outdate_peer scripted w_broken).ret = false ∧
    (conn_try_outdate_peer scripted w_broken).state = w_broken := by
  have h := C1_broken_helper_changes_nothing scripted w_broken (by decide)
    (Or.inr (by decide)) (by
      simp only [Set.mem_insert_iff, Set.mem_singleton_iff, not_or]
      decide)
  exact ⟨h.1, h.2.2.2.1⟩

/-- C2: the state change requested by `conn_try_outdate_peer` (connection state
below C_WF_REPORT_PARAMS, policy Resource or Stonith) is determined by the
helper exit code: 3 asks for peer disk Inconsistent, 4 and 7 for peer disk
Outdated, 6 for local disk Outdated with the peer disk left out of the mask;
for 3, 4 and 7 the local disk is not in the mask, and no request of the call
ever has role or connection state in its mask. -/
theorem C2_exit_code_decides_request (K : Kernel σ) (s : σ)
    (hc : K.cstate s < C_WF_REPORT_PARAMS)
    (hfp : highest_fencing_policy (K.volumes s) = FP_RESOURCE ∨
           highest_fencing_policy (K.volumes s) = FP_STONITH) :
    (exit_code (conn_khelper K s).1 = 3 →
      (conn_try_outdate_peer K s).trace = [Event.fence_peer_helper,
        Event.conn_request_state { susp_fen := 1, pdsk := D_MASK } { pdsk := D_INCONSISTENT }
          CS_VERBOSE]) ∧
    (exit_code (conn_khelper K s).1 = 4 →
      (conn_try_outdate_peer K s).trace = [Event.fence_peer_helper,
        Event.conn_request_state { susp_fen := 1, pdsk := D_MASK } { pdsk := D_OUTDATED }
          CS_VERBOSE]) ∧
    (exit_code (conn_khelper K s).1 = 7 →
      (conn_try_outdate_peer K s).trace = [Event.fence_peer_helper,
        Event.conn_request_state { susp_fen := 1, pdsk := D_MASK } { pdsk := D_OUTDATED }
          CS_VERBOSE]) ∧
    (exit_code (conn_khelper K s).1 = 6 →
      (conn_try_outdate_peer K s).trace = [Event.fence_peer_helper,
        Event.conn_request_state { susp_fen := 1, disk := D_MASK } { disk := D_OUTDATED }
          CS_VERBOSE]) ∧
    (∀ mask val flags,
      Event.conn_request_state mask val flags ∈ (conn_try_outdate_peer K s).trace →
        mask.role = 0 ∧ mask.conn = 0) := by
  obtain ⟨hna, hdc⟩ := fencing_policy_ne_of_resource_or_stonith hfp
  rw [conn_try_outdate_peer_helper_run K s hc hna hdc]
  refine ⟨?_, ?_, ?_, ?_, ?_⟩
  · intro h; simp [h, conn_try_outdate_peer_out]
  · intro h; simp [h, conn_try_outdate_peer_out]
  · intro h; simp [h, conn_try_outdate_peer_out]
  · intro h; simp [h, conn_try_outdate_peer_out]
  · intro mask val flags
    split_ifs <;> simp [conn_try_outdate_peer_out] <;> rintro rfl - - <;> exact ⟨rfl, rfl⟩

/-- Witness of C2 in the world `w_fenced` (policy Resource, helper exit code 4). -/
theorem C2_exit_code_decides_request_witness :
    (conn_try_outdate_peer scripted w_fenced).trace = [Event.fence_peer_helper,
      Event.conn_request_state { susp_fen := 1, pdsk := D_MASK } { pdsk := D_OUTDATED }
        CS_VERBOSE] :=
  (C2_exit_code_decides_request scripted w_fenced (by decide) (Or.inl (by decide))).2.1
    (by decide)

/-- C3 as stated fails: in the world `w_peer_down` the helper exits with code 5
while the highest local disk state is Consistent, not UpToDate, and the call
still issues a state request, which clears the fencing-suspension flag of the
volume (1 before the call, 0 after it). -/
theorem C3_peer_down_counterexample :
    scripted.cstate w_peer_down < C_WF_REPORT_PARAMS ∧
    highest_fencing_policy (scripted.volumes w_peer_down) = FP_RESOURCE ∧
    exit_code (conn_khelper scripted w_peer_down).1 = 5 ∧
    conn_highest_disk (scripted.volumes (conn_khelper scripted w_peer_down).2) ≠ D_UP_TO_DATE ∧
    (conn_try_outdate_peer scripted w_peer_down).trace = [Event.fence_peer_helper,
      Event.conn_request_state { susp_fen := 1 } {} CS_VERBOSE] ∧
    (scripted.volumes w_peer_down).map (fun mdev => mdev.state.susp_fen) = [1] ∧
    (scripted.volumes (conn_try_outdate_peer scripted w_peer_down).state).map
      (fun mdev => mdev.state.susp_fen) = [0] ∧
    (conn_try_outdate_peer scripted w_peer_down).state ≠ w_peer_down := by
  decide

/-- C3, amended: when the helper exits with code 5 and the highest local disk
state is UpToDate, the single state request marks the peer disk Outdated;
otherwise the single state request has only the fencing-suspension flag in its
mask and an all-zero value, so it asks to clear the fencing suspension and
constrains no role, connection, disk or peer disk state. -/
theorem C3_peer_down_request (K : Kernel σ) (s : σ)
    (hc : K.cstate s < C_WF_REPORT_PARAMS)
    (hfp : highest_fencing_policy (K.volumes s) = FP_RESOURCE ∨
           highest_fencing_policy (K.volumes s) = FP_STONITH)
    (he : exit_code (conn_khelper K s).1 = 5) :
    (conn_highest_disk (K.volumes (conn_khelper K s).2) = D_UP_TO_DATE →
      (conn_try_outdate_peer K s).trace = [Event.fence_peer_helper,
        Event.conn_request_state { susp_fen := 1, pdsk := D_MASK } { pdsk := D_OUTDATED }
          CS_VERBOSE] ∧
      (conn_try_outdate_peer K s).state =
        K.conn_request_state (conn_khelper K s).2 { susp_fen := 1, pdsk := D_MASK }
          { pdsk := D_OUTDATED } CS_VERBOSE) ∧
    (conn_highest_disk (K.volumes (conn_khelper K s).2) ≠ D_UP_TO_DATE →
      (conn_try_outdate_peer K s).trace = [Event.fence_peer_helper,
        Event.conn_request_state { susp_fen := 1 } {} CS_VERBOSE] ∧
      (conn_try_outdate_peer K s).state =
        K.conn_request_state (conn_khelper K s).2 { susp_fen := 1 } {} CS_VERBOSE) := by
  obtain ⟨hna, hdc⟩ := fencing_policy_ne_of_resource_or_stonith hfp
  rw [conn_try_outdate_peer_helper_run K s hc hna hdc]
  constructor
  · intro h; simp [he, h, conn_try_outdate_peer_out]
  · intro h; simp [he, h, conn_try_outdate_peer_out]

/-- Witness of C3 (amended) in the world `w_peer_down`. -/
theorem C3_peer_down_request_witness :
    (conn_try_outdate_peer scripted w_peer_down).trace = [Event.fence_peer_helper,
      Event.conn_request_state { susp_fen := 1 } {} CS_VERBOSE] :=
  ((C3_peer_down_request scripted w_peer_down (by decide) (Or.inl (by decide))
    (by decide)).2 (by decide)).1

theorem highest_fencing_policy_foldl_of_no_consistent (vols : List drbd_conf) (fp : Int)
    (h : ∀ mdev ∈ vols, mdev.state.disk < D_CONSISTENT) :
    vols.foldl
      (fun fp mdev => if get_ldev_if_state mdev D_CONSISTENT then max fp mdev.ldev.fencing else fp)
      fp = fp := by
  induction vols generalizing fp with
  | nil => rfl
  | cons mdev rest ih =>
    have hm : get_ldev_if_state mdev D_CONSISTENT = false := by
      have := h mdev (List.mem_cons_self _ _)
      simp only [get_ldev_if_state, decide_eq_false_iff_not]
      omega
    simp only [List.foldl_cons, hm]
    exact ih fp (fun m hmem => h m (List.mem_cons_of_mem _ hmem))

theorem highest_fencing_policy_of_no_consistent (vols : List drbd_conf)
    (h : ∀ mdev ∈ vols, mdev.state.disk < D_CONSISTENT) :
    highest_fencing_policy vols = FP_NOT_AVAIL :=
  highest_fencing_policy_foldl_of_no_consistent vols FP_NOT_AVAIL h

/-- C4 as stated fails: in the world `w_not_avail` no volume has a local disk
of state Consistent or better, the policy is FP_NOT_AVAIL and the connection
state is below C_WF_REPORT_PARAMS, yet `conn_try_outdate_peer` returns true,
because the peer disk is already Outdated. -/
theorem C4_not_avail_counterexample :
    (∀ mdev ∈ scripted.volumes w_not_avail, mdev.state.disk < D_CONSISTENT) ∧
    highest_fencing_policy (scripted.volumes w_not_avail) = FP_NOT_AVAIL ∧
    scripted.cstate w_not_avail < C_WF_REPORT_PARAMS ∧
    (conn_try_outdate_peer scripted w_not_avail).ret = true := by
  decide

/-- C4, amended: when no member volume has a local disk of state Consistent or
better (the policy is FP_NOT_AVAIL) and the connection state is below
C_WF_REPORT_PARAMS, `conn_try_outdate_peer` runs no helper, issues the one
state request that only clears the fencing suspension, and returns true exactly
when the highest peer disk state is then at most Outdated; it returns false
whenever that state is above Outdated. -/
theorem C4_not_avail_result (K : Kernel σ) (s : σ)
    (hnone : ∀ mdev ∈ K.volumes s, mdev.state.disk < D_CONSISTENT)
    (hc : K.cstate s < C_WF_REPORT_PARAMS) :
    highest_fencing_policy (K.volumes s) = FP_NOT_AVAIL ∧
    (conn_try_outdate_peer K s).trace =
      [Event.conn_request_state { susp_fen := 1 } {} CS_VERBOSE] ∧
    (conn_try_outdate_peer K s).state = K.conn_request_state s { susp_fen := 1 } {} CS_VERBOSE ∧
    ((conn_try_outdate_peer K s).ret = true ↔
      conn_highest_pdsk (K.volumes (K.conn_request_state s { susp_fen := 1 } {} CS_VERBOSE))
        ≤ D_OUTDATED) ∧
    (D_OUTDATED <
      conn_highest_pdsk (K.volumes (K.conn_request_state s { susp_fen := 1 } {} CS_VERBOSE)) →
      (conn_try_outdate_peer K s).ret = false) := by
  have hfp := highest_fencing_policy_of_no_consistent (K.volumes s) hnone
  have h1 : ¬ C_WF_REPORT_PARAMS ≤ K.cstate s := by omega
  refine ⟨hfp, ?_⟩
  simp only [conn_try_outdate_peer, h1, hfp, if_true, if_false, conn_try_outdate_peer_out,
    List.nil_append, decide_eq_true_eq, decide_eq_false_iff_not, true_and]
  omega

/-- Witness of C4 (amended) in the world `w_not_avail_unknown`: the peer disk
is unknown and the call reports failure. -/
theorem C4_not_avail_result_witness :
    (conn_try_outdate_peer scripted w_not_avail_unknown).ret = false :=
  (C4_not_avail_result scripted w_not_avail_unknown (by decide) (by decide)).2.2.2.2
    (by decide)

/-! ## Properties of the size negotiation -/

/-- C5: without user override (u_size = 0) and without forced resize,
`drbd_new_dev_size` returns the minimum of p_size and m_size when both are
non-zero; otherwise, when la_size is non-zero, it returns la_size reduced to
m_size if m_size is non-zero and smaller and to p_size if p_size is non-zero
and smaller.  In both cases this is the size rule of the specification. -/
theorem C5_new_dev_size_rule (mdev : drbd_conf) (bdev : drbd_backing_dev)
    (assume_peer_has_space : Bool)
    (hu : bdev.disk_size = 0)
    (hforce : assume_peer_has_space = false ∨ C_CONNECTED ≤ mdev.state.conn) :
    (mdev.p_size ≠ 0 ∧ bdev.max_capacity ≠ 0 →
      drbd_new_dev_size mdev bdev assume_peer_has_space =
        min mdev.p_size bdev.max_capacity) ∧
    (¬ (mdev.p_size ≠ 0 ∧ bdev.max_capacity ≠ 0) → bdev.md.la_size_sect ≠ 0 →
      drbd_new_dev_size mdev bdev assume_peer_has_space =
        clip_to_known (clip_to_known bdev.md.la_size_sect bdev.max_capacity) mdev.p_size) ∧
    (mdev.p_size ≠ 0 ∧ bdev.max_capacity ≠ 0 ∨ bdev.md.la_size_sect ≠ 0 →
      drbd_new_dev_size mdev bdev assume_peer_has_space =
        spec_agreed_size mdev.p_size bdev.max_capacity bdev.md.la_size_sect) := by
  have hp : ¬ (mdev.state.conn < C_CONNECTED ∧ assume_peer_has_space = true) := by
    rcases hforce with h | h
    · simp [h]
    · intro hh; omega
  refine ⟨?_, ?_, ?_⟩
  · intro h
    simp only [drbd_new_dev_size, hp, hu, if_false, h, ne_eq, not_false_eq_true, and_self,
      if_true, not_true_eq_false]
  · intro h hla
    simp only [drbd_new_dev_size, hp, hu, if_false, h, hla, ne_eq, not_false_eq_true,
      if_true, not_true_eq_false, clip_to_known]
  · intro h
    by_cases hb : mdev.p_size ≠ 0 ∧ bdev.max_capacity ≠ 0
    · simp only [drbd_new_dev_size, hp, hu, if_false, hb, ne_eq, not_false_eq_true, and_self,
        if_true, not_true_eq_false, spec_agreed_size]
    · have hla : bdev.md.la_size_sect ≠ 0 := by
        rcases h with h | h
        · exact absurd h hb
        · exact h
      simp only [drbd_new_dev_size, hp, hu, if_false, hb, hla, ne_eq, not_false_eq_true,
        if_true, not_true_eq_false, clip_to_known, spec_agreed_size]

/-- Witness of C5: peer 100, local maximum 100, last agreed 80, connected. -/
theorem C5_new_dev_size_rule_witness :
    drbd_new_dev_size mdev_both_known bdev_plain false = min 100 100 :=
  (C5_new_dev_size_rule mdev_both_known bdev_plain false (by decide) (Or.inl rfl)).1
    (by decide)

/-- C6 as stated fails: with peer size and local maximum both 100 sectors and a
user size of 200, `drbd_new_dev_size` returns 100, not the user size. -/
theorem C6_user_size_counterexample :
    bdev_user_too_big.disk_size ≠ 0 ∧
    drbd_new_dev_size mdev_both_known bdev_user_too_big false = 100 ∧
    drbd_new_dev_size mdev_both_known bdev_user_too_big false ≠
      bdev_user_too_big.disk_size := by
  decide

/-- C6, amended: a non-zero user size is returned when it does not exceed the
size computed from the peer's size, the local maximum and the last agreed size
(the result for the same inputs without user size); when it exceeds that
bound, the bound is returned. -/
theorem C6_user_size_within_bound (mdev : drbd_conf) (bdev : drbd_backing_dev)
    (assume_peer_has_space : Bool) (hu : bdev.disk_size ≠ 0) :
    (bdev.disk_size ≤
        drbd_new_dev_size mdev { bdev with disk_size := 0 } assume_peer_has_space →
      drbd_new_dev_size mdev bdev assume_peer_has_space = bdev.disk_size) ∧
    (drbd_new_dev_size mdev { bdev with disk_size := 0 } assume_peer_has_space <
        bdev.disk_size →
      drbd_new_dev_size mdev bdev assume_peer_has_space =
        drbd_new_dev_size mdev { bdev with disk_size := 0 } assume_peer_has_space) := by
  constructor
  · intro h
    simp only [drbd_new_dev_size, ne_eq, not_true_eq_false, if_false] at h
    simp only [drbd_new_dev_size, hu, ne_eq, not_false_eq_true, if_true, gt_iff_lt]
    rw [if_neg (by omega)]
  · intro h
    simp only [drbd_new_dev_size, ne_eq, not_true_eq_false, if_false] at h
    simp only [drbd_new_dev_size, hu, ne_eq, not_false_eq_true, if_true, gt_iff_lt,
      not_true_eq_false, if_false]
    rw [if_pos (by omega)]

/-- Witness of C6 (amended): a user size of 60 below the bound of 100. -/
theorem C6_user_size_within_bound_witness :
    drbd_new_dev_size mdev_both_known bdev_user_fits false = 60 :=
  (C6_user_size_within_bound mdev_both_known bdev_user_fits false (by decide)).1 (by decide)

theorem drbd_md_set_sector_offsets_la (L : Layout) (bdev : drbd_backing_dev) (x : Nat) :
    drbd_md_set_sector_offsets L { bdev with md := { bdev.md with la_size_sect := x } } =
      { drbd_md_set_sector_offsets L bdev with
        md := { (drbd_md_set_sector_offsets L bdev).md with la_size_sect := x } } := by
  unfold drbd_md_set_sector_offsets
  split_ifs <;> rfl

theorem drbd_md_set_sector_offsets_idem (L : Layout) (bdev : drbd_backing_dev) :
    drbd_md_set_sector_offsets L (drbd_md_set_sector_offsets L bdev) =
      drbd_md_set_sector_offsets L bdev := by
  unfold drbd_md_set_sector_offsets
  split_ifs <;> simp_all

theorem drbd_md_set_sector_offsets_fields (L : Layout) (bdev : drbd_backing_dev) :
    (drbd_md_set_sector_offsets L bdev).max_capacity = bdev.max_capacity ∧
    (drbd_md_set_sector_offsets L bdev).disk_size = bdev.disk_size ∧
    (drbd_md_set_sector_offsets L bdev).md.la_size_sect = bdev.md.la_size_sect := by
  unfold drbd_md_set_sector_offsets
  split_ifs <;> exact ⟨rfl, rfl, rfl⟩

theorem drbd_new_dev_size_eq (mdev : drbd_conf) (bdev : drbd_backing_dev) (f : Bool) :
    drbd_new_dev_size mdev bdev f =
      if bdev.disk_size ≠ 0 then
        if bdev.disk_size >
            size_before_user
              (if mdev.state.conn < C_CONNECTED ∧ f = true then bdev.max_capacity else mdev.p_size)
              bdev.max_capacity bdev.md.la_size_sect then
          size_before_user
            (if mdev.state.conn < C_CONNECTED ∧ f = true then bdev.max_capacity else mdev.p_size)
            bdev.max_capacity bdev.md.la_size_sect
        else bdev.disk_size
      else
        size_before_user
          (if mdev.state.conn < C_CONNECTED ∧ f = true then bdev.max_capacity else mdev.p_size)
          bdev.max_capacity bdev.md.la_size_sect := rfl

theorem size_before_user_fixed (p m la u b : Nat) (hb : size_before_user p m la = b) :
    size_before_user p m (if u ≠ 0 then if u > b then b else u else b) =
      if p ≠ 0 ∧ m ≠ 0 then min p m
      else if (if u ≠ 0 then if u > b then b else u else b) ≠ 0 then
        (if u ≠ 0 then if u > b then b else u else b)
      else b := by
  unfold size_before_user at hb ⊢
  dsimp only at hb ⊢
  by_cases hpm : p ≠ 0 ∧ m ≠ 0
  · simp only [hpm, and_self, if_true, ne_eq, not_false_eq_true]
  · simp only [hpm, if_false] at hb ⊢
    split_ifs at hb ⊢ <;> omega

theorem drbd_new_dev_size_la_idem (mdev : drbd_conf) (bdev : drbd_backing_dev) (f : Bool) :
    drbd_new_dev_size mdev
      { bdev with md := { bdev.md with la_size_sect := drbd_new_dev_size mdev bdev f } } f =
      drbd_new_dev_size mdev bdev f := by
  rw [drbd_new_dev_size_eq mdev bdev f, drbd_new_dev_size_eq]
  dsimp only
  generalize (if mdev.state.conn < C_CONNECTED ∧ f = true then bdev.max_capacity
    else mdev.p_size) = p
  generalize bdev.max_capacity = m
  generalize bdev.md.la_size_sect = la
  generalize bdev.disk_size = u
  generalize hb : size_before_user p m la = b
  rw [size_before_user_fixed p m la u b hb]
  unfold size_before_user at hb
  dsimp only at hb
  by_cases hpm : p ≠ 0 ∧ m ≠ 0
  · simp only [hpm, and_self, if_true, ne_eq, not_false_eq_true] at hb ⊢
    split_ifs <;> omega
  · simp only [hpm, if_false] at hb ⊢
    split_ifs at hb ⊢ <;> omega

theorem drbd_new_dev_size_congr (mdev mdev2 : drbd_conf) (bdev : drbd_backing_dev) (f : Bool)
    (hconn : mdev2.state.conn = mdev.state.conn) (hp : mdev2.p_size = mdev.p_size) :
    drbd_new_dev_size mdev2 bdev f = drbd_new_dev_size mdev bdev f := by
  simp only [drbd_new_dev_size_eq, hconn, hp]

theorem size_verdict_self (size : Nat) : size_verdict size size = determine_dev_size.unchanged := by
  simp [size_verdict]

theorem drbd_determin_dev_size_settled (L : Layout) (mdev : drbd_conf) (flags : Nat)
    (e3 e4 : Bool)
    (hg : drbd_md_set_sector_offsets L mdev.ldev = mdev.ldev)
    (hc : mdev.this_capacity =
      drbd_new_dev_size mdev mdev.ldev (decide (flags &&& DDSF_FORCED ≠ 0)))
    (hb : mdev.bm_capacity =
      drbd_new_dev_size mdev mdev.ldev (decide (flags &&& DDSF_FORCED ≠ 0))) :
    drbd_determin_dev_size L mdev flags e3 e4 =
      { rv := size_verdict (drbd_new_dev_size mdev mdev.ldev (decide (flags &&& DDSF_FORCED ≠ 0)))
          mdev.ldev.md.la_size_sect
        mdev := mdev
        bm_resized := false
        bitmap_written := false } := by
  unfold drbd_determin_dev_size
  rw [hg]
  have heta : ({ mdev with ldev := mdev.ldev } : drbd_conf) = mdev := rfl
  simp only [heta]
  generalize drbd_new_dev_size mdev mdev.ldev (decide (flags &&& DDSF_FORCED ≠ 0)) = S at hc hb ⊢
  simp [hc, hb]

theorem drbd_determin_dev_size_resized (L : Layout) (mdev : drbd_conf) (flags : Nat)
    (e1 e2 : Bool)
    (hres : mdev.this_capacity ≠
        drbd_new_dev_size mdev (drbd_md_set_sector_offsets L mdev.ldev)
          (decide (flags &&& DDSF_FORCED ≠ 0)) ∨
      mdev.bm_capacity ≠
        drbd_new_dev_size mdev (drbd_md_set_sector_offsets L mdev.ldev)
          (decide (flags &&& DDSF_FORCED ≠ 0)))
    (h1 : (drbd_determin_dev_size L mdev flags e1 e2).rv ≠ determine_dev_size.dev_size_error) :
    (drbd_determin_dev_size L mdev flags e1 e2).mdev =
      { state := mdev.state
        p_size := mdev.p_size
        this_capacity := drbd_new_dev_size mdev (drbd_md_set_sector_offsets L mdev.ldev)
          (decide (flags &&& DDSF_FORCED ≠ 0))
        bm_capacity := drbd_new_dev_size mdev (drbd_md_set_sector_offsets L mdev.ldev)
          (decide (flags &&& DDSF_FORCED ≠ 0))
        ldev := { drbd_md_set_sector_offsets L mdev.ldev with
          md := { (drbd_md_set_sector_offsets L mdev.ldev).md with
            la_size_sect := drbd_new_dev_size mdev (drbd_md_set_sector_offsets L mdev.ldev)
              (decide (flags &&& DDSF_FORCED ≠ 0)) } } } ∧
    (drbd_determin_dev_size L mdev flags e1 e2).bm_resized = true := by
  have hS : drbd_new_dev_size { mdev with ldev := drbd_md_set_sector_offsets L mdev.ldev }
      (drbd_md_set_sector_offsets L mdev.ldev) (decide (flags &&& DDSF_FORCED ≠ 0)) =
      drbd_new_dev_size mdev (drbd_md_set_sector_offsets L mdev.ldev)
        (decide (flags &&& DDSF_FORCED ≠ 0)) :=
    drbd_new_dev_size_congr _ _ _ _ rfl rfl
  unfold drbd_determin_dev_size at h1 ⊢
  simp only [hS] at h1 ⊢
  generalize drbd_new_dev_size mdev (drbd_md_set_sector_offsets L mdev.ldev)
    (decide (flags &&& DDSF_FORCED ≠ 0)) = S at hres h1 ⊢
  have hd : decide (mdev.this_capacity ≠ S ∨ mdev.bm_capacity ≠ S) = true := by
    simpa using hres
  cases e1 <;> cases e2 <;> simp [hd, drbd_bm_resize] at h1 ⊢ <;> split_ifs <;> simp_all

theorem drbd_determin_dev_size_not_resized (L : Layout) (mdev : drbd_conf) (flags : Nat)
    (e1 e2 : Bool)
    (hres : ¬ (mdev.this_capacity ≠
        drbd_new_dev_size mdev (drbd_md_set_sector_offsets L mdev.ldev)
          (decide (flags &&& DDSF_FORCED ≠ 0)) ∨
      mdev.bm_capacity ≠
        drbd_new_dev_size mdev (drbd_md_set_sector_offsets L mdev.ldev)
          (decide (flags &&& DDSF_FORCED ≠ 0))))
    (h1 : (drbd_determin_dev_size L mdev flags e1 e2).rv ≠ determine_dev_size.dev_size_error) :
    (drbd_determin_dev_size L mdev flags e1 e2).mdev =
      { mdev with ldev := drbd_md_set_sector_offsets L mdev.ldev } ∧
    (drbd_determin_dev_size L mdev flags e1 e2).bm_resized = false ∧
    (drbd_determin_dev_size L mdev flags e1 e2).rv =
      size_verdict (drbd_new_dev_size mdev (drbd_md_set_sector_offsets L mdev.ldev)
        (decide (flags &&& DDSF_FORCED ≠ 0))) mdev.ldev.md.la_size_sect := by
  have hS : drbd_new_dev_size { mdev with ldev := drbd_md_set_sector_offsets L mdev.ldev }
      (drbd_md_set_sector_offsets L mdev.ldev) (decide (flags &&& DDSF_FORCED ≠ 0)) =
      drbd_new_dev_size mdev (drbd_md_set_sector_offsets L mdev.ldev)
        (decide (flags &&& DDSF_FORCED ≠ 0)) :=
    drbd_new_dev_size_congr _ _ _ _ rfl rfl
  unfold drbd_determin_dev_size at h1 ⊢
  simp only [hS] at h1 ⊢
  generalize drbd_new_dev_size mdev (drbd_md_set_sector_offsets L mdev.ldev)
    (decide (flags &&& DDSF_FORCED ≠ 0)) = S at hres h1 ⊢
  have hd : decide (mdev.this_capacity ≠ S ∨ mdev.bm_capacity ≠ S) = false := by
    simpa using hres
  cases e1 <;> cases e2 <;> simp [hd] at h1 ⊢ <;> split_ifs <;> simp_all

/-- C7 as stated fails: for the volume `mdev_stale_la` neither call hits an
error, the first call returns `grew` without resizing anything, and the second
call with the same inputs returns `grew` again, not `unchanged`. -/
theorem C7_idempotent_counterexample :
    (drbd_determin_dev_size drbd_layout mdev_stale_la 0 false false).rv =
      determine_dev_size.grew ∧
    (drbd_determin_dev_size drbd_layout mdev_stale_la 0 false false).bm_resized = false ∧
    (drbd_determin_dev_size drbd_layout mdev_stale_la 0 false false).bitmap_written = false ∧
    (drbd_determin_dev_size drbd_layout
      (drbd_determin_dev_size drbd_layout mdev_stale_la 0 false false).mdev 0 false false).rv =
      determine_dev_size.grew ∧
    (drbd_determin_dev_size drbd_layout
      (drbd_determin_dev_size drbd_layout mdev_stale_la 0 false false).mdev 0 false false).rv ≠
      determine_dev_size.unchanged := by
  decide

/-- C7, amended: if the first call of `drbd_determin_dev_size` hits no error and
either resized (the device or bitmap capacity differed from the agreed size,
which it then records as last agreed size) or itself returned `unchanged`, then
a second call on the volume it left, with the same flags, returns `unchanged`,
whatever the bitmap and I/O would do: it does not get to them. -/
theorem C7_idempotent_after_resize (L : Layout) (mdev : drbd_conf) (flags : Nat)
    (e1 e2 e3 e4 : Bool)
    (h1 : (drbd_determin_dev_size L mdev flags e1 e2).rv ≠ determine_dev_size.dev_size_error)
    (hfix : (drbd_determin_dev_size L mdev flags e1 e2).bm_resized = true ∨
      (drbd_determin_dev_size L mdev flags e1 e2).rv = determine_dev_size.unchanged) :
    (drbd_determin_dev_size L (drbd_determin_dev_size L mdev flags e1 e2).mdev flags e3 e4).rv =
      determine_dev_size.unchanged ∧
    (drbd_determin_dev_size L (drbd_determin_dev_size L mdev flags e1 e2).mdev flags e3 e4).mdev =
      (drbd_determin_dev_size L mdev flags e1 e2).mdev ∧
    (drbd_determin_dev_size L (drbd_determin_dev_size L mdev flags e1 e2).mdev flags e3
      e4).bm_resized = false ∧
    (drbd_determin_dev_size L (drbd_determin_dev_size L mdev flags e1 e2).mdev flags e3
      e4).bitmap_written = false := by
  by_cases hres : mdev.this_capacity ≠
        drbd_new_dev_size mdev (drbd_md_set_sector_offsets L mdev.ldev)
          (decide (flags &&& DDSF_FORCED ≠ 0)) ∨
      mdev.bm_capacity ≠
        drbd_new_dev_size mdev (drbd_md_set_sector_offsets L mdev.ldev)
          (decide (flags &&& DDSF_FORCED ≠ 0))
  · obtain ⟨hm, -⟩ := drbd_determin_dev_size_resized L mdev flags e1 e2 hres h1
    have hidem := drbd_new_dev_size_la_idem mdev (drbd_md_set_sector_offsets L mdev.ldev)
      (decide (flags &&& DDSF_FORCED ≠ 0))
    have hg : drbd_md_set_sector_offsets L
        { drbd_md_set_sector_offsets L mdev.ldev with
          md := { (drbd_md_set_sector_offsets L mdev.ldev).md with
            la_size_sect := drbd_new_dev_size mdev (drbd_md_set_sector_offsets L mdev.ldev)
              (decide (flags &&& DDSF_FORCED ≠ 0)) } } =
        { drbd_md_set_sector_offsets L mdev.ldev with
          md := { (drbd_md_set_sector_offsets L mdev.ldev).md with
            la_size_sect := drbd_new_dev_size mdev (drbd_md_set_sector_offsets L mdev.ldev)
              (decide (flags &&& DDSF_FORCED ≠ 0)) } } := by
      rw [drbd_md_set_sector_offsets_la, drbd_md_set_sector_offsets_idem]
    have key := drbd_determin_dev_size_settled L
      (drbd_determin_dev_size L mdev flags e1 e2).mdev flags e3 e4
      (by rw [hm]; exact hg)
      (by rw [hm]; exact ((drbd_new_dev_size_congr mdev _ _ _ rfl rfl).trans hidem).symm)
      (by rw [hm]; exact ((drbd_new_dev_size_congr mdev _ _ _ rfl rfl).trans hidem).symm)
    rw [key]
    refine ⟨?_, rfl, rfl, rfl⟩
    have hsz : drbd_new_dev_size (drbd_determin_dev_size L mdev flags e1 e2).mdev
        (drbd_determin_dev_size L mdev flags e1 e2).mdev.ldev
        (decide (flags &&& DDSF_FORCED ≠ 0)) =
        (drbd_determin_dev_size L mdev flags e1 e2).mdev.ldev.md.la_size_sect := by
      rw [hm]; exact (drbd_new_dev_size_congr mdev _ _ _ rfl rfl).trans hidem
    show size_verdict _ _ = _
    rw [hsz]
    exact size_verdict_self _
  · obtain ⟨hm, hr, hrv⟩ := drbd_determin_dev_size_not_resized L mdev flags e1 e2 hres h1
    have hun : (drbd_determin_dev_size L mdev flags e1 e2).rv = determine_dev_size.unchanged := by
      rcases hfix with h | h
      · rw [hr] at h; exact absurd h (by decide)
      · exact h
    have hla := (drbd_md_set_sector_offsets_fields L mdev.ldev).2.2
    simp only [not_or, not_not] at hres
    have key := drbd_determin_dev_size_settled L
      (drbd_determin_dev_size L mdev flags e1 e2).mdev flags e3 e4
      (by rw [hm]; exact drbd_md_set_sector_offsets_idem L mdev.ldev)
      (by rw [hm]; exact hres.1.trans (drbd_new_dev_size_congr mdev _ _ _ rfl rfl).symm)
      (by rw [hm]; exact hres.2.trans (drbd_new_dev_size_congr mdev _ _ _ rfl rfl).symm)
    rw [key]
    refine ⟨?_, rfl, rfl, rfl⟩
    have hsz : size_verdict (drbd_new_dev_size (drbd_determin_dev_size L mdev flags e1 e2).mdev
        (drbd_determin_dev_size L mdev flags e1 e2).mdev.ldev
        (decide (flags &&& DDSF_FORCED ≠ 0)))
        (drbd_determin_dev_size L mdev flags e1 e2).mdev.ldev.md.la_size_sect =
        (drbd_determin_dev_size L mdev flags e1 e2).rv := by
      rw [hrv, hm]
      show size_verdict _ (drbd_md_set_sector_offsets L mdev.ldev).md.la_size_sect = _
      rw [hla]
      exact congrArg (fun x => size_verdict x mdev.ldev.md.la_size_sect)
        (drbd_new_dev_size_congr mdev _ _ _ rfl rfl)
    show size_verdict _ _ = _
    rw [hsz, hun]

/-- Witness of C7 (amended): a fresh volume is resized to 100 sectors by the
first call; the second call returns `unchanged`. -/
theorem C7_idempotent_after_resize_witness :
    (drbd_determin_dev_size drbd_layout
      (drbd_determin_dev_size drbd_layout mdev_fresh 0 false false).mdev 0 false false).rv =
      determine_dev_size.unchanged :=
  (C7_idempotent_after_resize drbd_layout mdev_fresh 0 false false false false
    (by decide) (Or.inl (by decide))).1

/-! ## Properties of the promotion -/

theorem conn_try_outdate_peer_trace_cases (K : Kernel σ) (s : σ) :
    (conn_try_outdate_peer K s).trace = [] ∨
    (conn_try_outdate_peer K s).trace = [Event.fence_peer_helper] ∨
    (∃ mask val, (conn_try_outdate_peer K s).trace =
      [Event.conn_request_state mask val CS_VERBOSE]) ∨
    (∃ mask val, (conn_try_outdate_peer K s).trace =
      [Event.fence_peer_helper, Event.conn_request_state mask val CS_VERBOSE]) := by
  by_cases hc : C_WF_REPORT_PARAMS ≤ K.cstate s
  · left
    simp only [conn_try_outdate_peer, hc, if_true]
  · by_cases hna : highest_fencing_policy (K.volumes s) = FP_NOT_AVAIL
    · right; right; left
      refine ⟨{ susp_fen := 1 }, {}, ?_⟩
      simp only [conn_try_outdate_peer, hc, hna, if_true, if_false, conn_try_outdate_peer_out,
        List.nil_append]
    · by_cases hdc : highest_fencing_policy (K.volumes s) = FP_DONT_CARE
      · left
        have hne : ¬ FP_DONT_CARE = FP_NOT_AVAIL := by decide
        simp only [conn_try_outdate_peer, hc, hdc, hne, if_true, if_false]
      · rw [conn_try_outdate_peer_helper_run K s (by omega) hna hdc]
        split_ifs <;> simp [conn_try_outdate_peer_out]

theorem conn_try_outdate_peer_no_wait_request (K : Kernel σ) (s : σ) :
    (conn_try_outdate_peer K s).trace.countP is_wait_request = 0 := by
  rcases conn_try_outdate_peer_trace_cases K s with h | h | ⟨m, v, h⟩ | ⟨m, v, h⟩ <;>
    rw [h] <;> rfl

theorem conn_try_outdate_peer_no_request_outcome (K : Kernel σ) (s : σ) :
    request_outcomes (conn_try_outdate_peer K s).trace = [] := by
  rcases conn_try_outdate_peer_trace_cases K s with h | h | ⟨m, v, h⟩ | ⟨m, v, h⟩ <;>
    rw [h] <;> rfl

theorem conn_try_outdate_peer_no_attempt (K : Kernel σ) (s : σ) :
    (conn_try_outdate_peer K s).trace.countP is_attempt = 0 := by
  rcases conn_try_outdate_peer_trace_cases K s with h | h | ⟨m, v, h⟩ | ⟨m, v, h⟩ <;>
    rw [h] <;> rfl

theorem set_role_effects_no_wait_request (K : Kernel σ) (s : σ) (new_role : Nat)
    (forced : Bool) :
    (set_role_effects K s new_role forced).countP is_wait_request = 0 := by
  unfold set_role_effects
  split_ifs <;> rfl

theorem request_outcomes_append (a b : List Event) :
    request_outcomes (a ++ b) = request_outcomes a ++ request_outcomes b := by
  induction a with
  | nil => rfl
  | cons e rest ih => cases e <;> simp [request_outcomes, ih]

theorem set_role_effects_no_request_outcome (K : Kernel σ) (s : σ) (new_role : Nat)
    (forced : Bool) :
    request_outcomes (set_role_effects K s new_role forced) = [] := by
  unfold set_role_effects
  split_ifs <;> rfl

theorem request_outcomes_request (mask val : drbd_state) (flags : Nat) (rv : Int)
    (rest : List Event) :
    request_outcomes (Event._drbd_request_state mask val flags rv :: rest) =
      rv :: request_outcomes rest := rfl

theorem request_outcomes_schedule_timeout (rest : List Event) :
    request_outcomes (Event.schedule_timeout :: rest) = request_outcomes rest := rfl

theorem request_outcomes_warn_split_brain (rest : List Event) :
    request_outcomes (Event.warn_forced_split_brain :: rest) = request_outcomes rest := rfl

theorem request_outcomes_nil : request_outcomes [] = [] := rfl

theorem set_role_effects_no_attempt (K : Kernel σ) (s : σ) (new_role : Nat)
    (forced : Bool) :
    (set_role_effects K s new_role forced).countP is_attempt = 0 := by
  unfold set_role_effects
  split_ifs <;> rfl

theorem set_role_loop_cases (K : Kernel σ) (force : Bool) (try_ : Nat) (mask val : drbd_state)
    (forced : Bool) (rv : Int) (s : σ) (ht : try_ < max_tries) :
    (∃ g f st, set_role_loop K force try_ mask val forced rv s =
      { rv := (K._drbd_request_state s mask val CS_WAIT_COMPLETE).1, goto_out := g,
        forced := f, state := st,
        trace := [Event._drbd_request_state mask val CS_WAIT_COMPLETE
          (K._drbd_request_state s mask val CS_WAIT_COMPLETE).1] }) ∨
    (∃ rv2 g f st, set_role_loop K force try_ mask val forced rv s =
      { rv := rv2, goto_out := g, forced := f, state := st,
        trace := [Event._drbd_request_state mask val CS_WAIT_COMPLETE
          (K._drbd_request_state s mask val CS_WAIT_COMPLETE).1,
          Event._drbd_request_state mask val (CS_VERBOSE + CS_WAIT_COMPLETE) rv2] }) ∨
    (∃ try2 mask2 val2 forced2 s2 between,
      try_ < try2 ∧
      between.countP is_wait_request = 0 ∧ between.countP is_attempt = 0 ∧
      request_outcomes between = [] ∧
      set_role_loop K force try_ mask val forced rv s =
        (set_role_loop K force try2 mask2 val2 forced2
          (K._drbd_request_state s mask val CS_WAIT_COMPLETE).1 s2).after
          (Event._drbd_request_state mask val CS_WAIT_COMPLETE
            (K._drbd_request_state s mask val CS_WAIT_COMPLETE).1 :: between)) := by
  have hw := conn_try_outdate_peer_no_wait_request K
    (K._drbd_request_state s mask val CS_WAIT_COMPLETE).2
  have ha := conn_try_outdate_peer_no_attempt K
    (K._drbd_request_state s mask val CS_WAIT_COMPLETE).2
  have ho := conn_try_outdate_peer_no_request_outcome K
    (K._drbd_request_state s mask val CS_WAIT_COMPLETE).2
  have hw2 : ((conn_try_outdate_peer K
      (K._drbd_request_state s mask val CS_WAIT_COMPLETE).2).trace ++
      [Event.warn_forced_split_brain]).countP is_wait_request = 0 := by
    rw [List.countP_append, hw]; rfl
  have ha2 : ((conn_try_outdate_peer K
      (K._drbd_request_state s mask val CS_WAIT_COMPLETE).2).trace ++
      [Event.warn_forced_split_brain]).countP is_attempt = 0 := by
    rw [List.countP_append, ha]; rfl
  have ho2 : request_outcomes ((conn_try_outdate_peer K
      (K._drbd_request_state s mask val CS_WAIT_COMPLETE).2).trace ++
      [Event.warn_forced_split_brain]) = [] := by
    rw [request_outcomes_append, ho]; rfl
  have hloop : set_role_loop K force try_ mask val forced rv s =
      set_role_loop K force try_ mask val forced rv s := rfl
  conv at hloop => rhs; rw [set_role_loop]
  simp only [ht, if_true] at hloop
  split_ifs at hloop
  · exact Or.inr (Or.inr ⟨_, _, _, _, _, [], Nat.lt_succ_self _, rfl, rfl, rfl, hloop⟩)
  · exact Or.inr (Or.inr ⟨_, _, _, _, _, [], Nat.lt_succ_self _, rfl, rfl, rfl, hloop⟩)
  · exact Or.inr (Or.inr ⟨_, _, _, _, _, _, Nat.lt_succ_self _, hw, ha, ho, hloop⟩)
  · exact Or.inr (Or.inr ⟨_, _, _, _, _, _, Nat.lt_succ_self _, hw, ha, ho, hloop⟩)
  · exact Or.inl ⟨_, _, _, hloop⟩
  · exact Or.inr (Or.inr ⟨_, _, _, _, _, _, Nat.lt_succ_self _, hw2, ha2, ho2, hloop⟩)
  · exact Or.inr (Or.inr ⟨_, _, _, _, _, _, Nat.lt_succ_self _, hw, ha, ho, hloop⟩)
  · exact Or.inr (Or.inr ⟨max_tries - 1, _, _, _, _, [Event.schedule_timeout],
      by simp only [max_tries] at *; omega, rfl, rfl, rfl, hloop⟩)
  · exact Or.inr (Or.inr ⟨try_ + 1, _, _, _, _, [Event.schedule_timeout],
      Nat.lt_succ_self _, rfl, rfl, rfl, hloop⟩)
  · exact Or.inr (Or.inl ⟨_, _, _, _, hloop⟩)
  · exact Or.inr (Or.inl ⟨_, _, _, _, hloop⟩)
  · exact Or.inl ⟨_, _, _, hloop⟩

theorem set_role_loop_done (K : Kernel σ) (force : Bool) (try_ : Nat) (mask val : drbd_state)
    (forced : Bool) (rv : Int) (s : σ) (ht : ¬ try_ < max_tries) :
    set_role_loop K force try_ mask val forced rv s =
      { rv := rv, goto_out := false, forced := forced, state := s, trace := [] } := by
  rw [set_role_loop]
  simp only [ht, if_false]

theorem set_role_loop_wait_requests (K : Kernel σ) (force : Bool) :
    ∀ (n try_ : Nat) (mask val : drbd_state) (forced : Bool) (rv : Int) (s : σ),
      max_tries - try_ ≤ n →
      (set_role_loop K force try_ mask val forced rv s).trace.countP is_wait_request ≤ n + 1 := by
  intro n
  induction n with
  | zero =>
    intro try_ mask val forced rv s h
    rw [set_role_loop_done K force try_ mask val forced rv s (by omega)]
    exact Nat.zero_le _
  | succ n ih =>
    intro try_ mask val forced rv s h
    by_cases ht : try_ < max_tries
    · rcases set_role_loop_cases K force try_ mask val forced rv s ht with
        ⟨g, f, st, hl⟩ | ⟨rv2, g, f, st, hl⟩ | ⟨try2, mask2, val2, forced2, s2, between, hlt,
          hw, -, -, hl⟩
      · rw [hl]
        exact Nat.le_trans (List.countP_le_length _) (by simp)
      · rw [hl]
        exact Nat.le_trans (List.countP_le_length _) (by simp)
      · rw [hl]
        have := ih try2 mask2 val2 forced2 (K._drbd_request_state s mask val CS_WAIT_COMPLETE).1
          s2 (by omega)
        simp only [role_loop_result.after, List.cons_append, List.countP_cons,
          List.countP_append, hw, zero_add]
        split_ifs <;> omega
    · rw [set_role_loop_done K force try_ mask val forced rv s ht]
      exact Nat.zero_le _

theorem set_role_loop_attempts (K : Kernel σ) (force : Bool) :
    ∀ (n try_ : Nat) (mask val : drbd_state) (forced : Bool) (rv : Int) (s : σ),
      max_tries - try_ ≤ n →
      (set_role_loop K force try_ mask val forced rv s).trace.countP is_attempt ≤ n := by
  intro n
  induction n with
  | zero =>
    intro try_ mask val forced rv s h
    rw [set_role_loop_done K force try_ mask val forced rv s (by omega)]
    exact Nat.zero_le _
  | succ n ih =>
    intro try_ mask val forced rv s h
    have hv : ∀ rv0, is_attempt (Event._drbd_request_state mask val
        (CS_VERBOSE + CS_WAIT_COMPLETE) rv0) = false := fun _ => rfl
    by_cases ht : try_ < max_tries
    · rcases set_role_loop_cases K force try_ mask val forced rv s ht with
        ⟨g, f, st, hl⟩ | ⟨rv2, g, f, st, hl⟩ | ⟨try2, mask2, val2, forced2, s2, between, hlt,
          -, ha, -, hl⟩
      · rw [hl]
        exact Nat.le_trans (List.countP_le_length _) (by simp)
      · rw [hl]
        simp only [List.countP_cons, List.countP_nil, hv, Bool.false_eq_true, if_false]
        split_ifs <;> omega
      · rw [hl]
        have := ih try2 mask2 val2 forced2 (K._drbd_request_state s mask val CS_WAIT_COMPLETE).1
          s2 (by omega)
        simp only [role_loop_result.after, List.cons_append, List.countP_cons,
          List.countP_append, ha, zero_add]
        split_ifs <;> omega
    · rw [set_role_loop_done K force try_ mask val forced rv s ht]
      exact Nat.zero_le _

theorem set_role_loop_last_outcome (K : Kernel σ) (force : Bool) :
    ∀ (n try_ : Nat) (mask val : drbd_state) (forced : Bool) (rv : Int) (s : σ),
      max_tries - try_ ≤ n →
      (request_outcomes (set_role_loop K force try_ mask val forced rv s).trace).getLastD rv =
        (set_role_loop K force try_ mask val forced rv s).rv := by
  intro n
  induction n with
  | zero =>
    intro try_ mask val forced rv s h
    rw [set_role_loop_done K force try_ mask val forced rv s (by omega)]
    rfl
  | succ n ih =>
    intro try_ mask val forced rv s h
    by_cases ht : try_ < max_tries
    · rcases set_role_loop_cases K force try_ mask val forced rv s ht with
        ⟨g, f, st, hl⟩ | ⟨rv2, g, f, st, hl⟩ | ⟨try2, mask2, val2, forced2, s2, between, hlt,
          -, -, ho, hl⟩
      · rw [hl]; rfl
      · rw [hl]; rfl
      · rw [hl]
        simp only [role_loop_result.after, List.cons_append, request_outcomes_request,
          request_outcomes_append, ho, List.nil_append, List.getLastD_cons]
        exact ih try2 mask2 val2 forced2 _ s2 (by omega)
    · rw [set_role_loop_done K force try_ mask val forced rv s ht]
      rfl

theorem set_role_loop_requests_nonempty (K : Kernel σ) (force : Bool) (try_ : Nat)
    (mask val : drbd_state) (forced : Bool) (rv : Int) (s : σ) (ht : try_ < max_tries) :
    request_outcomes (set_role_loop K force try_ mask val forced rv s).trace ≠ [] := by
  rcases set_role_loop_cases K force try_ mask val forced rv s ht with
    ⟨g, f, st, hl⟩ | ⟨rv2, g, f, st, hl⟩ | ⟨try2, mask2, val2, forced2, s2, between, -,
      -, -, -, hl⟩ <;>
    rw [hl] <;>
    simp [role_loop_result.after, request_outcomes_request]

/-- C8: the retry loop of `drbd_set_role` ends, and whatever the state engine
and the fencing coordinator answer, at most 5 state requests are made with the
wait-for-completion flag before the function returns; at most 4 of them are
passes of the loop (requests with that flag alone), the remaining one being
the verbose repetition of a rejected request. -/
theorem C8_promotion_retries_bounded (K : Kernel σ) (s : σ) (new_role : Nat) (force : Bool) :
    (drbd_set_role K s new_role force).trace.countP is_wait_request ≤ 5 ∧
    (drbd_set_role K s new_role force).trace.countP is_attempt ≤ 4 := by
  have h := set_role_loop_wait_requests K force 4 0 { role := R_MASK } { role := new_role }
    false SS_UNKNOWN_ERROR s (by decide)
  have h2 := set_role_loop_attempts K force 4 0 { role := R_MASK } { role := new_role }
    false SS_UNKNOWN_ERROR s (by decide)
  have hp : is_wait_request Event.request_ping = false := rfl
  have hp2 : is_attempt Event.request_ping = false := rfl
  unfold drbd_set_role
  dsimp only
  constructor
  · split_ifs <;>
      simp only [List.countP_append, List.countP_cons, List.countP_nil, hp,
        set_role_effects_no_wait_request, Bool.false_eq_true, if_false] <;>
      omega
  · split_ifs <;>
      simp only [List.countP_append, List.countP_cons, List.countP_nil, hp2,
        set_role_effects_no_attempt, Bool.false_eq_true, if_false] <;>
      omega

/-- C9: the value `drbd_set_role` returns is always the outcome of the last
`_drbd_request_state` call it made, in particular when it is below SS_SUCCESS
and when the retries are used up; at least one such call is made, so the
initial placeholder of `rv` is never what is returned, and SS_UNKNOWN_ERROR can
only be returned if the state engine itself answered it. -/
theorem C9_returns_last_outcome (K : Kernel σ) (s : σ) (new_role : Nat) (force : Bool) :
    (request_outcomes (drbd_set_role K s new_role force).trace).getLast? =
      some (drbd_set_role K s new_role force).ret ∧
    (drbd_set_role K s new_role force).ret ∈
      request_outcomes (drbd_set_role K s new_role force).trace := by
  have hl := set_role_loop_last_outcome K force 4 0 { role := R_MASK } { role := new_role }
    false SS_UNKNOWN_ERROR s (by decide)
  have hne := set_role_loop_requests_nonempty K force 0 { role := R_MASK } { role := new_role }
    false SS_UNKNOWN_ERROR s (by decide)
  have hp : request_outcomes [Event.request_ping] = [] := rfl
  have hlast : (request_outcomes (set_role_loop K force 0 { role := R_MASK }
      { role := new_role } false SS_UNKNOWN_ERROR s).trace).getLast? =
      some (set_role_loop K force 0 { role := R_MASK } { role := new_role } false
        SS_UNKNOWN_ERROR s).rv := by
    rw [← hl, List.getLastD_eq_getLast?]
    cases hq : (request_outcomes (set_role_loop K force 0 { role := R_MASK }
      { role := new_role } false SS_UNKNOWN_ERROR s).trace).getLast? with
    | none => exact absurd (List.getLast?_eq_none_iff.mp hq) hne
    | some x => rfl
  have htr : request_outcomes (drbd_set_role K s new_role force).trace =
      request_outcomes (set_role_loop K force 0 { role := R_MASK } { role := new_role } false
        SS_UNKNOWN_ERROR s).trace := by
    unfold drbd_set_role
    dsimp only
    split_ifs <;>
      simp only [request_outcomes_append, hp, request_outcomes_nil,
        set_role_effects_no_request_outcome, List.nil_append, List.append_nil]
  have hret : (drbd_set_role K s new_role force).ret =
      (set_role_loop K force 0 { role := R_MASK } { role := new_role } false
        SS_UNKNOWN_ERROR s).rv := by
    unfold drbd_set_role
    dsimp only
    split_ifs <;> rfl
  rw [htr, hret]
  exact ⟨hlast, List.mem_of_getLast?_eq_some hlast⟩

theorem set_role_loop_fence_step (K : Kernel σ) (s : σ) (try_ : Nat) (mask val : drbd_state)
    (forced : Bool) (rv : Int)
    (ht : try_ < max_tries) (hp : mask.pdsk = 0)
    (h1 : (K._drbd_request_state s mask val CS_WAIT_COMPLETE).1 = SS_NO_UP_TO_DATE_DISK)
    (hd : (K.mdev_state (K._drbd_request_state s mask val CS_WAIT_COMPLETE).2).disk =
      D_CONSISTENT) :
    set_role_loop K false try_ mask val forced rv s =
      (set_role_loop K false (try_ + 1)
        (if (conn_try_outdate_peer K (K._drbd_request_state s mask val CS_WAIT_COMPLETE).2).ret
            = true then { mask with disk := D_MASK } else mask)
        (if (conn_try_outdate_peer K (K._drbd_request_state s mask val CS_WAIT_COMPLETE).2).ret
            = true then { val with disk := D_UP_TO_DATE } else val)
        forced SS_NO_UP_TO_DATE_DISK
        (conn_try_outdate_peer K (K._drbd_request_state s mask val CS_WAIT_COMPLETE).2).state).after
        (Event._drbd_request_state mask val CS_WAIT_COMPLETE SS_NO_UP_TO_DATE_DISK ::
          (conn_try_outdate_peer K (K._drbd_request_state s mask val CS_WAIT_COMPLETE).2).trace) := by
  have hne : ¬ SS_NO_UP_TO_DATE_DISK = SS_CW_FAILED_BY_PEER := by decide
  rw [set_role_loop]
  simp only [ht, if_true, h1, hd, hp, hne, false_and, if_false, Bool.false_eq_true, and_self,
    true_and, and_true]
  split_ifs <;> rfl

theorem set_role_loop_head (K : Kernel σ) (force : Bool) (try_ : Nat) (mask val : drbd_state)
    (forced : Bool) (rv : Int) (s : σ) (ht : try_ < max_tries) :
    ∃ rest, (set_role_loop K force try_ mask val forced rv s).trace =
      Event._drbd_request_state mask val CS_WAIT_COMPLETE
        (K._drbd_request_state s mask val CS_WAIT_COMPLETE).1 :: rest := by
  rw [set_role_loop]
  simp only [ht, if_true]
  split_ifs <;> simp [role_loop_result.after]

theorem set_role_loop_accepted (K : Kernel σ) (force : Bool) (try_ : Nat) (mask val : drbd_state)
    (forced : Bool) (rv : Int) (s : σ) (ht : try_ < max_tries)
    (hacc : SS_SUCCESS ≤ (K._drbd_request_state s mask val CS_WAIT_COMPLETE).1) :
    (set_role_loop K force try_ mask val forced rv s).rv =
      (K._drbd_request_state s mask val CS_WAIT_COMPLETE).1 := by
  have h1 : ¬ (K._drbd_request_state s mask val CS_WAIT_COMPLETE).1 = SS_CW_FAILED_BY_PEER := by
    intro h; rw [h] at hacc; exact absurd hacc (by decide)
  have h2 : ¬ (K._drbd_request_state s mask val CS_WAIT_COMPLETE).1 = SS_NO_UP_TO_DATE_DISK := by
    intro h; rw [h] at hacc; exact absurd hacc (by decide)
  have h3 : ¬ (K._drbd_request_state s mask val CS_WAIT_COMPLETE).1 = SS_PRIMARY_NOP := by
    intro h; rw [h] at hacc; exact absurd hacc (by decide)
  have h4 : ¬ (K._drbd_request_state s mask val CS_WAIT_COMPLETE).1 = SS_TWO_PRIMARIES := by
    intro h; rw [h] at hacc; exact absurd hacc (by decide)
  have h5 : ¬ (K._drbd_request_state s mask val CS_WAIT_COMPLETE).1 < SS_SUCCESS := by omega
  rw [set_role_loop]
  simp only [ht, if_true, h1, h2, h3, h4, h5, false_and, if_false]
  split_ifs <;> rfl

theorem conn_try_outdate_peer_dont_care (K : Kernel σ) (s : σ)
    (hc : K.cstate s < C_WF_REPORT_PARAMS)
    (hfp : highest_fencing_policy (K.volumes s) = FP_DONT_CARE) :
    conn_try_outdate_peer K s = { ret := true, state := s, trace := [] } := by
  have h1 : ¬ C_WF_REPORT_PARAMS ≤ K.cstate s := by omega
  have hne : ¬ FP_DONT_CARE = FP_NOT_AVAIL := by decide
  simp only [conn_try_outdate_peer, h1, hfp, hne, if_true, if_false]

/-- The bound of five requests is reached: three retries, a fourth attempt and
its verbose repetition. -/
theorem set_role_five_requests :
    (drbd_set_role scripted w_five_requests R_PRIMARY false).trace.countP is_wait_request = 5 ∧
    (drbd_set_role scripted w_five_requests R_PRIMARY false).ret = SS_NO_LOCAL_DISK := by
  unfold drbd_set_role
  simp only [if_true]
  iterate 4
    rw [set_role_loop]
    simp [max_tries, scripted, w_five_requests, conn_try_outdate_peer, role_loop_result.after,
      SS_PRIMARY_NOP, SS_SUCCESS, SS_CW_FAILED_BY_PEER, SS_NO_UP_TO_DATE_DISK, SS_NOTHING_TO_DO,
      C_WF_REPORT_PARAMS, C_CONNECTED, SS_NO_LOCAL_DISK, SS_TWO_PRIMARIES]
  decide

/-! ## Properties of the administrative requests -/

/-- C11: the initial disk state of `drbd_adm_attach` is decided by the persisted
flags alone: MDF_CONSISTENT with MDF_WAS_UP_TO_DATE gives Consistent,
MDF_CONSISTENT without MDF_WAS_UP_TO_DATE gives Outdated, and without
MDF_CONSISTENT it is Inconsistent; two backing devices with the same flags get
the same initial disk state. -/
theorem C11_initial_disk_from_flags (ldev : drbd_backing_dev) :
    (drbd_md_test_flag ldev MDF_CONSISTENT = true →
      drbd_md_test_flag ldev MDF_WAS_UP_TO_DATE = true →
      attach_disk_from_flags ldev = D_CONSISTENT) ∧
    (drbd_md_test_flag ldev MDF_CONSISTENT = true →
      drbd_md_test_flag ldev MDF_WAS_UP_TO_DATE = false →
      attach_disk_from_flags ldev = D_OUTDATED) ∧
    (drbd_md_test_flag ldev MDF_CONSISTENT = false →
      attach_disk_from_flags ldev = D_INCONSISTENT) ∧
    (∀ other : drbd_backing_dev, other.md.flags = ldev.md.flags →
      attach_disk_from_flags other = attach_disk_from_flags ldev) := by
  refine ⟨fun hc hw => ?_, fun hc hw => ?_, fun hc => ?_, fun other h => ?_⟩
  · simp [attach_disk_from_flags, hc, hw]
  · simp [attach_disk_from_flags, hc, hw]
  · simp [attach_disk_from_flags, hc]
  · simp [attach_disk_from_flags, drbd_md_test_flag, h]

theorem C11_initial_disk_from_flags_witness :
    attach_disk_from_flags bdev_flags_consistent = D_CONSISTENT :=
  (C11_initial_disk_from_flags bdev_flags_consistent).1 (by decide) (by decide)

/-- C12 (counterexample): with no persisted flag set and the fencing policy
DontCare the target disk state stays Inconsistent; it is not raised to
UpToDate. -/
theorem C12_upgrade_counterexample :
    bdev_flags_none_dont_care.fencing = FP_DONT_CARE ∧
    (attach_new_state {} bdev_flags_none_dont_care).disk = D_INCONSISTENT ∧
    (attach_new_state {} bdev_flags_none_dont_care).disk ≠ D_UP_TO_DATE := by
  decide

/-- C12 (amended): the target disk state is raised to UpToDate exactly when the
initial disk state derived from the flags is Consistent and the peer is known
Outdated (its current disk state is Outdated or MDF_PEER_OUT_DATED is set) or
the fencing policy is DontCare; in every other case it stays the initial disk
state. -/
theorem C12_upgrade_only_from_consistent (os : drbd_state) (ldev : drbd_backing_dev) :
    (attach_disk_from_flags ldev = D_CONSISTENT →
      (os.pdsk = D_OUTDATED ∨ drbd_md_test_flag ldev MDF_PEER_OUT_DATED = true ∨
        ldev.fencing = FP_DONT_CARE) →
      (attach_new_state os ldev).disk = D_UP_TO_DATE) ∧
    (attach_disk_from_flags ldev ≠ D_CONSISTENT →
      (attach_new_state os ldev).disk = attach_disk_from_flags ldev) ∧
    (¬ (os.pdsk = D_OUTDATED ∨ drbd_md_test_flag ldev MDF_PEER_OUT_DATED = true ∨
        ldev.fencing = FP_DONT_CARE) →
      (attach_new_state os ldev).disk = attach_disk_from_flags ldev) := by
  refine ⟨fun hc hp => ?_, fun hc => ?_, fun hp => ?_⟩
  · unfold attach_new_state
    by_cases hf : drbd_md_test_flag ldev MDF_PEER_OUT_DATED = true
    · simp [hc, hf]
    · rcases hp with hp | hp | hp
      · simp [hc, hf, hp]
      · exact absurd hp hf
      · simp [hc, hf, hp]
  · unfold attach_new_state
    by_cases hf : drbd_md_test_flag ldev MDF_PEER_OUT_DATED = true <;> simp [hc, hf]
  · unfold attach_new_state
    have h1 : ¬ os.pdsk = D_OUTDATED := fun h => hp (Or.inl h)
    have h2 : ¬ drbd_md_test_flag ldev MDF_PEER_OUT_DATED = true :=
      fun h => hp (Or.inr (Or.inl h))
    have h3 : ¬ ldev.fencing = FP_DONT_CARE := fun h => hp (Or.inr (Or.inr h))
    simp [h1, h2, h3]

theorem C12_upgrade_only_from_consistent_witness :
    (attach_new_state { pdsk := D_OUTDATED } bdev_flags_consistent).disk = D_UP_TO_DATE :=
  (C12_upgrade_only_from_consistent { pdsk := D_OUTDATED } bdev_flags_consistent).1
    (by decide) (Or.inl rfl)

/-- C19 (counterexample): a connection without member volumes is taken out of
the registry although its connection state is not StandAlone. -/
theorem C19_delete_counterexample :
    conn_waiting_empty.cstate ≠ C_STANDALONE ∧
    (drbd_adm_delete_connection {} [conn_waiting_empty] conn_waiting_empty).reply
      = some NO_ERROR ∧
    (drbd_adm_delete_connection {} [conn_waiting_empty] conn_waiting_empty).registry = [] := by
  decide

/-- C19 (amended): once `drbd_adm_prepare` succeeded, `drbd_adm_delete_connection`
takes the connection out of the registry exactly when it has no member volumes,
whatever its connection state is; with a member volume it answers
ERR_CONN_IN_USE and leaves the registry unchanged. -/
theorem C19_delete_only_without_volumes (prep : adm_prepared) (registry : List adm_conn)
    (tconn : adm_conn) (hskb : prep.reply_skb = true) (hret : prep.retcode = NO_ERROR) :
    (tconn.volumes = [] →
      (drbd_adm_delete_connection prep registry tconn).reply = some NO_ERROR ∧
      (drbd_adm_delete_connection prep registry tconn).registry = registry.erase tconn) ∧
    (tconn.volumes ≠ [] →
      (drbd_adm_delete_connection prep registry tconn).reply = some ERR_CONN_IN_USE ∧
      (drbd_adm_delete_connection prep registry tconn).registry = registry) ∧
    (∀ cstate : Nat,
      (drbd_adm_delete_connection prep registry { tconn with cstate := cstate }).reply
        = (drbd_adm_delete_connection prep registry tconn).reply) := by
  refine ⟨fun hv => ?_, fun hv => ?_, fun cstate => ?_⟩
  · simp [drbd_adm_delete_connection, hskb, hret, conn_lowest_minor, hv]
  · cases hvol : tconn.volumes with
    | nil => exact absurd hvol hv
    | cons m rest =>
      have hm : ¬ ((m : Int) < 0) := by omega
      simp [drbd_adm_delete_connection, hskb, hret, conn_lowest_minor, hvol, hm]
  · simp only [drbd_adm_delete_connection, hskb, hret, conn_lowest_minor]
    split_ifs <;> simp_all

theorem C19_delete_only_without_volumes_witness :
    (drbd_adm_delete_connection {} [conn_standalone_one_volume]
      conn_standalone_one_volume).reply = some ERR_CONN_IN_USE ∧
    (drbd_adm_delete_connection {} [conn_standalone_one_volume]
      conn_standalone_one_volume).registry = [conn_standalone_one_volume] :=
  (C19_delete_only_without_volumes {} [conn_standalone_one_volume]
    conn_standalone_one_volume rfl rfl).2.1 (by decide)

/-! ## Properties of the network handlers -/

theorem net_opts_fail_snapshot (retcode : drbd_ret_code) (tconn : drbd_tconn) (c : crypto)
    (new_conf : net_conf) (tr : List net_event) :
    (net_opts_fail retcode tconn c new_conf tr).tconn = tconn ∧
    (net_opts_fail retcode tconn c new_conf tr).reply = some retcode := ⟨rfl, rfl⟩

theorem net_opts_install_reply (E : net_env) (retcode : drbd_ret_code) (tconn : drbd_tconn)
    (old_conf new_conf : net_conf) (c : crypto) (rsr ovr chg : Bool) :
    (net_opts_install E retcode tconn old_conf new_conf c rsr ovr chg).reply = some retcode := by
  unfold net_opts_install
  simp only []
  split_ifs <;> rfl

theorem net_opts_change_error_keeps_snapshot (E : net_env) (tconn : drbd_tconn)
    (old_conf : net_conf) (h : (net_opts_change E tconn old_conf).reply ≠ some NO_ERROR) :
    net_snapshot (net_opts_change E tconn old_conf).tconn = net_snapshot tconn := by
  unfold net_opts_change at h ⊢
  simp only [] at h ⊢
  split_ifs at h ⊢
  all_goals first
    | rfl
    | (exfalso
       rw [net_opts_install_reply] at h
       rename_i hac
       exact h (by rw [not_not.mp hac]))

/-- Every run of `drbd_adm_net_opts` that does not answer NO_ERROR leaves the
published configuration and the installed handles as they were. -/
theorem net_opts_error_keeps_snapshot (E : net_env) (tconn : drbd_tconn)
    (h : (drbd_adm_net_opts E tconn).reply ≠ some NO_ERROR) :
    net_snapshot (drbd_adm_net_opts E tconn).tconn = net_snapshot tconn := by
  unfold drbd_adm_net_opts at h ⊢
  split_ifs at h ⊢ with h1 h2 h3
  · rfl
  · rfl
  · rfl
  · cases hnc : tconn.net_conf with
    | none => rfl
    | some old_conf =>
      rw [hnc] at h
      exact net_opts_change_error_keeps_snapshot E tconn old_conf h

/-- C16 (divergence): a request that changes the integrity algorithm while the
protocol packet cannot be sent takes the failure exit of `drbd_adm_net_opts`
after the candidate was published and the new handles were installed: the
candidate and the new integrity transform and digest buffers are released while
the connection keeps pointing at them, the configuration that was active before
the call is gone, and the reply carries NO_ERROR. -/
theorem C16_failed_send_keeps_candidate :
    (drbd_adm_net_opts env_send_fails tconn_plain).trace.getLast?
      = some (net_event.kfree_net_conf (some conf_md5)) ∧
    net_event.send_protocol (-5) ∈ (drbd_adm_net_opts env_send_fails tconn_plain).trace ∧
    (drbd_adm_net_opts env_send_fails tconn_plain).tconn.net_conf = some conf_md5 ∧
    (drbd_adm_net_opts env_send_fails tconn_plain).tconn.net_conf ≠ tconn_plain.net_conf ∧
    (drbd_adm_net_opts env_send_fails tconn_plain).tconn.integrity_tfm = some 7 ∧
    net_event.crypto_free_hash (some 7)
      ∈ (drbd_adm_net_opts env_send_fails tconn_plain).trace ∧
    (drbd_adm_net_opts env_send_fails tconn_plain).tconn.int_dig_in = some 8 ∧
    net_event.kfree_digest (some 8) ∈ (drbd_adm_net_opts env_send_fails tconn_plain).trace ∧
    net_snapshot (drbd_adm_net_opts env_send_fails tconn_plain).tconn
      ≠ net_snapshot tconn_plain ∧
    (drbd_adm_net_opts env_send_fails tconn_plain).reply = some NO_ERROR := by
  refine ⟨?_, ?_, ?_, ?_, ?_, ?_, ?_, ?_, ?_, ?_⟩
  · decide
  · decide
  · decide
  · decide
  · decide
  · decide
  · decide
  · decide
  · intro h
    exact absurd (congrArg Prod.fst h) (by decide)
  · decide

theorem connect_addr_code_of_taken (new_conf : net_conf) (o : drbd_tconn) (nc : net_conf)
    (ho : o.net_conf = some nc)
    (h : local_addr_taken new_conf nc = true ∨ peer_addr_taken new_conf nc = true) :
    connect_addr_code new_conf o
      = (if peer_addr_taken new_conf nc = true then ERR_PEER_ADDR else ERR_LOCAL_ADDR) := by
  unfold connect_addr_code
  rw [ho]
  simp only [local_addr_taken, peer_addr_taken] at h ⊢
  rcases h with h | h
  · simp [h]
  · simp [h]

theorem connect_addr_code_of_free (new_conf : net_conf) (p : drbd_tconn)
    (h : ∀ pc, p.net_conf = some pc →
      local_addr_taken new_conf pc = false ∧ peer_addr_taken new_conf pc = false) :
    connect_addr_code new_conf p = NO_ERROR := by
  unfold connect_addr_code
  cases hp : p.net_conf with
  | none => rfl
  | some pc =>
    have := h pc hp
    simp only [local_addr_taken, peer_addr_taken] at this
    simp [this.1, this.2]

theorem connect_addr_check_first (new_conf : net_conf) (pre post : List drbd_tconn)
    (o : drbd_tconn) (hpre : ∀ p ∈ pre, connect_addr_code new_conf p = NO_ERROR)
    (ho : connect_addr_code new_conf o ≠ NO_ERROR) :
    connect_addr_check new_conf (pre ++ o :: post) = connect_addr_code new_conf o := by
  induction pre with
  | nil => simp [connect_addr_check, ho]
  | cons a rest ih =>
    have ha := hpre a (List.mem_cons_self _ _)
    have := ih (fun p hp => hpre p (List.mem_cons_of_mem _ hp))
    simp [connect_addr_check, ha, this]

/-- C18 (counterexample): the registry holds a connection with the requested
local address and, after it, one with the requested peer address; the connect
request is rejected with ERR_LOCAL_ADDR, not with ERR_PEER_ADDR. -/
theorem C18_address_counterexample :
    oconn_same_peer.net_conf = some conf_same_peer ∧
    peer_addr_taken (connect_candidate env_connect) conf_same_peer = true ∧
    oconn_same_peer ∈ [oconn_same_local, oconn_same_peer] ∧
    (drbd_adm_connect env_connect {} [oconn_same_local, oconn_same_peer]).reply
      = some ERR_LOCAL_ADDR := by
  refine ⟨rfl, ?_, ?_, ?_⟩
  · decide
  · decide
  · decide

/-- C18 (amended): for a connect request that passed the earlier validations,
the first other connection in registry order whose configuration has the
requested local or peer address decides the rejection: ERR_PEER_ADDR when its
peer address is the requested one (same length, same bytes), ERR_LOCAL_ADDR
when only its local address is.  The request is rejected before a configuration
is published or a state request is issued: the configuration and the handles of
the requesting connection are what they were. -/
theorem C18_first_collision_decides (E : net_env) (tconn : drbd_tconn)
    (pre post : List drbd_tconn) (o : drbd_tconn) (nc : net_conf)
    (hskb : E.prep.reply_skb = true) (hret : E.prep.retcode = NO_ERROR)
    (hcs : tconn.cstate ≤ C_STANDALONE) (hk : E.kzalloc_ok = true)
    (hattr : (E.net_conf_from_attrs (drbd_set_net_conf_defaults {})).1 = 0)
    (hchk : (_check_net_options tconn.agreed_pro_version tconn.cstate tconn.volumes
      tconn.net_conf (connect_candidate E)).1 = NO_ERROR)
    (hpre : ∀ p ∈ pre, ∀ pc, p.net_conf = some pc →
      local_addr_taken (connect_candidate E) pc = false ∧
      peer_addr_taken (connect_candidate E) pc = false)
    (ho : o.net_conf = some nc)
    (hcoll : local_addr_taken (connect_candidate E) nc = true ∨
      peer_addr_taken (connect_candidate E) nc = true) :
    (drbd_adm_connect E tconn (pre ++ o :: post)).reply
      = some (if peer_addr_taken (connect_candidate E) nc = true then ERR_PEER_ADDR
          else ERR_LOCAL_ADDR) ∧
    (drbd_adm_connect E tconn (pre ++ o :: post)).tconn.net_conf = tconn.net_conf ∧
    net_snapshot (drbd_adm_connect E tconn (pre ++ o :: post)).tconn = net_snapshot tconn ∧
    (drbd_adm_connect E tconn (pre ++ o :: post)).trace.any is_conn_request = false := by
  have hcode := connect_addr_code_of_taken (connect_candidate E) o nc ho hcoll
  have hne : connect_addr_code (connect_candidate E) o ≠ NO_ERROR := by
    rw [hcode]; split_ifs <;> simp
  have hfirst := connect_addr_check_first (connect_candidate E) pre post o
    (fun p hp => connect_addr_code_of_free _ p (hpre p hp)) hne
  have hcs2 : ¬ tconn.cstate > C_STANDALONE := by omega
  simp only [connect_candidate] at *
  unfold drbd_adm_connect
  simp only [hskb, hret, hcs2, hk, hattr, hchk, hfirst, hne, ne_eq, not_true_eq_false,
    if_false, if_true, not_false_eq_true, Bool.true_eq_false, Bool.false_eq_true]
  rw [hcode]
  refine ⟨rfl, rfl, rfl, ?_⟩
  simp [connect_fail, free_crypto, is_conn_request]

theorem C18_first_collision_decides_witness :
    (drbd_adm_connect env_connect {} ([oconn_same_local] ++ oconn_same_peer :: [])).reply
      = some ERR_LOCAL_ADDR ∧
    (drbd_adm_connect env_connect {} ([] ++ oconn_same_peer :: [oconn_same_local])).reply
      = some ERR_PEER_ADDR :=
  ⟨by decide,
   (C18_first_collision_decides env_connect {} [] [oconn_same_local] oconn_same_peer
      conf_same_peer
      rfl rfl (by decide) rfl rfl (by decide) (by simp) rfl (Or.inr (by decide))).1⟩

/-! ## Properties of the disk options -/

theorem disk_opts_fail_fields (retcode : drbd_ret_code) (mdev : disk_opts_volume)
    (p : Option Nat) (tr : List disk_event) :
    (disk_opts_fail retcode mdev p tr).reply = some retcode ∧
    (disk_opts_fail retcode mdev p tr).mdev = mdev := ⟨rfl, rfl⟩

theorem disk_opts_apply_congr (E F : disk_opts_env) (mdev : disk_opts_volume)
    (c : disk_conf) (tr tr2 : List disk_event)
    (h1 : F.drbd_alter_sa = E.drbd_alter_sa) (h2 : F.limits = E.limits)
    (h3 : F.kzalloc_plan = E.kzalloc_plan) (h4 : F.lc_create_ok = E.lc_create_ok) :
    (disk_opts_apply F mdev c tr2).reply = (disk_opts_apply E mdev c tr).reply ∧
    (disk_opts_apply F mdev c tr2).mdev = (disk_opts_apply E mdev c tr).mdev := by
  unfold disk_opts_apply
  rw [h1, h2, h3, h4]
  simp only []
  split_ifs <;> exact ⟨rfl, rfl⟩

/-- The return value of the attribute parser does not influence the reply of
`drbd_adm_disk_opts` nor what it does to the volume. -/
theorem disk_opts_ignores_attrs_err (E : disk_opts_env) (mdev : disk_opts_volume) :
    (drbd_adm_disk_opts E mdev).reply
      = (drbd_adm_disk_opts
          { E with disk_conf_from_attrs := fun dc => (0, (E.disk_conf_from_attrs dc).2) }
          mdev).reply ∧
    (drbd_adm_disk_opts E mdev).mdev
      = (drbd_adm_disk_opts
          { E with disk_conf_from_attrs := fun dc => (0, (E.disk_conf_from_attrs dc).2) }
          mdev).mdev := by
  unfold drbd_adm_disk_opts
  simp only []
  split_ifs
  · exact ⟨rfl, rfl⟩
  · exact ⟨rfl, rfl⟩
  · exact ⟨rfl, rfl⟩
  · exact ⟨rfl, rfl⟩
  all_goals exact disk_opts_apply_congr _ _ _ _ _ _ rfl rfl rfl rfl

/-- C17 (divergence): for a request with malformed attributes
(`disk_conf_from_attrs` returns an error) on a volume with an attached disk,
`drbd_adm_disk_opts` goes on after noting ERR_MANDATORY_TAG: the reply carries
the result of `drbd_alter_sa`, here NO_ERROR, and the candidate is installed as
the active disk configuration, the resync plan buffer is replaced and the
activity log is resized. -/
theorem C17_malformed_attrs_applied :
    (env_malformed_attrs.disk_conf_from_attrs mdev_attached.dc).1 ≠ 0 ∧
    (drbd_adm_disk_opts env_malformed_attrs mdev_attached).reply = some NO_ERROR ∧
    (drbd_adm_disk_opts env_malformed_attrs mdev_attached).reply ≠ some ERR_MANDATORY_TAG ∧
    (drbd_adm_disk_opts env_malformed_attrs mdev_attached).mdev.dc
      = { resync_rate := 250, resync_after := -1, al_extents := 257, c_plan_ahead := 20 } ∧
    (drbd_adm_disk_opts env_malformed_attrs mdev_attached).mdev.dc ≠ mdev_attached.dc ∧
    (drbd_adm_disk_opts env_malformed_attrs mdev_attached).mdev.rs_plan_s_size = 20 ∧
    (drbd_adm_disk_opts env_malformed_attrs mdev_attached).mdev.rs_plan_s_values = some 5 ∧
    mdev_attached.rs_plan_s_size = 0 ∧
    (drbd_adm_disk_opts env_malformed_attrs mdev_attached).mdev.act_log
      = some { nr_elements := 257 } ∧
    mdev_attached.act_log = some { nr_elements := 127 } := by
  refine ⟨?_, ?_, ?_, ?_, ?_, ?_, ?_, ?_, ?_, ?_⟩
  · decide
  · decide
  · decide
  · decide
  · decide
  · decide
  · decide
  · decide
  · decide
  · decide

/-! ## Properties of attach -/

theorem attach_fail_fields (retcode : drbd_ret_code) (ex : attach_exit) (v : attach_volume)
    (tr : List attach_event) (owned backing md lru : Bool) :
    (attach_fail retcode ex v tr owned backing md lru).reply = some retcode ∧
    (attach_fail retcode ex v tr owned backing md lru).exit = ex ∧
    (attach_fail retcode ex v tr owned backing md lru).mdev = v ∧
    (attach_fail retcode ex v tr owned backing md lru).trace.filter is_state_change
      = tr.filter is_state_change := by
  refine ⟨rfl, rfl, rfl, ?_⟩
  cases owned <;> cases backing <;> cases md <;> cases lru <;>
    simp [attach_fail, is_state_change, List.filter_append]

theorem attach_force_diskless_forced (E : attach_env) (retcode : drbd_ret_code)
    (v : attach_volume) (tr : List attach_event) (dec owned : Bool) :
    forced_failed (attach_force_diskless E retcode v tr dec owned) := by
  unfold forced_failed attach_force_diskless
  simp only []
  refine ⟨?_, ?_⟩
  · rw [(attach_fail_fields _ _ _ _ _ _ _ _).2.1]
    cases dec <;> simp
  · unfold last_state_change
    rw [(attach_fail_fields _ _ _ _ _ _ _ _).2.2.2]
    cases dec <;> simp [is_state_change, List.filter_append]

theorem attach_target_has_ldev (v : attach_volume) :
    (attach_target v).1.has_ldev = v.has_ldev := by
  unfold attach_target
  simp only []
  split_ifs <;> rfl

theorem attach_commit_attached (v : attach_volume) (tr : List attach_event)
    (ns : drbd_state) (rv : Int) (hl : v.has_ldev = true) (hrv : SS_SUCCESS ≤ rv) :
    attached (attach_commit NO_ERROR v
      (tr ++ [attach_event._drbd_set_state ns CS_VERBOSE rv])) := by
  refine ⟨rfl, rfl, hl, ns, rv, ?_, hrv⟩
  simp [attach_commit, last_state_change, is_state_change, List.filter_append]

theorem attach_set_state_cases (E : attach_env) (v : attach_volume) (tr : List attach_event)
    (hl : v.has_ldev = true) :
    attached (attach_set_state E NO_ERROR v tr) ∨
    forced_failed (attach_set_state E NO_ERROR v tr) := by
  unfold attach_set_state
  simp only []
  split_ifs with h1
  · right; exact attach_force_diskless_forced _ _ _ _ _ _
  · left
    refine attach_commit_attached _ _ _ _ ?_ (not_lt.mp h1)
    show (attach_target v).1.has_ldev = true
    rw [attach_target_has_ldev]; exact hl

theorem attach_sized_has_ldev (v : attach_volume) (dd : dds_result) :
    (attach_sized v dd).has_ldev = v.has_ldev := by
  unfold attach_sized
  simp only []
  split_ifs <;> rfl

theorem attach_take_over_has_ldev (E : attach_env) (v : attach_volume)
    (nbc : drbd_backing_dev) : (attach_take_over E v nbc).has_ldev = true := by
  unfold attach_take_over
  simp only []
  split_ifs <;> rfl

theorem attach_install_cases (E : attach_env) (v : attach_volume) (nbc : drbd_backing_dev)
    (tr : List attach_event) :
    (attached (attach_install E NO_ERROR v nbc tr) ∧ E.bitmap_io_err = false) ∨
    forced_failed (attach_install E NO_ERROR v nbc tr) := by
  unfold attach_install
  simp only []
  split_ifs
  all_goals first
    | (right; exact attach_force_diskless_forced _ _ _ _ _ _)
    | (have hb2 : E.bitmap_io_err = false := by
         cases hbe : E.bitmap_io_err
         · rfl
         · simp_all
       rcases attach_set_state_cases E (attach_sized (attach_take_over E v nbc)
         (drbd_determin_dev_size E.L (attach_take_over E v nbc).mdev 0 E.bm_resize_err
           E.size_bitmap_io_err)) _ (by rw [attach_sized_has_ldev, attach_take_over_has_ldev])
         with h | h
       · exact Or.inl ⟨h, hb2⟩
       · exact Or.inr h)

/-- The outcome of the request for the disk state Attaching. -/
theorem attach_request_cases (E : attach_env) (v : attach_volume) (nbc : drbd_backing_dev)
    (tr : List attach_event) (htr : tr.filter is_state_change = []) :
    ((E._drbd_request_state v { disk := D_MASK } { disk := D_ATTACHING } CS_VERBOSE).1
        < SS_SUCCESS →
      (attach_request E v nbc tr).exit = attach_exit.fail ∧
      (attach_request E v nbc tr).reply = some (other
        (E._drbd_request_state v { disk := D_MASK } { disk := D_ATTACHING } CS_VERBOSE).1) ∧
      (attach_request E v nbc tr).trace.any is_forced = false ∧
      last_state_change (attach_request E v nbc tr).trace
        = some (attach_event._drbd_request_state { disk := D_MASK } { disk := D_ATTACHING }
            CS_VERBOSE
            (E._drbd_request_state v { disk := D_MASK } { disk := D_ATTACHING } CS_VERBOSE).1) ∧
      (attach_request E v nbc tr).mdev = volume_with_state v
        (E._drbd_request_state v { disk := D_MASK } { disk := D_ATTACHING } CS_VERBOSE).2) ∧
    (SS_SUCCESS ≤
        (E._drbd_request_state v { disk := D_MASK } { disk := D_ATTACHING } CS_VERBOSE).1 →
      (attached (attach_request E v nbc tr) ∧ E.drbd_al_read_log_ok = true ∧
        E.bitmap_io_err = false) ∨
      forced_failed (attach_request E v nbc tr)) := by
  constructor
  · intro hrv
    unfold attach_request
    simp only [hrv, if_true]
    refine ⟨rfl, rfl, ?_, ?_, rfl⟩
    · have hf : ∀ e ∈ tr, is_forced e = false := by
        intro e he
        cases e <;> first | rfl | (exfalso
                                   have : attach_event.drbd_force_state _ _ ∈
                                       tr.filter is_state_change :=
                                     List.mem_filter.mpr ⟨he, rfl⟩
                                   rw [htr] at this
                                   cases this)
      have hany : tr.any is_forced = false := by
        rw [List.any_eq_false]
        intro e he
        simp [hf e he]
      simp [attach_fail, List.any_append, is_forced, hany]
    · unfold last_state_change
      rw [(attach_fail_fields _ _ _ _ _ _ _ _).2.2.2]
      simp [List.filter_append, htr, is_state_change]
  · intro hrv
    have hrv2 : ¬ (E._drbd_request_state v { disk := D_MASK } { disk := D_ATTACHING }
      CS_VERBOSE).1 < SS_SUCCESS := not_lt.mpr hrv
    unfold attach_request
    simp only [hrv2, if_false]
    split_ifs
    all_goals first
      | (right; exact attach_force_diskless_forced _ _ _ _ _ _)
      | (have hal : E.drbd_al_read_log_ok = true := by
           cases hbe : E.drbd_al_read_log_ok
           · simp_all
           · rfl
         rename_i _ _ hrd _ _ _ _
         rw [not_not.mp hrd]
         rcases attach_install_cases E _ _ _ with h | h
         · exact Or.inl ⟨h.1, hal, h.2⟩
         · exact Or.inr h)

theorem attach_open_code (E : attach_env) (v : attach_volume) (rc : drbd_ret_code)
    (a b c : Bool) (h : attach_open E v = some (rc, a, b, c)) : rc ≠ NO_ERROR := by
  unfold attach_open at h
  split_ifs at h <;> simp at h <;> (rw [← h.1]; simp)

theorem attach_fail_no_state_change (retcode : drbd_ret_code) (v : attach_volume)
    (owned backing md lru : Bool) :
    (attach_fail retcode attach_exit.fail v [attach_event.conn_reconfig_start]
      owned backing md lru).trace.any is_state_change = false := by
  cases owned <;> cases backing <;> cases md <;> cases lru <;>
    simp [attach_fail, is_state_change]

theorem drbd_md_set_sector_offsets_devices (L : Layout) (bdev : drbd_backing_dev) :
    (drbd_md_set_sector_offsets L bdev).md_capacity = bdev.md_capacity ∧
    (drbd_md_set_sector_offsets L bdev).meta_dev_idx = bdev.meta_dev_idx := by
  unfold drbd_md_set_sector_offsets
  split_ifs <;> exact ⟨rfl, rfl⟩

theorem attach_sizes_small (E : attach_env) (v : attach_volume)
    (hsmall : E.nbc.max_capacity < v.mdev.this_capacity) :
    attach_sizes E v (drbd_md_set_sector_offsets E.L E.nbc) = some ERR_DISK_TO_SMALL ∨
    (attach_sizes E v (drbd_md_set_sector_offsets E.L E.nbc) = some ERR_MD_DISK_TO_SMALL ∧
      ((E.nbc.md_capacity : Int) < min_md_device_sectors E.L E.nbc.meta_dev_idx)) := by
  have hf := drbd_md_set_sector_offsets_fields E.L E.nbc
  have hd := drbd_md_set_sector_offsets_devices E.L E.nbc
  unfold attach_sizes
  rw [hf.1, hf.2.1, hd.1, hd.2]
  split_ifs with h1 h2
  · left; rfl
  · right; exact ⟨rfl, h2⟩
  · left; rfl

/-- C13: when the maximum usable capacity of the backing device to attach is
below the current capacity of the replicated device, `drbd_adm_attach` issues
no request to the state engine and leaves the volume as it was (a Diskless
volume stays Diskless, no backing device is installed), and the request is not
answered with NO_ERROR; a request that passes the validations before the size
checks and whose meta data device is large enough is answered with
ERR_DISK_TO_SMALL through the exit `fail`. -/
theorem C13_small_backing_device_rejected (E : attach_env) (v : attach_volume)
    (hsmall : E.nbc.max_capacity < v.mdev.this_capacity) :
    (drbd_adm_attach E v).trace.any is_state_change = false ∧
    (drbd_adm_attach E v).mdev = v ∧
    (drbd_adm_attach E v).reply ≠ some NO_ERROR ∧
    (E.prep.reply_skb = true → E.prep.retcode = NO_ERROR → attach_open E v = none →
      min_md_device_sectors E.L E.nbc.meta_dev_idx ≤ E.nbc.md_capacity →
      (drbd_adm_attach E v).reply = some ERR_DISK_TO_SMALL ∧
      (drbd_adm_attach E v).exit = attach_exit.fail) := by
  have hs := attach_sizes_small E v hsmall
  unfold drbd_adm_attach
  split_ifs with h1 h2
  · exact ⟨rfl, rfl, by simp, fun h => absurd h (by simp [h1])⟩
  · exact ⟨rfl, rfl, by simpa using h2, fun _ h => absurd h h2⟩
  · cases ho : attach_open E v with
    | some p =>
      obtain ⟨rc, a, b, c⟩ := p
      simp only []
      refine ⟨attach_fail_no_state_change _ _ _ _ _ _, rfl, ?_, fun _ _ h => by cases h⟩
      have := attach_open_code E v rc a b c ho
      simpa [attach_fail] using this
    | none =>
      simp only []
      rcases hs with hs | ⟨hs, hmd⟩
      · rw [hs]
        simp only []
        refine ⟨attach_fail_no_state_change _ _ _ _ _ _, rfl, by simp [attach_fail],
          fun _ _ _ _ => ⟨rfl, rfl⟩⟩
      · rw [hs]
        simp only []
        refine ⟨attach_fail_no_state_change _ _ _ _ _ _, rfl, by simp [attach_fail],
          fun _ _ _ h => absurd hmd (not_lt.mpr h)⟩

theorem C13_small_backing_device_rejected_witness :
    nbc_internal.max_capacity < vol_diskless_primary.mdev.this_capacity ∧
    (drbd_adm_attach env_attach vol_diskless_primary).reply = some ERR_DISK_TO_SMALL ∧
    (drbd_adm_attach env_attach vol_diskless_primary).mdev.mdev.state.disk = D_DISKLESS ∧
    (drbd_adm_attach env_attach vol_diskless_primary).mdev.has_ldev = false :=
  ⟨by decide,
   ((C13_small_backing_device_rejected env_attach vol_diskless_primary (by decide)).2.2.2
      rfl rfl (by decide) (by decide)).1,
   by rw [(C13_small_backing_device_rejected env_attach vol_diskless_primary
      (by decide)).2.1]; rfl,
   by decide⟩

/-- C14 (counterexample): when the state engine rejects the request for the
disk state Attaching, `drbd_adm_attach` leaves through the exit `fail`: the
rejected request is its last request to the state engine, no transition to
Failed is forced, and the disk state stays Diskless. -/
theorem C14_rejected_attaching_counterexample :
    (env_attach_rejected._drbd_request_state vol_diskless_secondary { disk := D_MASK }
      { disk := D_ATTACHING } CS_VERBOSE).1 < SS_SUCCESS ∧
    (drbd_adm_attach env_attach_rejected vol_diskless_secondary).exit = attach_exit.fail ∧
    (drbd_adm_attach env_attach_rejected vol_diskless_secondary).trace.any is_forced = false ∧
    last_state_change (drbd_adm_attach env_attach_rejected vol_diskless_secondary).trace
      = some (attach_event._drbd_request_state { disk := D_MASK } { disk := D_ATTACHING }
          CS_VERBOSE SS_CW_FAILED_BY_PEER) ∧
    (drbd_adm_attach env_attach_rejected vol_diskless_secondary).reply
      = some (other SS_CW_FAILED_BY_PEER) ∧
    (drbd_adm_attach env_attach_rejected vol_diskless_secondary).mdev.mdev.state.disk
      = D_DISKLESS := by
  refine ⟨?_, ?_, ?_, ?_, ?_, ?_⟩
  · decide
  · decide
  · decide
  · decide
  · decide
  · decide

/-- C14 (amended): for an attach request that passed the validations, every
failure after the state engine accepted the request for the disk state
Attaching (a disk state below Attaching right after it, bitmap initialisation,
meta data read, data-not-current check, activity log sizing, refusal to
truncate, activity log read, size determination, bitmap I/O, final state
change) leaves through `force_diskless` or `force_diskless_dec`, and the last
request to the state engine is the forced transition of the disk state to
Failed; the only other outcome is the attached volume.  When the request for
Attaching itself is rejected the handler leaves through `fail` with the code of
the state engine and forces nothing. -/
theorem C14_later_failures_force_failed (E : attach_env) (v : attach_volume)
    (hskb : E.prep.reply_skb = true) (hret : E.prep.retcode = NO_ERROR)
    (hopen : attach_open E v = none)
    (hsizes : attach_sizes E v (drbd_md_set_sector_offsets E.L E.nbc) = none) :
    ((E._drbd_request_state v { disk := D_MASK } { disk := D_ATTACHING } CS_VERBOSE).1
        < SS_SUCCESS →
      (drbd_adm_attach E v).exit = attach_exit.fail ∧
      (drbd_adm_attach E v).reply = some (other
        (E._drbd_request_state v { disk := D_MASK } { disk := D_ATTACHING } CS_VERBOSE).1) ∧
      (drbd_adm_attach E v).trace.any is_forced = false) ∧
    (SS_SUCCESS ≤
        (E._drbd_request_state v { disk := D_MASK } { disk := D_ATTACHING } CS_VERBOSE).1 →
      (attached (drbd_adm_attach E v) ∧ E.drbd_al_read_log_ok = true ∧
        E.bitmap_io_err = false) ∨
      forced_failed (drbd_adm_attach E v)) := by
  have hrun : drbd_adm_attach E v = attach_request E v (drbd_md_set_sector_offsets E.L E.nbc)
      [attach_event.conn_reconfig_start] := by
    unfold drbd_adm_attach
    simp [hskb, hret, hopen, hsizes]
  rw [hrun]
  have h := attach_request_cases E v (drbd_md_set_sector_offsets E.L E.nbc)
    [attach_event.conn_reconfig_start] (by simp [is_state_change])
  exact ⟨fun hrv => ⟨(h.1 hrv).1, (h.1 hrv).2.1, (h.1 hrv).2.2.1⟩, h.2⟩

theorem C14_later_failures_force_failed_witness :
    env_attach_al_unreadable.drbd_al_read_log_ok = false ∧
    forced_failed (drbd_adm_attach env_attach_al_unreadable vol_diskless_secondary) :=
  ⟨rfl,
   ((C14_later_failures_force_failed env_attach_al_unreadable vol_diskless_secondary rfl rfl
      (by decide) (by decide)).2 (by decide)).resolve_left
      (fun h => absurd h.2.1 (by decide))⟩

/-! ## Properties of the status dump -/

theorem idr_get_next_eq_head (vols : List (Nat × Nat)) (w : Nat) :
    idr_get_next vols w = (vols.filter (fun m => decide (w ≤ m.1))).head? := by
  unfold idr_get_next
  induction vols with
  | nil => rfl
  | cons a l ih =>
    have hd : decide (w ≤ a.1) = true ∨ decide (w ≤ a.1) = false := by
      cases decide (w ≤ a.1) <;> simp
    rw [List.find?_cons, List.filter_cons]
    rcases hd with h | h
    · rw [h]; rfl
    · rw [h]; simp

theorem filter_all_above (l : List (Nat × Nat)) (w : Nat) (h : ∀ m ∈ l, w ≤ m.1) :
    l.filter (fun m => decide (w ≤ m.1)) = l := by
  rw [List.filter_eq_self]
  intro m hm
  simpa using h m hm

theorem filter_tail_of_sorted (l : List (Nat × Nat)) (w : Nat) (x : Nat × Nat)
    (t : List (Nat × Nat)) (hs : l.Pairwise (fun a b => a.1 < b.1))
    (hf : l.filter (fun m => decide (w ≤ m.1)) = x :: t) :
    l.filter (fun m => decide (x.1 + 1 ≤ m.1)) = t := by
  induction l with
  | nil => simp at hf
  | cons a l ih =>
    rw [List.pairwise_cons] at hs
    by_cases h : w ≤ a.1
    · have h1 : (a :: l).filter (fun m => decide (w ≤ m.1))
          = a :: l.filter (fun m => decide (w ≤ m.1)) := by simp [List.filter_cons, h]
      rw [h1] at hf
      have hx : a = x := (List.cons.inj hf).1
      have ht : l.filter (fun m => decide (w ≤ m.1)) = t := (List.cons.inj hf).2
      subst hx
      have hall : ∀ m ∈ l, a.1 + 1 ≤ m.1 := fun m hm => hs.1 m hm
      have hl : l.filter (fun m => decide (w ≤ m.1)) = l :=
        filter_all_above l w (fun m hm => by have := hs.1 m hm; omega)
      have h2 : (a :: l).filter (fun m => decide (a.1 + 1 ≤ m.1))
          = l.filter (fun m => decide (a.1 + 1 ≤ m.1)) := by simp [List.filter_cons]
      rw [h2, filter_all_above l _ hall, ← ht, hl]
    · have h1 : (a :: l).filter (fun m => decide (w ≤ m.1))
          = l.filter (fun m => decide (w ≤ m.1)) := by simp [List.filter_cons, h]
      rw [h1] at hf
      have hx : w ≤ x.1 := by
        have : x ∈ l.filter (fun m => decide (w ≤ m.1)) := by rw [hf]; simp
        simpa using (List.mem_filter.mp this).2
      have h2 : (a :: l).filter (fun m => decide (x.1 + 1 ≤ m.1))
          = l.filter (fun m => decide (x.1 + 1 ≤ m.1)) := by
        have : ¬ x.1 + 1 ≤ a.1 := by omega
        simp [List.filter_cons, this]
      rw [h2]
      exact ih hs.2 hf

theorem conn_remaining_zero (c : dump_conn) : conn_remaining c 0 = conn_records c := by
  unfold conn_remaining conn_records
  by_cases h : c.volumes = []
  · simp [h]
  · simp [h]

theorem expected_records_cons (c : dump_conn) (rest : List dump_conn) :
    expected_records (c :: rest) = conn_records c ++ expected_records rest := by
  simp [expected_records]

theorem expected_records_drop (R : List dump_conn) (i : Nat) (c : dump_conn)
    (hc : R[i]? = some c) :
    expected_records (R.drop i) = conn_records c ++ expected_records (R.drop (i + 1)) := by
  have hi : i < R.length := by
    by_contra h
    rw [List.getElem?_eq_none (by omega)] at hc
    cases hc
  rw [List.drop_eq_getElem_cons hi, expected_records_cons]
  rw [List.getElem?_eq_getElem hi] at hc
  rw [Option.some.inj hc]

theorem remaining_list_next (R : List dump_conn) (i : Nat) :
    remaining R { pos := list_next R i, volume := 0, filter := dump_pos.null }
      = expected_records (R.drop (i + 1)) := by
  unfold list_next
  split_ifs with h
  · have hc : R[i + 1]? = some R[i + 1] := List.getElem?_eq_getElem h
    rw [expected_records_drop R (i + 1) _ hc]
    simp only [remaining, hc, conn_remaining_zero]
  · rw [List.drop_eq_nil_of_le (by omega)]
    rfl

theorem cursor_ok_list_next (R : List dump_conn) (i : Nat) :
    cursor_ok R { pos := list_next R i, volume := 0, filter := dump_pos.null } := by
  unfold list_next cursor_ok
  split_ifs with h
  · exact ⟨rfl, by norm_num, h⟩
  · exact ⟨rfl, by norm_num, trivial⟩

theorem list_next_ne_entry (R : List dump_conn) (i : Nat) :
    list_next R i ≠ dump_pos.entry i := by
  unfold list_next
  split_ifs <;> simp

/-- A pass through `next_tconn` for a connection that is still owed a record
emits that record and leaves the cursor at the rest. -/
theorem next_tconn_emits (R : List dump_conn) (cb : netlink_callback)
    (hf : cb.filter = dump_pos.null) (hR : registry_ok R) (p j w : Nat) (c : dump_conn)
    (hc : R[j]? = some c) (hne : conn_remaining c w ≠ []) :
    ∃ cb2 r rest, next_tconn R {} cb (p + 1) j w = some (cb2, some r) ∧
      conn_remaining c w = r :: rest ∧ cursor_ok R cb2 ∧
      remaining R cb2 = rest ++ expected_records (R.drop (j + 1)) := by
  have hj : j < R.length := by
    by_contra h
    rw [List.getElem?_eq_none (by omega)] at hc
    cases hc
  have hcR : c ∈ R := by
    rw [List.getElem?_eq_getElem hj] at hc
    rw [← Option.some.inj hc]
    exact List.getElem_mem hj
  have hidr := idr_get_next_eq_head c.volumes w
  cases hF : c.volumes.filter (fun m => decide (w ≤ m.1)) with
  | nil =>
    rw [hF] at hidr
    have hw : w = 0 ∧ c.volumes = [] := by
      by_contra hcon
      apply hne
      unfold conn_remaining
      rw [if_neg hcon, hF]
      rfl
    obtain ⟨hw0, hv⟩ := hw
    subst hw0
    refine ⟨{ pos := list_next R j, volume := 0, filter := dump_pos.null },
      context_record c, [], ?_, ?_, cursor_ok_list_next R j, ?_⟩
    · unfold next_tconn
      simp only [hc, hidr]
      simp [status_out, list_next_ne_entry, context_record, hf]
    · simp [conn_remaining, hv]
    · rw [remaining_list_next]; rfl
  | cons m t =>
    rw [hF] at hidr
    have hm : m ∈ c.volumes := by
      have : m ∈ c.volumes.filter (fun m => decide (w ≤ m.1)) := by rw [hF]; simp
      exact (List.mem_filter.mp this).1
    have hb : m.1 + 1 < 2 ^ 32 := (hR c hcR).2 m hm
    have hcr : conn_remaining c w = volume_record c m :: t.map (volume_record c) := by
      unfold conn_remaining
      have : ¬ (w = 0 ∧ c.volumes = []) := by
        intro h
        rw [h.2] at hm
        cases hm
      rw [if_neg this, hF]
      rfl
    refine ⟨{ pos := dump_pos.entry j, volume := m.1 + 1, filter := dump_pos.null },
      volume_record c m, t.map (volume_record c), ?_, hcr, ⟨rfl, hb, hj⟩, ?_⟩
    · unfold next_tconn
      simp only [hc, hidr]
      simp [status_out, volume_record, hf, Nat.mod_eq_of_lt hb]
      cases cb
      simp_all
    · simp only [remaining, hc]
      have ht := filter_tail_of_sorted c.volumes w m t (hR c hcR).1 hF
      unfold conn_remaining
      have : ¬ (m.1 + 1 = 0 ∧ c.volumes = []) := by omega
      rw [if_neg this, ht]

theorem conn_records_ne_nil (c : dump_conn) : conn_records c ≠ [] := by
  unfold conn_records
  split_ifs with h
  · simp
  · simpa using h

theorem next_tconn_step (R : List dump_conn) (hR : registry_ok R) (cb : netlink_callback)
    (hf : cb.filter = dump_pos.null) (i w : Nat) (c : dump_conn) (hc : R[i]? = some c) :
    ∃ cb2, next_tconn R {} cb 2 i w
        = some (cb2, (conn_remaining c w ++ expected_records (R.drop (i + 1))).head?) ∧
      cursor_ok R cb2 ∧
      remaining R cb2 = (conn_remaining c w ++ expected_records (R.drop (i + 1))).tail := by
  by_cases hne : conn_remaining c w = []
  · have hw : w ≠ 0 := by
      intro h0
      rw [h0, conn_remaining_zero] at hne
      exact conn_records_ne_nil c hne
    have hF : c.volumes.filter (fun m => decide (w ≤ m.1)) = [] := by
      unfold conn_remaining at hne
      have hcond : ¬ (w = 0 ∧ c.volumes = []) := fun h => hw h.1
      rw [if_neg hcond] at hne
      simpa using hne
    have hidr := idr_get_next_eq_head c.volumes w
    rw [hF] at hidr
    rw [hne, List.nil_append]
    by_cases hlast : i + 1 < R.length
    · have hnext : list_next R i = dump_pos.entry (i + 1) := by simp [list_next, hlast]
      have hjump : next_tconn R {} cb 2 i w = next_tconn R {} cb 1 (i + 1) 0 := by
        rw [next_tconn]
        simp only [hc, hidr]
        simp [hw, hnext, hf]
      have hc2 : R[i + 1]? = some R[i + 1] := List.getElem?_eq_getElem hlast
      obtain ⟨cb2, r, rest, h1, h2, h3, h4⟩ := next_tconn_emits R cb hf hR 0 (i + 1) 0 _ hc2
        (by rw [conn_remaining_zero]; exact conn_records_ne_nil _)
      refine ⟨cb2, ?_, h3, ?_⟩
      · rw [hjump, h1, expected_records_drop R (i + 1) _ hc2, ← conn_remaining_zero, h2]
        rfl
      · rw [h4, expected_records_drop R (i + 1) _ hc2, ← conn_remaining_zero, h2]
        rfl
    · have hnext : list_next R i = dump_pos.head := by simp [list_next, hlast]
      refine ⟨{ pos := dump_pos.head, volume := 0, filter := dump_pos.null }, ?_,
        ⟨rfl, by norm_num, trivial⟩, ?_⟩
      · rw [next_tconn]
        simp only [hc, hidr]
        rw [List.drop_eq_nil_of_le (by omega)]
        simp [hw, hnext, hf, status_out, expected_records]
      · rw [List.drop_eq_nil_of_le (by omega)]
        rfl
  · obtain ⟨cb2, r, rest, h1, h2, h3, h4⟩ := next_tconn_emits R cb hf hR 1 i w c hc hne
    refine ⟨cb2, ?_, h3, ?_⟩
    · rw [h1, h2]; rfl
    · rw [h4, h2]; rfl

/-- A call of `get_one_status` at a reachable cursor emits the first record
that is still owed, if any, and leaves the cursor at the rest. -/
theorem get_one_status_step (R : List dump_conn) (hR : registry_ok R) (cb : netlink_callback)
    (hok : cursor_ok R cb) :
    ∃ cb2, get_one_status R {} cb = some (cb2, (remaining R cb).head?) ∧
      cursor_ok R cb2 ∧ remaining R cb2 = (remaining R cb).tail := by
  obtain ⟨hf, hw, hpos⟩ := hok
  have hmod : cb.volume % 2 ^ 32 = cb.volume := Nat.mod_eq_of_lt hw
  cases hp : cb.pos with
  | head =>
    refine ⟨{ pos := dump_pos.head, volume := 0, filter := dump_pos.null }, ?_,
      ⟨rfl, by norm_num, trivial⟩, ?_⟩
    · unfold get_one_status
      cases R <;> simp [revalidate, hp, status_out, remaining, hf]
    · simp [remaining, hp]
  | null =>
    cases hRl : R with
    | nil =>
      refine ⟨{ pos := dump_pos.null, volume := (cb.volume + 1) % 2 ^ 32,
                filter := dump_pos.null }, ?_,
        ⟨rfl, Nat.mod_lt _ (by norm_num), trivial⟩, ?_⟩
      · unfold get_one_status
        simp [revalidate, hp, status_out, remaining, hf, hmod]
      · simp [remaining, hp]
    | cons c rest =>
      have hc : (c :: rest)[0]? = some c := by simp
      obtain ⟨cb2, h1, h2, h3⟩ := next_tconn_step (c :: rest) (hRl ▸ hR) cb hf 0 cb.volume c hc
      refine ⟨cb2, ?_, h2, ?_⟩
      · unfold get_one_status
        simp only [revalidate, hp, hmod]
        rw [h1]
        simp [remaining, hp]
      · rw [h3]
        simp [remaining, hp]
  | entry i =>
    rw [hp] at hpos
    have hi : i < R.length := hpos
    have hc : R[i]? = some R[i] := List.getElem?_eq_getElem hi
    obtain ⟨cb2, h1, h2, h3⟩ := next_tconn_step R hR cb hf i cb.volume _ hc
    refine ⟨cb2, ?_, h2, ?_⟩
    · unfold get_one_status
      have hrev : revalidate R (dump_pos.entry i) = (dump_pos.entry i, dump_pos.entry i) := by
        cases R with
        | nil => simp at hi
        | cons a l =>
          have hi2 : i < l.length + 1 := by simpa using hi
          simp [revalidate, hi2]
      simp only [hp, hrev, hmod]
      rw [h1]
      simp [remaining, hp, hc]
    · rw [h3]
      simp [remaining, hp, hc]

theorem netlink_dump_remaining (R : List dump_conn) (hR : registry_ok R) :
    ∀ (calls : Nat) (cb : netlink_callback), cursor_ok R cb →
      (remaining R cb).length < calls → netlink_dump R {} calls cb = some (remaining R cb) := by
  intro calls
  induction calls with
  | zero => intro cb _ h; omega
  | succ n ih =>
    intro cb hok hlen
    obtain ⟨cb2, h1, h2, h3⟩ := get_one_status_step R hR cb hok
    cases hL : remaining R cb with
    | nil =>
      rw [hL] at h1
      simp [netlink_dump, h1]
    | cons r t =>
      rw [hL] at h1 h3 hlen
      have := ih cb2 h2 (by rw [h3]; simp at hlen ⊢; omega)
      simp [netlink_dump, h1, this, h3]

theorem remaining_zero_cursor (R : List dump_conn) : remaining R {} = expected_records R := by
  cases R with
  | nil => rfl
  | cons c rest =>
    simp only [remaining]
    rw [conn_remaining_zero, expected_records_cons]

/-- C20: for a registry that does not change, with room for every record, the
repeated calls of `get_one_status` from the zero cursor emit exactly the records
owed: for every connection in registry order one status record per member
volume in ascending volume number, or the context-only record (minor `-1U`)
when it has no volume, each once; the call after the last record emits nothing
and ends the dump, so that one call more than there are records suffices. -/
theorem C20_dump_emits_every_record_once (registry : List dump_conn)
    (hR : registry_ok registry) (calls : Nat)
    (hcalls : (expected_records registry).length < calls) :
    netlink_dump registry {} calls {} = some (expected_records registry) := by
  rw [← remaining_zero_cursor] at hcalls ⊢
  exact netlink_dump_remaining registry hR calls {} ⟨rfl, by norm_num, trivial⟩ hcalls

theorem registry_three_ok : registry_ok registry_three := by
  intro c hc
  simp only [registry_three, List.mem_cons, List.mem_singleton, List.not_mem_nil,
    or_false] at hc
  rcases hc with rfl | rfl | rfl <;> simp

theorem C20_dump_emits_every_record_once_witness :
    netlink_dump registry_three {} 5 {}
      = some [{ minor := 10, conn_name := 1, volume := 0 },
              { minor := 11, conn_name := 1, volume := 1 },
              { minor := 2 ^ 32 - 1, conn_name := 2, volume := VOLUME_UNSPECIFIED },
              { minor := 12, conn_name := 3, volume := 5 }] :=
  C20_dump_emits_every_record_once registry_three registry_three_ok 5 (by decide)

/-! ## Properties of the size negotiation, continued -/

/-- When `drbd_determin_dev_size` has to resize and the bitmap resize fails, it
returns `dev_size_error` and sets the device capacity and the last agreed size
to half the capacity of the bitmap. -/
theorem drbd_determin_dev_size_bm_error (L : Layout) (mdev : drbd_conf) (flags : Nat)
    (io : Bool)
    (hresize : mdev.this_capacity ≠
        drbd_new_dev_size mdev (drbd_md_set_sector_offsets L mdev.ldev)
          (decide (flags &&& DDSF_FORCED ≠ 0)) ∨
      mdev.bm_capacity ≠
        drbd_new_dev_size mdev (drbd_md_set_sector_offsets L mdev.ldev)
          (decide (flags &&& DDSF_FORCED ≠ 0))) :
    (drbd_determin_dev_size L mdev flags true io).rv = determine_dev_size.dev_size_error ∧
    (drbd_determin_dev_size L mdev flags true io).mdev.this_capacity = mdev.bm_capacity / 2 ∧
    (drbd_determin_dev_size L mdev flags true io).mdev.ldev.md.la_size_sect
      = mdev.bm_capacity / 2 ∧
    (drbd_determin_dev_size L mdev flags true io).mdev.bm_capacity = mdev.bm_capacity := by
  have hS : drbd_new_dev_size { mdev with ldev := drbd_md_set_sector_offsets L mdev.ldev }
      (drbd_md_set_sector_offsets L mdev.ldev) (decide (flags &&& DDSF_FORCED ≠ 0)) =
      drbd_new_dev_size mdev (drbd_md_set_sector_offsets L mdev.ldev)
        (decide (flags &&& DDSF_FORCED ≠ 0)) :=
    drbd_new_dev_size_congr _ _ _ _ rfl rfl
  unfold drbd_determin_dev_size
  simp only [hS]
  generalize drbd_new_dev_size mdev (drbd_md_set_sector_offsets L mdev.ldev)
    (decide (flags &&& DDSF_FORCED ≠ 0)) = S at hresize ⊢
  have hd : decide (mdev.this_capacity ≠ S ∨ mdev.bm_capacity ≠ S) = true := by
    simpa using hresize
  simp [hd]

/-- C22 (divergence): a volume of 1000 sectors with a bitmap for 1000 sectors is
to grow to 4000 sectors and the bitmap resize fails: `drbd_determin_dev_size`
returns `dev_size_error`, the bitmap still covers 1000 sectors, but the device
capacity and the last agreed size are set to 500 sectors, half of what the
bitmap holds. -/
theorem C22_failed_resize_halves_size :
    (drbd_determin_dev_size drbd_layout mdev_to_grow 0 true false).rv
      = determine_dev_size.dev_size_error ∧
    (drbd_determin_dev_size drbd_layout mdev_to_grow 0 true false).mdev.bm_capacity = 1000 ∧
    (drbd_determin_dev_size drbd_layout mdev_to_grow 0 true false).mdev.this_capacity = 500 ∧
    (drbd_determin_dev_size drbd_layout mdev_to_grow 0 true false).mdev.ldev.md.la_size_sect
      = 500 ∧
    (drbd_determin_dev_size drbd_layout mdev_to_grow 0 true false).mdev.this_capacity
      ≠ (drbd_determin_dev_size drbd_layout mdev_to_grow 0 true false).mdev.bm_capacity := by
  refine ⟨?_, ?_, ?_, ?_, ?_⟩
  · decide
  · decide
  · decide
  · decide
  · decide

theorem size_before_user_bounds (p m la : Nat) :
    (m ≠ 0 → size_before_user p m la ≤ m) ∧
    (p ≠ 0 → size_before_user p m la ≤ p) ∧
    (size_before_user p m la = 0 ↔ la = 0 ∧ m = 0 ∧ p = 0) := by
  unfold size_before_user
  dsimp only
  by_cases hpm : p ≠ 0 ∧ m ≠ 0
  · simp only [hpm, and_self, if_true, ne_eq, not_false_eq_true]
    have := hpm.1
    have := hpm.2
    refine ⟨fun _ => Nat.min_le_right _ _, fun _ => Nat.min_le_left _ _, ?_⟩
    constructor
    · intro h
      rcases Nat.le_total p m with hle | hle
      · rw [Nat.min_eq_left hle] at h
        exact absurd h hpm.1
      · rw [Nat.min_eq_right hle] at h
        exact absurd h hpm.2
    · intro h
      simp at h
  · simp only [hpm, if_false]
    have hpm2 : p = 0 ∨ m = 0 := by
      by_contra hc
      exact hpm ⟨fun h => hc (Or.inl h), fun h => hc (Or.inr h)⟩
    split_ifs <;> refine ⟨fun _ => ?_, fun _ => ?_, ?_⟩ <;> omega

/-- C26: the size that `drbd_new_dev_size` returns is at most the local maximum
`m_size` whenever that is not 0, at most the effective peer size whenever that
is not 0, for every last agreed size and every user size; it is 0 exactly when
the last agreed size, the local maximum and the effective peer size are all 0. -/
theorem C26_new_dev_size_bounded (mdev : drbd_conf) (bdev : drbd_backing_dev) (f : Bool) :
    (bdev.max_capacity ≠ 0 → drbd_new_dev_size mdev bdev f ≤ bdev.max_capacity) ∧
    (effective_peer_size mdev bdev f ≠ 0 →
      drbd_new_dev_size mdev bdev f ≤ effective_peer_size mdev bdev f) ∧
    (drbd_new_dev_size mdev bdev f = 0 ↔
      bdev.md.la_size_sect = 0 ∧ bdev.max_capacity = 0 ∧
        effective_peer_size mdev bdev f = 0) := by
  have hb := size_before_user_bounds (effective_peer_size mdev bdev f) bdev.max_capacity
    bdev.md.la_size_sect
  have heq : drbd_new_dev_size mdev bdev f =
      if bdev.disk_size ≠ 0 then
        if bdev.disk_size > size_before_user (effective_peer_size mdev bdev f)
            bdev.max_capacity bdev.md.la_size_sect then
          size_before_user (effective_peer_size mdev bdev f) bdev.max_capacity
            bdev.md.la_size_sect
        else bdev.disk_size
      else size_before_user (effective_peer_size mdev bdev f) bdev.max_capacity
        bdev.md.la_size_sect := drbd_new_dev_size_eq mdev bdev f
  rw [heq]
  generalize effective_peer_size mdev bdev f = p at hb ⊢
  generalize size_before_user p bdev.max_capacity bdev.md.la_size_sect = b at hb ⊢
  obtain ⟨h1, h2, h3⟩ := hb
  refine ⟨fun hm => ?_, fun hp => ?_, ?_⟩
  · have := h1 hm
    split_ifs <;> omega
  · have := h2 hp
    split_ifs <;> omega
  · rw [← h3]
    split_ifs <;> omega

theorem C26_new_dev_size_bounded_witness :
    drbd_new_dev_size mdev_fresh bdev_user_too_big false ≤ 100 :=
  (C26_new_dev_size_bounded mdev_fresh bdev_user_too_big false).1 (by decide)

/-! ## Properties of further administrative requests -/

/-- Whenever `drbd_adm_add_minor` goes through `drbd_adm_finish`, the reply is
sent once, with the reference on the connection released before. -/
theorem add_minor_in_range_finishes (prep : adm_prepared) (ctx : drbd_config_context)
    (minor_count : Nat) (excl : Bool) (conn_new_minor : Nat → Nat → drbd_ret_code)
    (hskb : prep.reply_skb = true) (htconn : ctx.tconn = true)
    (hrange : prep.retcode ≠ NO_ERROR ∨ (ctx.minor < minor_count ∧ ctx.volume < 256)) :
    (drbd_adm_add_minor prep ctx minor_count excl conn_new_minor).returned = none ∧
    (drbd_adm_add_minor prep ctx minor_count excl conn_new_minor).trace.count
      adm_event.drbd_adm_send_reply = 1 ∧
    (drbd_adm_add_minor prep ctx minor_count excl conn_new_minor).trace.count
      adm_event.kref_put_tconn = 1 := by
  unfold drbd_adm_add_minor
  by_cases hret : prep.retcode = NO_ERROR
  · have hr := hrange.resolve_left (fun h => h hret)
    have h1 : ¬ ctx.minor ≥ minor_count := by omega
    have h2 : ¬ ctx.volume ≥ 256 := by omega
    simp only [hskb, hret, h1, h2, ne_eq, not_true_eq_false, if_false, Bool.true_eq_false]
    split_ifs <;> simp [drbd_adm_finish, hskb, htconn]
  · simp [hskb, hret, drbd_adm_finish, htconn]

/-- C21 (divergence): a request to add minor 40 with a minor count of 32, and a
request to add volume 256, are rejected by `drbd_adm_add_minor` after
`drbd_adm_prepare` allocated the reply and took the reference on the
connection: the handler notes the info text and returns ERR_INVALID_REQUEST to
the netlink layer without going through `drbd_adm_finish`; no code is stored
in the reply, the reply is not sent and the reference is not released. -/
theorem C21_out_of_range_skips_finish :
    (drbd_adm_add_minor {} ctx_minor_40 32 false (fun _ _ => NO_ERROR)).returned
      = some ERR_INVALID_REQUEST ∧
    (drbd_adm_add_minor {} ctx_minor_40 32 false (fun _ _ => NO_ERROR)).trace
      = [adm_event.drbd_msg_put_info] ∧
    (drbd_adm_add_minor {} ctx_minor_40 32 false (fun _ _ => NO_ERROR)).trace.count
      adm_event.drbd_adm_send_reply = 0 ∧
    (drbd_adm_add_minor {} ctx_minor_40 32 false (fun _ _ => NO_ERROR)).trace.count
      adm_event.kref_put_tconn = 0 ∧
    (drbd_adm_add_minor {} ctx_volume_256 32 false (fun _ _ => NO_ERROR)).returned
      = some ERR_INVALID_REQUEST ∧
    (drbd_adm_add_minor {} ctx_volume_256 32 false (fun _ _ => NO_ERROR)).trace
      = [adm_event.drbd_msg_put_info] ∧
    drbd_adm_finish {} ctx_minor_40 ERR_INVALID_REQUEST
      = [adm_event.kref_put_tconn, adm_event.store_ret_code ERR_INVALID_REQUEST,
         adm_event.drbd_adm_send_reply] := by
  refine ⟨?_, ?_, ?_, ?_, ?_, ?_, ?_⟩
  · decide
  · decide
  · decide
  · decide
  · decide
  · decide
  · decide

/-- With one sector per bitmap bit or more, a start sector of 1 is kept as it
is by the masking of `drbd_adm_start_ov`, for every power of two above 1. -/
theorem start_ov_mask_keeps_one (k : Nat) (hk : 1 ≤ k) (hk2 : k < 64) :
    1 &&& (2 ^ 64 - 1 - 2 ^ k % 2 ^ 64) = 1 ∧ ¬ (2 ^ k ∣ 1) := by
  constructor
  · have hlt : 2 ^ k < 2 ^ 64 := Nat.pow_lt_pow_right (by norm_num) hk2
    rw [Nat.mod_eq_of_lt hlt]
    have hodd : (2 ^ 64 - 1 - 2 ^ k) % 2 = 1 := by
      obtain ⟨j, rfl⟩ : ∃ j, k = j + 1 := ⟨k - 1, by omega⟩
      have : 2 ^ (j + 1) = 2 * 2 ^ j := by ring
      omega
    apply Nat.eq_of_testBit_eq
    intro i
    rw [Nat.testBit_and]
    cases i with
    | zero =>
      simpa [Nat.testBit_zero] using hodd
    | succ i =>
      simp [Nat.testBit_succ]
  · intro h
    have := Nat.le_of_dvd (by norm_num) h
    have : 2 ^ 1 ≤ 2 ^ k := Nat.pow_le_pow_right (by norm_num) hk
    omega

/-- C24 (divergence): given the start sector 1, `drbd_adm_start_ov` stores 1 as
verify start position and goes on to request the verify: the position is not a
multiple of the 8 sectors of a bitmap bit.  The mask `~BM_SECT_PER_BIT` clears
the one bit of value 8 and keeps the three bits below it; a start sector of 15
is stored as 7. -/
theorem C24_start_sector_not_aligned :
    (drbd_adm_start_ov env_start_ov 0).ov_start_sector = 1 ∧
    (drbd_adm_start_ov env_start_ov 0).requested = true ∧
    ¬ (BM_SECT_PER_BIT ∣ (drbd_adm_start_ov env_start_ov 0).ov_start_sector) ∧
    (drbd_adm_start_ov
      { env_start_ov with start_ov_parms_from_attrs := fun _ => (0, 15) } 0).ov_start_sector
      = 7 ∧
    (drbd_adm_start_ov
      { env_start_ov with start_ov_parms_from_attrs := fun _ => (0, 8) } 0).ov_start_sector
      = 0 := by
  refine ⟨?_, ?_, ?_, ?_, ?_⟩
  · decide
  · decide
  · decide
  · decide
  · decide

theorem get_ldev_ref_count (v : resize_volume) :
    ((get_ldev_ref v).1 = false → (get_ldev_ref v).2 = v) ∧
    ((get_ldev_ref v).1 = true → (get_ldev_ref v).2.local_cnt = v.local_cnt + 1) := by
  unfold get_ldev_ref
  split_ifs <;> simp

theorem resize_with_ldev_count (E : resize_env) (rs : resize_parms) (v : resize_volume)
    (h : (resize_with_ldev E rs v).reply ≠ some ERR_NEED_APV_93) :
    (resize_with_ldev E rs v).mdev.local_cnt = v.local_cnt - 1 := by
  unfold resize_with_ldev at h ⊢
  simp only [] at h ⊢
  split_ifs at h ⊢
  all_goals first
    | (exfalso; exact h rfl)
    | rfl

/-- On every path of `drbd_adm_resize` other than the rejection of `no_resync`
for a protocol version below 93, the count of references to the local disk is
what it was. -/
theorem resize_balanced_otherwise (E : resize_env) (v : resize_volume)
    (h : (drbd_adm_resize E v).reply ≠ some ERR_NEED_APV_93) :
    (drbd_adm_resize E v).mdev.local_cnt = v.local_cnt := by
  have hg := get_ldev_ref_count v
  unfold drbd_adm_resize at h ⊢
  simp only [] at h ⊢
  split_ifs at h ⊢
  all_goals first
    | rfl
    | (show (get_ldev_ref v).2.local_cnt = v.local_cnt
       rw [hg.1 (by assumption)])
    | (have ht : (get_ldev_ref v).1 = true := by
         cases hb : (get_ldev_ref v).1
         · exact absurd hb (by assumption)
         · rfl
       rw [resize_with_ldev_count E _ _ h, hg.2 ht]
       rfl)

/-- C30 (divergence): a resize request with `no_resync` for a volume with an
attached disk whose connection agreed on protocol version 92 is rejected with
ERR_NEED_APV_93 after `get_ldev` took a reference to the local disk: the
handler leaves without `put_ldev`, and the count of references is one higher
than before the call. -/
theorem C30_no_resync_rejection_keeps_reference :
    (drbd_adm_resize env_resize_no_resync vol_apv_92).reply = some ERR_NEED_APV_93 ∧
    vol_apv_92.local_cnt = 0 ∧
    (drbd_adm_resize env_resize_no_resync vol_apv_92).mdev.local_cnt = 1 ∧
    (drbd_adm_resize env_resize_no_resync { vol_apv_92 with agreed_pro_version := 93 }).reply
      = some NO_ERROR ∧
    (drbd_adm_resize env_resize_no_resync
      { vol_apv_92 with agreed_pro_version := 93 }).mdev.local_cnt = 0 := by
  refine ⟨?_, ?_, ?_, ?_, ?_⟩
  · decide
  · decide
  · decide
  · decide
  · decide

/-! ## Properties of the pretty printing of sizes -/

theorem and_two_pow_nine (x : Nat) : x &&& 2 ^ 9 = if x.testBit 9 = true then 2 ^ 9 else 0 := by
  apply Nat.eq_of_testBit_eq
  intro i
  rw [Nat.testBit_and, Nat.testBit_two_pow]
  by_cases h : 9 = i
  · subst h
    cases hx : x.testBit 9
    · simp
    · simp only [Bool.true_and, if_true]
      decide
  · cases hx : x.testBit 9
    · simp [h]
    · simp [h, Nat.testBit_two_pow_of_ne h]

/-- A scaling step of `ppsize` is the division by 1024 rounded half up. -/
theorem ppsize_step_round (x : Nat) : ppsize_step x = (x + 512) / 1024 := by
  unfold ppsize_step
  rw [and_two_pow_nine, Nat.testBit_to_div_mod]
  by_cases h : x / 2 ^ 9 % 2 = 1
  · simp only [h, decide_True, if_true]
    norm_num at h ⊢
    omega
  · simp only [h, decide_False, if_false]
    norm_num at h ⊢
    omega

theorem ppsize_scale_bounds :
    ∀ (passes size base : Nat), base ≤ 5 → 5 - base ≤ passes →
      size ≤ 2 ^ (64 - 10 * base) →
      (ppsize_scale passes size base).2 ≤ 5 ∧
      base ≤ (ppsize_scale passes size base).2 ∧
      (ppsize_scale passes size base).1 ≤ 2 ^ (64 - 10 * (ppsize_scale passes size base).2) ∧
      ((ppsize_scale passes size base).2 < 5 → (ppsize_scale passes size base).1 < 10000) := by
  intro passes
  induction passes with
  | zero =>
    intro size base hb hp hs
    have : base = 5 := by omega
    subst this
    exact ⟨Nat.le_refl _, Nat.le_refl _, hs, fun h => absurd h (by simp [ppsize_scale])⟩
  | succ n ih =>
    intro size base hb hp hs
    unfold ppsize_scale
    by_cases hc : size ≥ 10000 ∧ base < units.length - 1
    · rw [if_pos hc]
      have hb5 : base < 5 := hc.2
      have hstep : ppsize_step size ≤ 2 ^ (64 - 10 * (base + 1)) := by
        rw [ppsize_step_round]
        interval_cases base <;> norm_num at hs ⊢ <;> omega
      obtain ⟨h1, h2, h3, h4⟩ := ih (ppsize_step size) (base + 1) (by omega) (by omega) hstep
      exact ⟨h1, by omega, h3, h4⟩
    · rw [if_neg hc]
      refine ⟨hb, Nat.le_refl _, hs, fun h5 => ?_⟩
      by_contra hge
      exact hc ⟨by omega, h5⟩

/-- More passes than the five that the unit letters allow change nothing. -/
theorem ppsize_scale_passes :
    ∀ (passes more size base : Nat), 5 - base ≤ passes → base ≤ 5 →
      ppsize_scale (passes + more) size base = ppsize_scale passes size base := by
  intro passes
  induction passes with
  | zero =>
    intro more size base hp hb
    have : base = 5 := by omega
    subst this
    cases more with
    | zero => rfl
    | succ m => simp [ppsize_scale, units]
  | succ n ih =>
    intro more size base hp hb
    rw [show n + 1 + more = (n + more) + 1 by omega]
    unfold ppsize_scale
    by_cases hc : size ≥ 10000 ∧ base < units.length - 1
    · rw [if_pos hc, if_pos hc]
      have hb5 : base < 5 := hc.2
      exact ih more _ _ (by omega) (by omega)
    · rw [if_neg hc, if_neg hc]

theorem decimal_digits_length :
    ∀ (width k n : Nat), 1 ≤ k → n < 10 ^ k → (decimal_digits width n).length ≤ k := by
  intro width
  induction width with
  | zero => intro k n _ _; simp [decimal_digits]
  | succ w ih =>
    intro k n hk hn
    unfold decimal_digits
    by_cases h : n < 10
    · rw [if_pos h]; simpa using hk
    · rw [if_neg h]
      obtain ⟨j, rfl⟩ : ∃ j, k = j + 1 := ⟨k - 1, by omega⟩
      have hj : 1 ≤ j := by
        by_contra hc
        have : j = 0 := by omega
        subst this
        simp at hn
        omega
      have hn2 : n / 10 < 10 ^ j := by
        rw [Nat.div_lt_iff_lt_mul (by norm_num)]
        rw [pow_succ] at hn
        exact hn
      have := ih j (n / 10) hj hn2
      simp only [List.length_append, List.length_singleton]
      omega

/-- C25: for every 64 bit size, `ppsize` leaves a number of at most 16384 and a
unit among the six letters; the number is below 10000 unless the unit is the
last one (EB); each scaling step is the division by 1024 rounded half up; the
text has at most 8 characters, so that with the trailing NUL at most 9 bytes
are written; for the size `2 ^ 64 - 1` the text is "16384 EB"; and the loop is
left after at most five passes. -/
theorem C25_ppsize_fits (size : Nat) (hsize : size < 2 ^ 64) :
    (ppsize_scale 5 size 0).1 ≤ 16384 ∧
    (ppsize_scale 5 size 0).2 ≤ 5 ∧
    ((ppsize_scale 5 size 0).2 < 5 → (ppsize_scale 5 size 0).1 < 10000) ∧
    (∀ x : Nat, ppsize_step x = (x + 512) / 1024) ∧
    (ppsize size).length + 1 ≤ 9 ∧
    ppsize (2 ^ 64 - 1) = ['1', '6', '3', '8', '4', ' ', 'E', 'B'] ∧
    (∀ more : Nat, ppsize_scale (5 + more) size 0 = ppsize_scale 5 size 0) := by
  obtain ⟨h1, h2, h3, h4⟩ := ppsize_scale_bounds 5 size 0 (by omega) (by omega)
    (by norm_num; omega)
  have hn : (ppsize_scale 5 size 0).1 ≤ 16384 := by
    by_cases h5 : (ppsize_scale 5 size 0).2 < 5
    · have := h4 h5; omega
    · have h5e : (ppsize_scale 5 size 0).2 = 5 := by omega
      rw [h5e] at h3
      norm_num at h3
      exact h3
  refine ⟨hn, h1, h4, ppsize_step_round, ?_, ?_, fun more => ppsize_scale_passes 5 more size 0
    (by omega) (by omega)⟩
  · unfold ppsize
    have hm : size % 2 ^ 64 = size := Nat.mod_eq_of_lt hsize
    have hu : units.length - 1 = 5 := rfl
    rw [hm, hu]
    have hlt : (ppsize_scale 5 size 0).1 % 2 ^ 32 < 10 ^ 5 := by
      have := Nat.mod_le (ppsize_scale 5 size 0).1 (2 ^ 32)
      omega
    have := decimal_digits_length 10 5 _ (by norm_num) hlt
    simp only [List.length_append, List.length_cons, List.length_nil]
    omega
  · decide

theorem C25_ppsize_fits_witness :
    ppsize 20000 = ['2', '0', ' ', 'M', 'B'] ∧ (ppsize 20000).length + 1 ≤ 9 :=
  ⟨by decide, (C25_ppsize_fits 20000 (by norm_num)).2.2.2.2.1⟩

/-! ## Properties of the target state of attach -/

theorem attach_disk_from_flags_without (ldev : drbd_backing_dev)
    (h : ldev.md.flags &&& MDF_CONSISTENT = 0 ∨ ldev.md.flags &&& MDF_WAS_UP_TO_DATE = 0) :
    attach_disk_from_flags ldev = D_INCONSISTENT ∨
    attach_disk_from_flags ldev = D_OUTDATED := by
  unfold attach_disk_from_flags drbd_md_test_flag
  by_cases hc : ldev.md.flags &&& MDF_CONSISTENT = 0
  · left
    simp [hc]
  · have hw : ldev.md.flags &&& MDF_WAS_UP_TO_DATE = 0 := h.resolve_left hc
    right
    simp [hc, hw]

theorem attach_new_state_without_flags (os : drbd_state) (ldev : drbd_backing_dev)
    (h : ldev.md.flags &&& MDF_CONSISTENT = 0 ∨ ldev.md.flags &&& MDF_WAS_UP_TO_DATE = 0) :
    (attach_new_state os ldev).disk = D_INCONSISTENT ∨
    (attach_new_state os ldev).disk = D_OUTDATED := by
  have hd := attach_disk_from_flags_without ldev h
  have hne : attach_disk_from_flags ldev ≠ D_CONSISTENT := by
    rcases hd with h1 | h1 <;> rw [h1] <;> decide
  unfold attach_new_state
  simp only []
  split_ifs with h1 h2 h3
  · exact absurd h2.1 hne
  · exact hd
  · exact absurd h3.1 hne
  · exact hd

theorem attach_target_without_flags (v : attach_volume)
    (h : v.mdev.ldev.md.flags &&& MDF_CONSISTENT = 0 ∨
      v.mdev.ldev.md.flags &&& MDF_WAS_UP_TO_DATE = 0) :
    (v.mdev.state.conn = C_CONNECTED →
      (attach_target v).2.disk = D_NEGOTIATING ∧
      ((attach_target v).1.new_state_tmp.disk = D_INCONSISTENT ∨
        (attach_target v).1.new_state_tmp.disk = D_OUTDATED)) ∧
    (v.mdev.state.conn ≠ C_CONNECTED →
      (attach_target v).2.disk = D_INCONSISTENT ∨ (attach_target v).2.disk = D_OUTDATED) := by
  have hn := attach_new_state_without_flags v.mdev.state v.mdev.ldev h
  unfold attach_target
  simp only []
  constructor
  · intro hc
    rw [if_pos hc]
    exact ⟨rfl, hn⟩
  · intro hc
    rw [if_neg hc]
    exact hn

theorem attach_target_not_up_to_date (v : attach_volume)
    (h : v.mdev.ldev.md.flags &&& MDF_CONSISTENT = 0 ∨
      v.mdev.ldev.md.flags &&& MDF_WAS_UP_TO_DATE = 0) :
    (attach_target v).2.disk ≠ D_UP_TO_DATE := by
  have ht := attach_target_without_flags v h
  by_cases hc : v.mdev.state.conn = C_CONNECTED
  · rw [(ht.1 hc).1]; decide
  · rcases ht.2 hc with h1 | h1 <;> rw [h1] <;> decide

theorem attach_fail_asks (retcode : drbd_ret_code) (ex : attach_exit) (v : attach_volume)
    (tr : List attach_event) (owned backing md lru : Bool)
    (htr : tr.any asks_up_to_date = false) :
    (attach_fail retcode ex v tr owned backing md lru).trace.any asks_up_to_date = false := by
  cases owned <;> cases backing <;> cases md <;> cases lru <;>
    simp [attach_fail, List.any_append, asks_up_to_date, htr]

theorem attach_force_diskless_asks (E : attach_env) (retcode : drbd_ret_code)
    (v : attach_volume) (tr : List attach_event) (dec owned : Bool)
    (htr : tr.any asks_up_to_date = false) :
    (attach_force_diskless E retcode v tr dec owned).trace.any asks_up_to_date = false := by
  unfold attach_force_diskless
  simp only []
  apply attach_fail_asks
  have hf : asks_up_to_date
      (attach_event.drbd_force_state { disk := D_MASK } { disk := D_FAILED }) = false := by
    decide
  cases dec <;> simp [List.any_append, htr, asks_up_to_date, D_FAILED, D_UP_TO_DATE]

theorem attach_commit_asks (retcode : drbd_ret_code) (v : attach_volume)
    (tr : List attach_event) (htr : tr.any asks_up_to_date = false) :
    (attach_commit retcode v tr).trace.any asks_up_to_date = false := by
  simp [attach_commit, List.any_append, asks_up_to_date, htr]

theorem attach_set_state_asks (E : attach_env) (retcode : drbd_ret_code) (v : attach_volume)
    (tr : List attach_event) (htr : tr.any asks_up_to_date = false)
    (h : v.mdev.ldev.md.flags &&& MDF_CONSISTENT = 0 ∨
      v.mdev.ldev.md.flags &&& MDF_WAS_UP_TO_DATE = 0) :
    (attach_set_state E retcode v tr).trace.any asks_up_to_date = false := by
  have hne := attach_target_not_up_to_date v h
  have htr2 : (tr ++ [attach_event._drbd_set_state (attach_target v).2 CS_VERBOSE
      (E._drbd_set_state (attach_target v).1 (attach_target v).2 CS_VERBOSE).1]).any
        asks_up_to_date = false := by
    simp [List.any_append, asks_up_to_date, htr, hne]
  unfold attach_set_state
  simp only []
  split_ifs
  · exact attach_force_diskless_asks _ _ _ _ _ _ htr2
  · exact attach_commit_asks _ _ _ htr2

theorem drbd_md_set_sector_offsets_flags (L : Layout) (bdev : drbd_backing_dev) :
    (drbd_md_set_sector_offsets L bdev).md.flags = bdev.md.flags := by
  unfold drbd_md_set_sector_offsets
  split_ifs <;> rfl

theorem drbd_determin_dev_size_flags (L : Layout) (mdev : drbd_conf) (flags : Nat)
    (a b : Bool) :
    (drbd_determin_dev_size L mdev flags a b).mdev.ldev.md.flags = mdev.ldev.md.flags := by
  have ho := drbd_md_set_sector_offsets_flags L mdev.ldev
  have hS : drbd_new_dev_size { mdev with ldev := drbd_md_set_sector_offsets L mdev.ldev }
      (drbd_md_set_sector_offsets L mdev.ldev) (decide (flags &&& DDSF_FORCED ≠ 0)) =
      drbd_new_dev_size mdev (drbd_md_set_sector_offsets L mdev.ldev)
        (decide (flags &&& DDSF_FORCED ≠ 0)) :=
    drbd_new_dev_size_congr _ _ _ _ rfl rfl
  unfold drbd_determin_dev_size
  simp only [hS]
  generalize drbd_new_dev_size mdev (drbd_md_set_sector_offsets L mdev.ldev)
    (decide (flags &&& DDSF_FORCED ≠ 0)) = S
  generalize decide (mdev.this_capacity ≠ S ∨ mdev.bm_capacity ≠ S) = r
  cases r <;> cases a <;> cases b <;> simp [drbd_bm_resize, ho] <;> split_ifs <;> simp [ho]

theorem attach_take_over_ldev (E : attach_env) (v : attach_volume) (nbc : drbd_backing_dev) :
    (attach_take_over E v nbc).mdev.ldev = nbc := by
  unfold attach_take_over
  simp only []
  split_ifs <;> rfl

theorem attach_sized_mdev (v : attach_volume) (dd : dds_result) :
    (attach_sized v dd).mdev = dd.mdev := by
  unfold attach_sized
  simp only []
  split_ifs <;> rfl

theorem attach_install_asks (E : attach_env) (retcode : drbd_ret_code) (v : attach_volume)
    (nbc : drbd_backing_dev) (tr : List attach_event)
    (htr : tr.any asks_up_to_date = false)
    (h : nbc.md.flags &&& MDF_CONSISTENT = 0 ∨ nbc.md.flags &&& MDF_WAS_UP_TO_DATE = 0) :
    (attach_install E retcode v nbc tr).trace.any asks_up_to_date = false := by
  have hfl : (attach_sized (attach_take_over E v nbc)
      (drbd_determin_dev_size E.L (attach_take_over E v nbc).mdev 0 E.bm_resize_err
        E.size_bitmap_io_err)).mdev.ldev.md.flags = nbc.md.flags := by
    rw [attach_sized_mdev, drbd_determin_dev_size_flags, attach_take_over_ldev]
  unfold attach_install
  simp only []
  split_ifs
  all_goals first
    | (apply attach_force_diskless_asks
       simp [List.any_append, asks_up_to_date, htr])
    | (apply attach_set_state_asks
       · simp [List.any_append, asks_up_to_date, htr]
       · rw [hfl]; exact h)

theorem attach_request_asks (E : attach_env) (v : attach_volume) (nbc : drbd_backing_dev)
    (tr : List attach_event) (htr : tr.any asks_up_to_date = false)
    (h : (E.drbd_md_read (drbd_md_set_sector_offsets E.L nbc)).2.md.flags
          &&& MDF_CONSISTENT = 0 ∨
        (E.drbd_md_read (drbd_md_set_sector_offsets E.L nbc)).2.md.flags
          &&& MDF_WAS_UP_TO_DATE = 0) :
    (attach_request E v nbc tr).trace.any asks_up_to_date = false := by
  unfold attach_request
  simp only []
  split_ifs
  all_goals first
    | (apply attach_fail_asks
       simp [List.any_append, asks_up_to_date, htr, D_ATTACHING, D_FAILED, D_UP_TO_DATE])
    | (apply attach_install_asks
       · simp [List.any_append, asks_up_to_date, htr, D_ATTACHING, D_FAILED, D_UP_TO_DATE]
       · exact h)

/-- C28: when the persisted flags lack MDF_CONSISTENT or lack MDF_WAS_UP_TO_DATE,
the state that `drbd_adm_attach` computes from them has the disk state
Inconsistent or Outdated, whatever the current state (the peer disk state
included), the flag MDF_PEER_OUT_DATED and the fencing policy are; the target
of the state change is that state, or, for a Connected volume, the current
state with the disk Negotiating while the computed state is kept in
`new_state_tmp`; and no request of a run of `drbd_adm_attach` whose meta data
read yields such flags asks for the disk state UpToDate. -/
theorem C28_no_up_to_date_without_flags (flags : Nat)
    (hflags : flags &&& MDF_CONSISTENT = 0 ∨ flags &&& MDF_WAS_UP_TO_DATE = 0) :
    (∀ (os : drbd_state) (ldev : drbd_backing_dev), ldev.md.flags = flags →
      (attach_new_state os ldev).disk = D_INCONSISTENT ∨
      (attach_new_state os ldev).disk = D_OUTDATED) ∧
    (∀ v : attach_volume, v.mdev.ldev.md.flags = flags →
      (v.mdev.state.conn = C_CONNECTED →
        (attach_target v).2.disk = D_NEGOTIATING ∧
        ((attach_target v).1.new_state_tmp.disk = D_INCONSISTENT ∨
          (attach_target v).1.new_state_tmp.disk = D_OUTDATED)) ∧
      (v.mdev.state.conn ≠ C_CONNECTED →
        (attach_target v).2.disk = D_INCONSISTENT ∨ (attach_target v).2.disk = D_OUTDATED)) ∧
    (∀ (E : attach_env) (v : attach_volume),
      (E.drbd_md_read (drbd_md_set_sector_offsets E.L
        (drbd_md_set_sector_offsets E.L E.nbc))).2.md.flags = flags →
      (drbd_adm_attach E v).trace.any asks_up_to_date = false) := by
  refine ⟨?_, ?_, ?_⟩
  · intro os ldev hl
    exact attach_new_state_without_flags os ldev (by rw [hl]; exact hflags)
  · intro v hl
    exact attach_target_without_flags v (by rw [hl]; exact hflags)
  · intro E v hl
    unfold drbd_adm_attach
    split_ifs
    · rfl
    · rfl
    · cases ho : attach_open E v with
      | some p =>
        obtain ⟨rc, a, b, c⟩ := p
        simp only []
        exact attach_fail_asks _ _ _ _ _ _ _ _ rfl
      | none =>
        simp only []
        cases hs : attach_sizes E v (drbd_md_set_sector_offsets E.L E.nbc) with
        | some rc =>
          simp only []
          exact attach_fail_asks _ _ _ _ _ _ _ _ rfl
        | none =>
          simp only []
          exact attach_request_asks _ _ _ _ rfl (by rw [hl]; exact hflags)

theorem C28_no_up_to_date_without_flags_witness :
    (env_attach_md_outdated.drbd_md_read (drbd_md_set_sector_offsets drbd_layout
      (drbd_md_set_sector_offsets drbd_layout nbc_internal))).2.md.flags
        = MDF_CONSISTENT + MDF_PEER_OUT_DATED ∧
    (drbd_adm_attach env_attach_md_outdated vol_diskless_secondary).trace.any
      asks_up_to_date = false ∧
    last_state_change (drbd_adm_attach env_attach_md_outdated vol_diskless_secondary).trace
      = some (attach_event._drbd_set_state
          { role := R_SECONDARY, disk := D_OUTDATED, pdsk := D_OUTDATED } CS_VERBOSE
          SS_SUCCESS) :=
  ⟨by decide,
   (C28_no_up_to_date_without_flags (MDF_CONSISTENT + MDF_PEER_OUT_DATED) (by decide)).2.2
     env_attach_md_outdated vol_diskless_secondary (by decide),
   by decide⟩

/-! ## Properties of the data generation check of attach -/

/-- Two numbers agree after their lowest bit is cleared exactly when they agree
in every bit above it. -/
theorem clear_low_bit_ne_iff (x y : Nat) :
    x / 2 * 2 ≠ y / 2 * 2 ↔ ∃ i, 1 ≤ i ∧ x.testBit i ≠ y.testBit i := by
  constructor
  · intro h
    by_contra hno
    push_neg at hno
    apply h
    have : x / 2 = y / 2 := by
      apply Nat.eq_of_testBit_eq
      intro i
      rw [← Nat.testBit_succ, ← Nat.testBit_succ]
      exact hno (i + 1) (by omega)
    rw [this]
  · rintro ⟨i, hi, hne⟩ heq
    apply hne
    obtain ⟨j, rfl⟩ : ∃ j, i = j + 1 := ⟨i - 1, by omega⟩
    have : x / 2 = y / 2 := by omega
    rw [Nat.testBit_succ, Nat.testBit_succ, this]

theorem attach_force_diskless_reply (E : attach_env) (retcode : drbd_ret_code)
    (v : attach_volume) (tr : List attach_event) (dec owned : Bool) :
    (attach_force_diskless E retcode v tr dec owned).reply = some retcode := rfl

theorem attach_set_state_reply (E : attach_env) (retcode : drbd_ret_code) (v : attach_volume)
    (tr : List attach_event) : (attach_set_state E retcode v tr).reply = some retcode := by
  unfold attach_set_state
  simp only []
  split_ifs <;> rfl

theorem attach_install_reply (E : attach_env) (v : attach_volume) (nbc : drbd_backing_dev)
    (tr : List attach_event) :
    (attach_install E NO_ERROR v nbc tr).reply ≠ some ERR_DATA_NOT_CURRENT := by
  unfold attach_install
  simp only []
  split_ifs
  all_goals first
    | (rw [attach_force_diskless_reply]; simp)
    | (rw [attach_set_state_reply]; simp)

/-- The reply of the part of `drbd_adm_attach` after the request for the disk
state Attaching, when the request was accepted, the disk state is Attaching or
higher, the bitmap exists or can be initialised and the meta data is read. -/
theorem attach_request_data_not_current (E : attach_env) (v : attach_volume)
    (nbc : drbd_backing_dev) (tr : List attach_event)
    (hrq : SS_SUCCESS ≤
      (E._drbd_request_state v { disk := D_MASK } { disk := D_ATTACHING } CS_VERBOSE).1)
    (hldev : get_ldev_if_state (volume_with_state v
      (E._drbd_request_state v { disk := D_MASK } { disk := D_ATTACHING } CS_VERBOSE).2).mdev
        D_ATTACHING = true)
    (hbm : v.bitmap = true ∨ E.bm_init_err = false)
    (hrd : (E.drbd_md_read (drbd_md_set_sector_offsets E.L nbc)).1 = NO_ERROR) :
    ((attach_request E v nbc tr).reply = some ERR_DATA_NOT_CURRENT ↔
      (E._drbd_request_state v { disk := D_MASK } { disk := D_ATTACHING } CS_VERBOSE).2.conn
        < C_CONNECTED ∧
      (E._drbd_request_state v { disk := D_MASK } { disk := D_ATTACHING } CS_VERBOSE).2.role
        = R_PRIMARY ∧
      v.ed_uuid / 2 * 2 ≠
        (E.drbd_md_read (drbd_md_set_sector_offsets E.L nbc)).2.md.uuid_current / 2 * 2) := by
  have hrq2 : ¬ (E._drbd_request_state v { disk := D_MASK } { disk := D_ATTACHING }
      CS_VERBOSE).1 < SS_SUCCESS := not_lt.mpr hrq
  have hbm2 : ¬ ((volume_with_state v (E._drbd_request_state v { disk := D_MASK }
      { disk := D_ATTACHING } CS_VERBOSE).2).bitmap = false ∧ E.bm_init_err = true) := by
    rintro ⟨h1, h2⟩
    have h1b : v.bitmap = false := h1
    rcases hbm with h | h
    · rw [h] at h1b; cases h1b
    · rw [h] at h2; cases h2
  have hld2 : ¬ get_ldev_if_state (volume_with_state v
      (E._drbd_request_state v { disk := D_MASK } { disk := D_ATTACHING } CS_VERBOSE).2).mdev
        D_ATTACHING = false := by
    rw [hldev]; simp
  have hrd2 : ¬ (E.drbd_md_read (drbd_md_set_sector_offsets E.L nbc)).1 ≠ NO_ERROR :=
    not_not.mpr hrd
  unfold attach_request
  simp only []
  rw [if_neg hrq2, if_neg hld2, if_neg hbm2, if_neg hrd2]
  split_ifs with hc
  all_goals first
    | (constructor
       · intro _; exact hc
       · intro _; rfl)
    | (constructor
       · intro h
         rw [attach_force_diskless_reply] at h
         simp at h
       · intro h; exact absurd h hc)
    | (constructor
       · intro h
         rw [hrd] at h
         exact absurd h (attach_install_reply _ _ _ _)
       · intro h; exact absurd h hc)

/-- C29: for an attach request that passes the validations, whose request for
the disk state Attaching the state engine accepts and leaves at Attaching or
higher, whose bitmap exists or can be initialised, and whose meta data is read
without error, `drbd_adm_attach` answers ERR_DATA_NOT_CURRENT exactly when the
volume (in the state the request for Attaching left) is Primary, its
connection state is below Connected, and the exposed-data UUID and the
persisted current UUID differ in a bit other than bit 0; in that case the
handler forces the disk state to Failed and installs no backing device.  The
lowest bit takes no part in the comparison. -/
theorem C29_data_not_current (E : attach_env) (v : attach_volume)
    (hskb : E.prep.reply_skb = true) (hret : E.prep.retcode = NO_ERROR)
    (hopen : attach_open E v = none)
    (hsizes : attach_sizes E v (drbd_md_set_sector_offsets E.L E.nbc) = none)
    (hrq : SS_SUCCESS ≤
      (E._drbd_request_state v { disk := D_MASK } { disk := D_ATTACHING } CS_VERBOSE).1)
    (hldev : D_ATTACHING ≤
      (E._drbd_request_state v { disk := D_MASK } { disk := D_ATTACHING } CS_VERBOSE).2.disk)
    (hbm : v.bitmap = true ∨ E.bm_init_err = false)
    (hrd : (E.drbd_md_read (drbd_md_set_sector_offsets E.L
      (drbd_md_set_sector_offsets E.L E.nbc))).1 = NO_ERROR) :
    ((drbd_adm_attach E v).reply = some ERR_DATA_NOT_CURRENT ↔
      (E._drbd_request_state v { disk := D_MASK } { disk := D_ATTACHING } CS_VERBOSE).2.role
        = R_PRIMARY ∧
      (E._drbd_request_state v { disk := D_MASK } { disk := D_ATTACHING } CS_VERBOSE).2.conn
        < C_CONNECTED ∧
      ∃ i, 1 ≤ i ∧ v.ed_uuid.testBit i ≠
        (E.drbd_md_read (drbd_md_set_sector_offsets E.L
          (drbd_md_set_sector_offsets E.L E.nbc))).2.md.uuid_current.testBit i) ∧
    ((drbd_adm_attach E v).reply = some ERR_DATA_NOT_CURRENT →
      forced_failed (drbd_adm_attach E v) ∧ (drbd_adm_attach E v).mdev.has_ldev = v.has_ldev) := by
  have hrun : drbd_adm_attach E v = attach_request E v (drbd_md_set_sector_offsets E.L E.nbc)
      [attach_event.conn_reconfig_start] := by
    unfold drbd_adm_attach
    simp [hskb, hret, hopen, hsizes]
  have hl : get_ldev_if_state (volume_with_state v
      (E._drbd_request_state v { disk := D_MASK } { disk := D_ATTACHING } CS_VERBOSE).2).mdev
        D_ATTACHING = true := by
    simpa [get_ldev_if_state, volume_with_state] using hldev
  have hiff := attach_request_data_not_current E v (drbd_md_set_sector_offsets E.L E.nbc)
    [attach_event.conn_reconfig_start] hrq hl hbm hrd
  rw [hrun]
  refine ⟨?_, ?_⟩
  · rw [hiff, clear_low_bit_ne_iff]
    constructor
    · rintro ⟨h1, h2, h3⟩; exact ⟨h2, h1, h3⟩
    · rintro ⟨h1, h2, h3⟩; exact ⟨h2, h1, h3⟩
  · intro hreply
    have hcond := hiff.mp hreply
    have hrq2 : ¬ (E._drbd_request_state v { disk := D_MASK } { disk := D_ATTACHING }
        CS_VERBOSE).1 < SS_SUCCESS := not_lt.mpr hrq
    have hbm2 : ¬ ((volume_with_state v (E._drbd_request_state v { disk := D_MASK }
        { disk := D_ATTACHING } CS_VERBOSE).2).bitmap = false ∧ E.bm_init_err = true) := by
      rintro ⟨h1, h2⟩
      have h1b : v.bitmap = false := h1
      rcases hbm with h | h
      · rw [h] at h1b; cases h1b
      · rw [h] at h2; cases h2
    have hld2 : ¬ get_ldev_if_state (volume_with_state v
        (E._drbd_request_state v { disk := D_MASK } { disk := D_ATTACHING } CS_VERBOSE).2).mdev
          D_ATTACHING = false := by
      rw [hl]; simp
    have hrd2 : ¬ (E.drbd_md_read (drbd_md_set_sector_offsets E.L
        (drbd_md_set_sector_offsets E.L E.nbc))).1 ≠ NO_ERROR := not_not.mpr hrd
    have hc : (volume_with_state v (E._drbd_request_state v { disk := D_MASK }
          { disk := D_ATTACHING } CS_VERBOSE).2).mdev.state.conn < C_CONNECTED ∧
        (volume_with_state v (E._drbd_request_state v { disk := D_MASK }
          { disk := D_ATTACHING } CS_VERBOSE).2).mdev.state.role = R_PRIMARY ∧
        (volume_with_state v (E._drbd_request_state v { disk := D_MASK }
          { disk := D_ATTACHING } CS_VERBOSE).2).ed_uuid / 2 * 2 ≠
          (E.drbd_md_read (drbd_md_set_sector_offsets E.L
            (drbd_md_set_sector_offsets E.L E.nbc))).2.md.uuid_current / 2 * 2 := hcond
    unfold attach_request
    simp only []
    rw [if_neg hrq2, if_neg hld2, if_neg hbm2, if_neg hrd2, if_pos hc]
    exact ⟨attach_force_diskless_forced _ _ _ _ _ _, rfl⟩

theorem C29_data_not_current_witness :
    (drbd_adm_attach env_attach_uuid_8 vol_primary_exposing_12).reply
      = some ERR_DATA_NOT_CURRENT ∧
    (drbd_adm_attach env_attach_uuid_8 vol_primary_exposing_9).reply = some NO_ERROR ∧
    ((drbd_adm_attach env_attach_uuid_8 vol_primary_exposing_9).reply
        = some ERR_DATA_NOT_CURRENT ↔
      (env_attach_uuid_8._drbd_request_state vol_primary_exposing_9 { disk := D_MASK }
        { disk := D_ATTACHING } CS_VERBOSE).2.role = R_PRIMARY ∧
      (env_attach_uuid_8._drbd_request_state vol_primary_exposing_9 { disk := D_MASK }
        { disk := D_ATTACHING } CS_VERBOSE).2.conn < C_CONNECTED ∧
      ∃ i, 1 ≤ i ∧ vol_primary_exposing_9.ed_uuid.testBit i ≠
        (env_attach_uuid_8.drbd_md_read (drbd_md_set_sector_offsets env_attach_uuid_8.L
          (drbd_md_set_sector_offsets env_attach_uuid_8.L
            env_attach_uuid_8.nbc))).2.md.uuid_current.testBit i) :=
  ⟨by decide, by decide,
   (C29_data_not_current env_attach_uuid_8 vol_primary_exposing_9 rfl rfl (by decide)
     (by decide) (by decide) (by decide) (Or.inr rfl) (by decide)).1⟩

/-! ## Properties of the unforced promotion -/

theorem step_events_append (a b : List role_step) :
    step_events (a ++ b) = step_events a ++ step_events b := by
  induction a with
  | nil => rfl
  | cons x rest ih => cases x <;> simp [step_events, ih]

theorem step_events_map_event (tr : List Event) :
    step_events (tr.map role_step.event) = tr := by
  induction tr with
  | nil => rfl
  | cons x rest ih => simp [step_events, ih]

theorem steps_guarded_fence (K : Kernel σ) (s : σ) (ok : Bool) (rest : List role_step) :
    steps_guarded ok ((conn_try_outdate_peer K s).trace.map role_step.event ++
      [role_step.fenced (conn_try_outdate_peer K s).ret] ++ rest) =
      steps_guarded (ok || (conn_try_outdate_peer K s).ret) rest := by
  rcases conn_try_outdate_peer_trace_cases K s with h | h | ⟨m, v, h⟩ | ⟨m, v, h⟩ <;>
    rw [h] <;> rfl

theorem steps_guarded_request (ok : Bool) (mask val : drbd_state) (flags : Nat) (rv : Int)
    (rest : List role_step) (hm : mask.pdsk = 0) (hv : val.pdsk = 0)
    (hd : (mask.disk = 0 ∧ val.disk = 0) ∨
      (mask.disk = D_MASK ∧ val.disk = D_UP_TO_DATE ∧ ok = true)) :
    steps_guarded ok (role_step.event (Event._drbd_request_state mask val flags rv) :: rest) =
      steps_guarded ok rest := by
  simp only [steps_guarded]
  rw [decide_eq_true ⟨hm, hv, hd⟩]
  rfl

set_option maxHeartbeats 1000000 in
/-- The actions among the steps of an unforced promotion are the actions of the
retry loop, and the steps obey the rule. -/
theorem set_role_steps_unforced (K : Kernel σ) :
    ∀ (n try_ : Nat) (mask val : drbd_state) (forced : Bool) (rv : Int) (s : σ) (ok : Bool),
      max_tries - try_ ≤ n →
      step_events (set_role_steps K false try_ mask val s) =
        (set_role_loop K false try_ mask val forced rv s).trace ∧
      (mask.pdsk = 0 → val.pdsk = 0 →
        ((mask.disk = 0 ∧ val.disk = 0) ∨
          (mask.disk = D_MASK ∧ val.disk = D_UP_TO_DATE ∧ ok = true)) →
        steps_guarded ok (set_role_steps K false try_ mask val s) = true) := by
  intro n
  induction n with
  | zero =>
    intro try_ mask val forced rv s ok hn
    have ht : ¬ try_ < max_tries := by omega
    rw [set_role_steps, set_role_loop]
    simp only [ht, if_false]
    exact ⟨rfl, fun _ _ _ => rfl⟩
  | succ n ih =>
    intro try_ mask val forced rv s ok hn
    by_cases ht : try_ < max_tries
    · have ihA := fun t m v fo r s h => (ih t m v fo r s false h).1
      have ihB := fun t m v s ok h => (ih t m v false 0 s ok h).2
      clear ih
      rw [set_role_steps, set_role_loop]
      generalize K._drbd_request_state s mask val CS_WAIT_COMPLETE = q
      simp only [ht, if_true, Bool.false_eq_true, false_and, and_false, if_false]
      have hfen := fun ok rest => steps_guarded_fence K q.2 ok rest
      generalize conn_try_outdate_peer K q.2 = f at hfen ⊢
      generalize K._drbd_request_state q.2 mask val (CS_VERBOSE + CS_WAIT_COMPLETE) = q2
      have hnil : steps_guarded ok [] = true := rfl
      have hto : ∀ rest, steps_guarded ok (role_step.event Event.schedule_timeout :: rest) =
          steps_guarded ok rest := fun _ => rfl
      split_ifs
      all_goals refine ⟨?_, fun hm hv hd => ?_⟩
      all_goals first
        | (simp only [role_loop_result.after, step_events, step_events_append,
            step_events_map_event, List.cons_append, List.nil_append, List.append_assoc,
            List.singleton_append, List.append_nil] <;>
           rw [← ihA] <;> first
            | omega
            | simp [step_events, step_events_append, step_events_map_event])
        | (simp only [List.cons_append, List.nil_append, ← List.append_assoc,
            steps_guarded_request ok mask val _ _ _ hm hv hd, hfen, hto, hnil] <;>
           apply ihB <;> first
            | omega
            | exact hm
            | exact hv
            | exact hd
            | exact Or.inr ⟨rfl, rfl, by simp [*]⟩
            | (rcases hd with h | ⟨a, b, c⟩
               · exact Or.inl h
               · exact Or.inr ⟨a, b, by simp [c]⟩))
    · rw [set_role_steps, set_role_loop]
      simp only [ht, if_false]
      exact ⟨rfl, fun _ _ _ => rfl⟩

theorem steps_guarded_split :
    ∀ (pre : List role_step) (ok : Bool) (post : List role_step) (mask val : drbd_state)
      (flags : Nat) (rv : Int),
      steps_guarded ok (pre ++
        role_step.event (Event._drbd_request_state mask val flags rv) :: post) = true →
      mask.pdsk = 0 ∧ val.pdsk = 0 ∧
      ((mask.disk = 0 ∧ val.disk = 0) ∨
        (mask.disk = D_MASK ∧ val.disk = D_UP_TO_DATE ∧
          (ok = true ∨ role_step.fenced true ∈ pre))) := by
  intro pre
  induction pre with
  | nil =>
    intro ok post mask val flags rv h
    simp only [List.nil_append, steps_guarded, Bool.and_eq_true, decide_eq_true_eq] at h
    obtain ⟨⟨h1, h2, h3⟩, _⟩ := h
    refine ⟨h1, h2, ?_⟩
    rcases h3 with h3 | ⟨a, b, c⟩
    · exact Or.inl h3
    · exact Or.inr ⟨a, b, Or.inl c⟩
  | cons x pre ih =>
    intro ok post mask val flags rv h
    have hstep : ∃ ok2, steps_guarded ok2 (pre ++
        role_step.event (Event._drbd_request_state mask val flags rv) :: post) = true ∧
        (ok2 = true → ok = true ∨ role_step.fenced true ∈ x :: pre) := by
      cases x with
      | fenced b =>
        refine ⟨ok || b, h, ?_⟩
        intro hb
        cases ok
        · right
          have : b = true := by simpa using hb
          rw [this]
          exact List.mem_cons_self _ _
        · left; rfl
      | event e =>
        cases e
        case _drbd_request_state m v fl r =>
          simp only [List.cons_append, steps_guarded, Bool.and_eq_true] at h
          exact ⟨ok, h.2, fun hb => Or.inl hb⟩
        all_goals exact ⟨ok, h, fun hb => Or.inl hb⟩
    obtain ⟨ok2, hg, hok⟩ := hstep
    obtain ⟨h1, h2, h3⟩ := ih ok2 post mask val flags rv hg
    refine ⟨h1, h2, ?_⟩
    rcases h3 with h3 | ⟨a, b, c⟩
    · exact Or.inl h3
    · refine Or.inr ⟨a, b, ?_⟩
      rcases c with c | c
      · exact hok c
      · exact Or.inr (List.mem_cons_of_mem _ c)

theorem requests_step_events_mem :
    ∀ (l : List role_step) (mask val : drbd_state),
      (mask, val) ∈ requests (step_events l) →
      ∃ pre post flags rv,
        l = pre ++ role_step.event (Event._drbd_request_state mask val flags rv) :: post := by
  intro l
  induction l with
  | nil => intro mask val h; simp [step_events, requests] at h
  | cons x rest ih =>
    intro mask val h
    have hrest : (mask, val) ∈ requests (step_events rest) →
        ∃ pre post flags rv, x :: rest =
          pre ++ role_step.event (Event._drbd_request_state mask val flags rv) :: post := by
      intro hr
      obtain ⟨pre, post, fl, r, he⟩ := ih mask val hr
      exact ⟨x :: pre, post, fl, r, by rw [he]; rfl⟩
    cases x with
    | fenced b => exact hrest h
    | event e =>
      cases e
      case _drbd_request_state m v fl r =>
        simp only [step_events, requests, List.mem_cons] at h
        rcases h with h | h
        · have hm : mask = m := congrArg Prod.fst h
          have hv : val = v := congrArg Prod.snd h
          subst hm; subst hv
          exact ⟨[], rest, fl, r, rfl⟩
        · exact hrest h
      all_goals exact hrest h

theorem requests_append (a b : List Event) :
    requests (a ++ b) = requests a ++ requests b := by
  induction a with
  | nil => rfl
  | cons e rest ih => cases e <;> simp [requests, ih]

theorem set_role_effects_no_requests (K : Kernel σ) (s : σ) (new_role : Nat)
    (forced : Bool) : requests (set_role_effects K s new_role forced) = [] := by
  unfold set_role_effects
  split_ifs <;> rfl

theorem drbd_set_role_requests (K : Kernel σ) (s : σ) (new_role : Nat) (force : Bool) :
    requests (drbd_set_role K s new_role force).trace =
      requests (set_role_loop K force 0 { role := R_MASK } { role := new_role } false
        SS_UNKNOWN_ERROR s).trace := by
  have hp : requests (if new_role = R_PRIMARY then [Event.request_ping] else []) = [] := by
    split_ifs <;> rfl
  unfold drbd_set_role
  simp only []
  generalize (if new_role = R_PRIMARY then [Event.request_ping] else []) = ping at hp ⊢
  split_ifs <;> dsimp only <;>
    simp only [requests_append, hp, List.nil_append, set_role_effects_no_requests,
      List.append_nil]

/-- C27: in `drbd_set_role` called with force = 0, whatever the state engine,
the helper and the fencing coordinator answer, every request that
`drbd_set_role` itself makes to the state engine (`_drbd_request_state`) leaves
the peer disk unconstrained, and constrains the local disk, if at all, with the
mask D_MASK to UpToDate, an earlier call of `conn_try_outdate_peer` of the same
invocation having returned true.  The steps are the actions of the retry loop
with the value each call of `conn_try_outdate_peer` returned. -/
theorem C27_unforced_promotion_needs_fencing (K : Kernel σ) (s : σ) (new_role : Nat) :
    step_events (set_role_steps K false 0 { role := R_MASK } { role := new_role } s) =
      (set_role_loop K false 0 { role := R_MASK } { role := new_role } false
        SS_UNKNOWN_ERROR s).trace ∧
    requests (drbd_set_role K s new_role false).trace =
      requests (step_events
        (set_role_steps K false 0 { role := R_MASK } { role := new_role } s)) ∧
    (∀ (pre post : List role_step) (mask val : drbd_state) (flags : Nat) (rv : Int),
      set_role_steps K false 0 { role := R_MASK } { role := new_role } s =
        pre ++ role_step.event (Event._drbd_request_state mask val flags rv) :: post →
      mask.pdsk = 0 ∧ val.pdsk = 0 ∧
      ((mask.disk = 0 ∧ val.disk = 0) ∨
        (mask.disk = D_MASK ∧ val.disk = D_UP_TO_DATE ∧ role_step.fenced true ∈ pre))) ∧
    (∀ mask val : drbd_state, (mask, val) ∈ requests (drbd_set_role K s new_role false).trace →
      mask.pdsk = 0 ∧ val.pdsk = 0 ∧
      ((mask.disk = 0 ∧ val.disk = 0) ∨ (mask.disk = D_MASK ∧ val.disk = D_UP_TO_DATE))) := by
  have hAB := set_role_steps_unforced K max_tries 0 { role := R_MASK } { role := new_role }
    false SS_UNKNOWN_ERROR s false (by omega)
  have hA := hAB.1
  have hB := hAB.2 rfl rfl (Or.inl ⟨rfl, rfl⟩)
  have hC : ∀ (pre post : List role_step) (mask val : drbd_state) (flags : Nat) (rv : Int),
      set_role_steps K false 0 { role := R_MASK } { role := new_role } s =
        pre ++ role_step.event (Event._drbd_request_state mask val flags rv) :: post →
      mask.pdsk = 0 ∧ val.pdsk = 0 ∧
      ((mask.disk = 0 ∧ val.disk = 0) ∨
        (mask.disk = D_MASK ∧ val.disk = D_UP_TO_DATE ∧ role_step.fenced true ∈ pre)) := by
    intro pre post mask val flags rv he
    rw [he] at hB
    obtain ⟨h1, h2, h3⟩ := steps_guarded_split pre false post mask val flags rv hB
    refine ⟨h1, h2, ?_⟩
    rcases h3 with h3 | ⟨a, b, c⟩
    · exact Or.inl h3
    · exact Or.inr ⟨a, b, c.resolve_left (by simp)⟩
  refine ⟨hA, ?_, hC, ?_⟩
  · rw [drbd_set_role_requests, hA]
  · intro mask val hmem
    rw [drbd_set_role_requests, ← hA] at hmem
    obtain ⟨pre, post, fl, r, he⟩ := requests_step_events_mem _ mask val hmem
    obtain ⟨h1, h2, h3⟩ := hC pre post mask val fl r he
    refine ⟨h1, h2, ?_⟩
    rcases h3 with h3 | ⟨a, b, _⟩
    · exact Or.inl h3
    · exact Or.inr ⟨a, b⟩

/-- Witness of C27 in the world `w_consistent_dont_care`, where the fencing
coordinator returns true and the second request asks for UpToDate. -/
theorem C27_unforced_promotion_needs_fencing_witness :
    ∀ mask val : drbd_state,
      (mask, val) ∈ requests (drbd_set_role scripted w_consistent_dont_care R_PRIMARY
        false).trace →
      mask.pdsk = 0 ∧ val.pdsk = 0 ∧
      ((mask.disk = 0 ∧ val.disk = 0) ∨ (mask.disk = D_MASK ∧ val.disk = D_UP_TO_DATE)) :=
  (C27_unforced_promotion_needs_fencing scripted w_consistent_dont_care R_PRIMARY).2.2.2

/-! ## Properties of the fencing step of the promotion -/

/-- In `drbd_set_role(mdev, R_PRIMARY, 0)`, when the first request, for the role,
is rejected with SS_NO_UP_TO_DATE_DISK while the local disk is exactly
Consistent (the request has no peer disk in its mask), `conn_try_outdate_peer`
is called on the world the request left, and the next request asks for role
Primary, and for local disk UpToDate if and only if that call returned true.
With policy DontCare and connection state below C_WF_REPORT_PARAMS the call
runs no helper and makes no request, the second request asks for Primary and
UpToDate, and if the engine accepts it `drbd_set_role` returns that acceptance. -/
theorem drbd_set_role_first_fence (K : Kernel σ) (s : σ)
    (h1 : (primary_request K s).1 = SS_NO_UP_TO_DATE_DISK)
    (hd : (K.mdev_state (primary_request K s).2).disk = D_CONSISTENT) :
    (∃ mask val rv2 rest,
      (drbd_set_role K s R_PRIMARY false).trace =
        Event.request_ping ::
        Event._drbd_request_state { role := R_MASK } { role := R_PRIMARY } CS_WAIT_COMPLETE
          SS_NO_UP_TO_DATE_DISK ::
        ((conn_try_outdate_peer K (primary_request K s).2).trace ++
          Event._drbd_request_state mask val CS_WAIT_COMPLETE rv2 :: rest) ∧
      mask.role = R_MASK ∧ val.role = R_PRIMARY ∧ mask.pdsk = 0 ∧
      rv2 = (K._drbd_request_state (conn_try_outdate_peer K (primary_request K s).2).state
        mask val CS_WAIT_COMPLETE).1 ∧
      ((mask.disk = D_MASK ∧ val.disk = D_UP_TO_DATE) ↔
        (conn_try_outdate_peer K (primary_request K s).2).ret = true)) ∧
    (K.cstate (primary_request K s).2 < C_WF_REPORT_PARAMS →
      highest_fencing_policy (K.volumes (primary_request K s).2) = FP_DONT_CARE →
      (conn_try_outdate_peer K (primary_request K s).2).ret = true ∧
      (conn_try_outdate_peer K (primary_request K s).2).trace = [] ∧
      (∃ rest, (drbd_set_role K s R_PRIMARY false).trace =
        Event.request_ping ::
        Event._drbd_request_state { role := R_MASK } { role := R_PRIMARY } CS_WAIT_COMPLETE
          SS_NO_UP_TO_DATE_DISK ::
        Event._drbd_request_state { role := R_MASK, disk := D_MASK }
          { role := R_PRIMARY, disk := D_UP_TO_DATE } CS_WAIT_COMPLETE
          (primary_up_to_date_request K (primary_request K s).2).1 :: rest) ∧
      (SS_SUCCESS ≤ (primary_up_to_date_request K (primary_request K s).2).1 →
        (drbd_set_role K s R_PRIMARY false).ret =
          (primary_up_to_date_request K (primary_request K s).2).1)) := by
  have hstep := set_role_loop_fence_step K s 0 { role := R_MASK } { role := R_PRIMARY } false
    SS_UNKNOWN_ERROR (by decide) rfl h1 hd
  have htrace : ∀ l : role_loop_result σ, ∃ tail,
      (if l.goto_out = true ∨ l.rv < SS_SUCCESS then
        ({ ret := l.rv, state := l.state, trace := [Event.request_ping] ++ l.trace } :
          Outcome σ Int)
      else
        { ret := l.rv, state := l.state
          trace := [Event.request_ping] ++ l.trace ++
            set_role_effects K l.state R_PRIMARY l.forced }).trace =
        Event.request_ping :: (l.trace ++ tail) := by
    intro l
    split_ifs
    · exact ⟨[], by simp⟩
    · exact ⟨set_role_effects K l.state R_PRIMARY l.forced, by simp⟩
  have hret : ∀ l : role_loop_result σ,
      (if l.goto_out = true ∨ l.rv < SS_SUCCESS then
        ({ ret := l.rv, state := l.state, trace := [Event.request_ping] ++ l.trace } :
          Outcome σ Int)
      else
        { ret := l.rv, state := l.state
          trace := [Event.request_ping] ++ l.trace ++
            set_role_effects K l.state R_PRIMARY l.forced }).ret = l.rv := by
    intro l
    split_ifs <;> rfl
  have hset : ∀ l, set_role_loop K false 0 { role := R_MASK } { role := R_PRIMARY } false
      SS_UNKNOWN_ERROR s = l →
      (∃ tail, (drbd_set_role K s R_PRIMARY false).trace =
        Event.request_ping :: (l.trace ++ tail)) ∧
      (drbd_set_role K s R_PRIMARY false).ret = l.rv := by
    intro l hl
    subst hl
    unfold drbd_set_role
    simp only [if_true]
    exact ⟨htrace _, hret _⟩
  constructor
  · obtain ⟨rest, hrest⟩ := set_role_loop_head K false 1
      (if (conn_try_outdate_peer K (primary_request K s).2).ret = true then
        { role := R_MASK, disk := D_MASK } else { role := R_MASK })
      (if (conn_try_outdate_peer K (primary_request K s).2).ret = true then
        { role := R_PRIMARY, disk := D_UP_TO_DATE } else { role := R_PRIMARY })
      false SS_NO_UP_TO_DATE_DISK (conn_try_outdate_peer K (primary_request K s).2).state
      (by decide)
    obtain ⟨⟨tail, htail⟩, -⟩ := hset _ hstep
    refine ⟨(if (conn_try_outdate_peer K (primary_request K s).2).ret = true then
        { role := R_MASK, disk := D_MASK } else { role := R_MASK }),
      (if (conn_try_outdate_peer K (primary_request K s).2).ret = true then
        { role := R_PRIMARY, disk := D_UP_TO_DATE } else { role := R_PRIMARY }),
      _, rest ++ tail, ?_, ?_, ?_, ?_, rfl, ?_⟩
    · rw [htail]
      simp only [role_loop_result.after]
      erw [hrest]
      simp [primary_request]
    · split_ifs <;> rfl
    · split_ifs <;> rfl
    · split_ifs <;> rfl
    · split_ifs with hc
      · simp [hc]
      · simp [hc, D_MASK]
  · intro hc hfp
    have hdc := conn_try_outdate_peer_dont_care K (primary_request K s).2 hc hfp
    have hdc2 : conn_try_outdate_peer K
        (K._drbd_request_state s { role := R_MASK } { role := R_PRIMARY } CS_WAIT_COMPLETE).2 =
        { ret := true, state := (primary_request K s).2, trace := [] } := hdc
    rw [hdc2] at hstep
    simp only [if_true] at hstep
    obtain ⟨⟨tail, htail⟩, hr⟩ := hset _ hstep
    refine ⟨by rw [hdc], by rw [hdc], ?_, ?_⟩
    · obtain ⟨rest, hrest⟩ := set_role_loop_head K false 1 { role := R_MASK, disk := D_MASK }
        { role := R_PRIMARY, disk := D_UP_TO_DATE } false SS_NO_UP_TO_DATE_DISK
        (primary_request K s).2 (by decide)
      refine ⟨rest ++ tail, ?_⟩
      rw [htail]
      simp only [role_loop_result.after]
      erw [hrest]
      simp [primary_up_to_date_request]
    · intro hacc
      rw [hr]
      exact set_role_loop_accepted K false 1 _ _ false _ _ (by decide) hacc

theorem role_loop_result_after_fields (tr : List Event) (r : role_loop_result σ) :
    (r.after tr).rv = r.rv ∧ (r.after tr).goto_out = r.goto_out ∧
    (r.after tr).state = r.state ∧ (r.after tr).trace = tr ++ r.trace :=
  ⟨rfl, rfl, rfl, rfl⟩

/-- The result of `drbd_set_role` is that of its retry loop, entered with the
role alone in the request. -/
theorem drbd_set_role_of_loop (K : Kernel σ) (s : σ) (new_role : Nat) (force : Bool) :
    (drbd_set_role K s new_role force).ret =
      (set_role_loop K force 0 { role := R_MASK } { role := new_role } false
        SS_UNKNOWN_ERROR s).rv ∧
    ∃ tail, (drbd_set_role K s new_role force).trace =
      (if new_role = R_PRIMARY then [Event.request_ping] else []) ++
        (set_role_loop K force 0 { role := R_MASK } { role := new_role } false
          SS_UNKNOWN_ERROR s).trace ++ tail := by
  unfold drbd_set_role
  simp only []
  generalize (if new_role = R_PRIMARY then [Event.request_ping] else []) = ping
  split_ifs
  · exact ⟨rfl, [], by simp⟩
  · exact ⟨rfl, _, rfl⟩

/-- C10 (counterexample): the first request of `drbd_set_role(mdev, R_PRIMARY, 0)`
is rejected because of two primaries, which leaves one more pass; the request
of that pass is rejected with SS_NO_UP_TO_DATE_DISK while the local disk is
Consistent and the request has no peer disk in its mask; the fencing
coordinator is consulted and returns true, but no further request is made:
the loop is over and `drbd_set_role` returns SS_NO_UP_TO_DATE_DISK. -/
theorem C10_last_pass_counterexample :
    (drbd_set_role scripted w_two_primaries_then_no_disk R_PRIMARY false).trace =
      [Event.request_ping,
       Event._drbd_request_state { role := R_MASK } { role := R_PRIMARY } CS_WAIT_COMPLETE
         SS_TWO_PRIMARIES,
       Event.schedule_timeout,
       Event._drbd_request_state { role := R_MASK } { role := R_PRIMARY } CS_WAIT_COMPLETE
         SS_NO_UP_TO_DATE_DISK] ∧
    (drbd_set_role scripted w_two_primaries_then_no_disk R_PRIMARY false).ret
      = SS_NO_UP_TO_DATE_DISK ∧
    set_role_steps scripted false 0 { role := R_MASK } { role := R_PRIMARY }
        w_two_primaries_then_no_disk =
      [role_step.event (Event._drbd_request_state { role := R_MASK } { role := R_PRIMARY }
         CS_WAIT_COMPLETE SS_TWO_PRIMARIES),
       role_step.event Event.schedule_timeout,
       role_step.event (Event._drbd_request_state { role := R_MASK } { role := R_PRIMARY }
         CS_WAIT_COMPLETE SS_NO_UP_TO_DATE_DISK),
       role_step.fenced true] ∧
    (scripted.mdev_state { w_two_primaries_then_no_disk with script := [] }).disk
      = D_CONSISTENT ∧
    (conn_try_outdate_peer scripted
      { w_two_primaries_then_no_disk with script := [] }).ret = true := by
  refine ⟨?_, ?_, ?_, ?_, ?_⟩
  · unfold drbd_set_role
    simp only [if_true]
    iterate 3
      rw [set_role_loop]
      simp [max_tries, scripted, w_two_primaries_then_no_disk, conn_try_outdate_peer,
        role_loop_result.after, first_state, highest_fencing_policy, get_ldev_if_state,
        SS_PRIMARY_NOP, SS_SUCCESS, SS_CW_FAILED_BY_PEER, SS_NO_UP_TO_DATE_DISK,
        SS_NOTHING_TO_DO, C_WF_REPORT_PARAMS, C_CONNECTED, SS_NO_LOCAL_DISK, SS_TWO_PRIMARIES,
        D_CONSISTENT, D_UP_TO_DATE, D_INCONSISTENT, FP_DONT_CARE, FP_NOT_AVAIL]
  · unfold drbd_set_role
    simp only [if_true]
    iterate 3
      rw [set_role_loop]
      simp [max_tries, scripted, w_two_primaries_then_no_disk, conn_try_outdate_peer,
        role_loop_result.after, first_state, highest_fencing_policy, get_ldev_if_state,
        SS_PRIMARY_NOP, SS_SUCCESS, SS_CW_FAILED_BY_PEER, SS_NO_UP_TO_DATE_DISK,
        SS_NOTHING_TO_DO, C_WF_REPORT_PARAMS, C_CONNECTED, SS_NO_LOCAL_DISK, SS_TWO_PRIMARIES,
        D_CONSISTENT, D_UP_TO_DATE, D_INCONSISTENT, FP_DONT_CARE, FP_NOT_AVAIL]
  · iterate 3
      rw [set_role_steps]
      simp [max_tries, scripted, w_two_primaries_then_no_disk, conn_try_outdate_peer,
        first_state, highest_fencing_policy, get_ldev_if_state,
        SS_PRIMARY_NOP, SS_SUCCESS, SS_CW_FAILED_BY_PEER, SS_NO_UP_TO_DATE_DISK,
        SS_NOTHING_TO_DO, C_WF_REPORT_PARAMS, C_CONNECTED, SS_NO_LOCAL_DISK, SS_TWO_PRIMARIES,
        D_CONSISTENT, D_UP_TO_DATE, D_INCONSISTENT, FP_DONT_CARE, FP_NOT_AVAIL]
  · decide
  · decide

/-- C10 (amended): in `drbd_set_role` with force = 0, in any pass of the retry
loop (the loop entered with the current `try`, `mask`, `val`, `forced` and `rv`
in the world `s`) whose request is rejected with SS_NO_UP_TO_DATE_DISK while
the local disk is exactly Consistent and the request has no peer disk in its
mask, `conn_try_outdate_peer` is called on the world the request left, and the
loop goes on in the world that call left with a request that is the rejected
one with local disk UpToDate added if the call returned true, and the rejected
one unchanged if it returned false.  If a pass is left, the next request is
that request; if the pass was the last one (also after a two-primaries
rejection shortened the loop), no request follows and the loop ends with
SS_NO_UP_TO_DATE_DISK, which `drbd_set_role` returns.  For the first request
of `drbd_set_role(mdev, R_PRIMARY, 0)` a pass is always left: the second
request asks for Primary, and for local disk UpToDate if and only if the call
returned true; with policy DontCare and connection state below
C_WF_REPORT_PARAMS the call runs no helper and makes no request, the second
request asks for Primary and UpToDate, and if the engine accepts it
`drbd_set_role` returns that acceptance. -/
theorem C10_fencing_raises_disk (K : Kernel σ) :
    (∀ (s : σ) (try_ : Nat) (mask val : drbd_state) (forced : Bool) (rv : Int),
      try_ < max_tries → mask.pdsk = 0 →
      (K._drbd_request_state s mask val CS_WAIT_COMPLETE).1 = SS_NO_UP_TO_DATE_DISK →
      (K.mdev_state (K._drbd_request_state s mask val CS_WAIT_COMPLETE).2).disk
        = D_CONSISTENT →
      ∃ mask2 val2,
        ((conn_try_outdate_peer K (K._drbd_request_state s mask val CS_WAIT_COMPLETE).2).ret
            = true →
          mask2 = { mask with disk := D_MASK } ∧ val2 = { val with disk := D_UP_TO_DATE }) ∧
        ((conn_try_outdate_peer K (K._drbd_request_state s mask val CS_WAIT_COMPLETE).2).ret
            = false →
          mask2 = mask ∧ val2 = val) ∧
        mask2.role = mask.role ∧ val2.role = val.role ∧ mask2.pdsk = 0 ∧
        set_role_loop K false try_ mask val forced rv s =
          (set_role_loop K false (try_ + 1) mask2 val2 forced SS_NO_UP_TO_DATE_DISK
            (conn_try_outdate_peer K
              (K._drbd_request_state s mask val CS_WAIT_COMPLETE).2).state).after
            (Event._drbd_request_state mask val CS_WAIT_COMPLETE SS_NO_UP_TO_DATE_DISK ::
              (conn_try_outdate_peer K
                (K._drbd_request_state s mask val CS_WAIT_COMPLETE).2).trace) ∧
        (try_ + 1 < max_tries →
          ∃ rest, (set_role_loop K false try_ mask val forced rv s).trace =
            Event._drbd_request_state mask val CS_WAIT_COMPLETE SS_NO_UP_TO_DATE_DISK ::
            ((conn_try_outdate_peer K
                (K._drbd_request_state s mask val CS_WAIT_COMPLETE).2).trace ++
              Event._drbd_request_state mask2 val2 CS_WAIT_COMPLETE
                (K._drbd_request_state (conn_try_outdate_peer K
                  (K._drbd_request_state s mask val CS_WAIT_COMPLETE).2).state
                  mask2 val2 CS_WAIT_COMPLETE).1 :: rest)) ∧
        (¬ try_ + 1 < max_tries →
          (set_role_loop K false try_ mask val forced rv s).trace =
            Event._drbd_request_state mask val CS_WAIT_COMPLETE SS_NO_UP_TO_DATE_DISK ::
              (conn_try_outdate_peer K
                (K._drbd_request_state s mask val CS_WAIT_COMPLETE).2).trace ∧
          (set_role_loop K false try_ mask val forced rv s).rv = SS_NO_UP_TO_DATE_DISK ∧
          (set_role_loop K false try_ mask val forced rv s).goto_out = false)) ∧
    (∀ (s : σ) (new_role : Nat),
      (drbd_set_role K s new_role false).ret =
        (set_role_loop K false 0 { role := R_MASK } { role := new_role } false
          SS_UNKNOWN_ERROR s).rv ∧
      ∃ tail, (drbd_set_role K s new_role false).trace =
        (if new_role = R_PRIMARY then [Event.request_ping] else []) ++
          (set_role_loop K false 0 { role := R_MASK } { role := new_role } false
            SS_UNKNOWN_ERROR s).trace ++ tail) ∧
    (∀ s : σ,
      (primary_request K s).1 = SS_NO_UP_TO_DATE_DISK →
      (K.mdev_state (primary_request K s).2).disk = D_CONSISTENT →
      (∃ mask val rv2 rest,
        (drbd_set_role K s R_PRIMARY false).trace =
          Event.request_ping ::
          Event._drbd_request_state { role := R_MASK } { role := R_PRIMARY } CS_WAIT_COMPLETE
            SS_NO_UP_TO_DATE_DISK ::
          ((conn_try_outdate_peer K (primary_request K s).2).trace ++
            Event._drbd_request_state mask val CS_WAIT_COMPLETE rv2 :: rest) ∧
        mask.role = R_MASK ∧ val.role = R_PRIMARY ∧ mask.pdsk = 0 ∧
        rv2 = (K._drbd_request_state (conn_try_outdate_peer K (primary_request K s).2).state
          mask val CS_WAIT_COMPLETE).1 ∧
        ((mask.disk = D_MASK ∧ val.disk = D_UP_TO_DATE) ↔
          (conn_try_outdate_peer K (primary_request K s).2).ret = true)) ∧
      (K.cstate (primary_request K s).2 < C_WF_REPORT_PARAMS →
        highest_fencing_policy (K.volumes (primary_request K s).2) = FP_DONT_CARE →
        (conn_try_outdate_peer K (primary_request K s).2).ret = true ∧
        (conn_try_outdate_peer K (primary_request K s).2).trace = [] ∧
        (∃ rest, (drbd_set_role K s R_PRIMARY false).trace =
          Event.request_ping ::
          Event._drbd_request_state { role := R_MASK } { role := R_PRIMARY } CS_WAIT_COMPLETE
            SS_NO_UP_TO_DATE_DISK ::
          Event._drbd_request_state { role := R_MASK, disk := D_MASK }
            { role := R_PRIMARY, disk := D_UP_TO_DATE } CS_WAIT_COMPLETE
            (primary_up_to_date_request K (primary_request K s).2).1 :: rest) ∧
        (SS_SUCCESS ≤ (primary_up_to_date_request K (primary_request K s).2).1 →
          (drbd_set_role K s R_PRIMARY false).ret =
            (primary_up_to_date_request K (primary_request K s).2).1))) := by
  refine ⟨?_, fun s new_role => drbd_set_role_of_loop K s new_role false,
    fun s h1 hd => drbd_set_role_first_fence K s h1 hd⟩
  intro s try_ mask val forced rv ht hp h1 hd
  have hstep := set_role_loop_fence_step K s try_ mask val forced rv ht hp h1 hd
  generalize hf : conn_try_outdate_peer K
    (K._drbd_request_state s mask val CS_WAIT_COMPLETE).2 = f at hstep ⊢
  refine ⟨if f.ret = true then { mask with disk := D_MASK } else mask,
    if f.ret = true then { val with disk := D_UP_TO_DATE } else val,
    fun h => by simp [h], fun h => by simp [h], by split_ifs <;> rfl,
    by split_ifs <;> rfl, by split_ifs <;> first | rfl | exact hp, hstep, ?_, ?_⟩
  · intro hlt
    obtain ⟨rest, hrest⟩ := set_role_loop_head K false (try_ + 1)
      (if f.ret = true then { mask with disk := D_MASK } else mask)
      (if f.ret = true then { val with disk := D_UP_TO_DATE } else val)
      forced SS_NO_UP_TO_DATE_DISK f.state hlt
    refine ⟨rest, ?_⟩
    rw [hstep, (role_loop_result_after_fields _ _).2.2.2, hrest]
    simp
  · intro hlast
    rw [hstep, set_role_loop_done K false (try_ + 1) _ _ forced SS_NO_UP_TO_DATE_DISK f.state
      hlast]
    exact ⟨by simp [role_loop_result.after], rfl, rfl⟩

/-- Witness of C10 in the world `w_consistent_dont_care`: the first request is
refused, the second one is accepted and `drbd_set_role` returns SS_SUCCESS. -/
theorem C10_fencing_raises_disk_witness :
    (drbd_set_role scripted w_consistent_dont_care R_PRIMARY false).ret = SS_SUCCESS :=
  ((C10_fencing_raises_disk scripted).2.2 w_consistent_dont_care (by decide) (by decide)).2
    (by decide) (by decide) |>.2.2.2 (by decide)

/-! ## Properties of the cross-field rules of the network options -/

theorem to_u32_eq_iff (x : Nat) : to_u32 x = (x : Int) ↔ x < 2 ^ 32 := by
  unfold to_u32
  constructor
  · intro h
    have h2 : x % 2 ^ 32 = x := by exact_mod_cast h
    have := Nat.mod_lt x (show 0 < 2 ^ 32 by norm_num)
    omega
  · intro h
    rw [Nat.mod_eq_of_lt h]

theorem to_s32_neg_eq_iff (x : Nat) : to_s32 (-(x : Int)) = -(x : Int) ↔ x ≤ 2 ^ 31 := by
  unfold to_s32
  norm_num
  omega

end Drbd
